import Mathlib

/-!
# Luau bytecode disassembler: embedding and verified properties

A shallow embedding of `server/disassembler/bytecode.hpp` and
`server/disassembler/disassembler.cpp`.

Conventions of the embedding

* `const char* data` is a pointer without a length, so the input is a function
  `Nat → Nat` from byte offsets to the byte stored there (reduced modulo 256 on
  every read).  The request buffer is a prefix of that memory; the decoder is
  never told where it ends.
* Unsigned machine integers are `Nat` with explicit `% 2 ^ 32`; signed ones are
  `Int`.  A `std::string` is a `String` whose characters stand for its bytes.
* A C++ exception, an aborting `sprintf_s` and undefined behaviour of the
  abstract machine are outcomes of type `Fault`.
-/

namespace LuauDisassembler

/-! ## Outcomes -/

/-- The ways in which a call can end without a value.
`invalidBytecode` and `unknownConstantType` are the two `throw` statements of
`deserialize_bytecode`.  `undefinedBehaviour` marks an operation that has no
defined result in C++: an element access outside a `std::vector` or array, a
read of a union member that is not the active one, an assignment through a
union member of class type that was never constructed, a shift by at least
the width of the operand.  `bufferTooSmall` is `sprintf_s` reaching its invalid
parameter handler because the text does not fit the destination array. -/
inductive Fault where
  | invalidBytecode
  | unknownConstantType
  | undefinedBehaviour
  | bufferTooSmall
  deriving DecidableEq, Repr

/-! ## bytecode.hpp: instruction fields -/

/-- Value of a 32-bit pattern read as `int32_t` (two's complement); for an
arbitrary integer, the value of its low 32 bits.  The comparison is made on
`Nat` so that reduction over an open term stops at the first variable. -/
def toInt32 (x : Int) : Int :=
  let m : Nat := (x % 4294967296).toNat
  if m < 2147483648 then (m : Int) else (m : Int) - 4294967296

/-- The `uint32_t` expression `x - 1`: it wraps to `0xFFFFFFFF` at zero. -/
def dec32 (x : Nat) : Nat :=
  if x % 4294967296 = 0 then 4294967295 else x % 4294967296 - 1

/-- Macro `#define LUAU_INSN_OP(insn) ((insn) & 0xff)`. -/
def LUAU_INSN_OP (insn : Nat) : Nat := insn &&& 0xff

/-- Macro `#define LUAU_INSN_A(insn) (((insn) >> 8) & 0xff)`. -/
def LUAU_INSN_A (insn : Nat) : Nat := (insn >>> 8) &&& 0xff

/-- Macro `#define LUAU_INSN_B(insn) (((insn) >> 16) & 0xff)`. -/
def LUAU_INSN_B (insn : Nat) : Nat := (insn >>> 16) &&& 0xff

/-- Macro `#define LUAU_INSN_C(insn) (((insn) >> 24) & 0xff)`. -/
def LUAU_INSN_C (insn : Nat) : Nat := (insn >>> 24) &&& 0xff

/-- Macro `#define LUAU_INSN_D(insn) (int32_t(insn) >> 16)`: arithmetic shift of the
signed word. -/
def LUAU_INSN_D (insn : Nat) : Int := toInt32 insn >>> (16 : Nat)

/-- Macro `#define LUAU_INSN_E(insn) (int32_t(insn) >> 8)`. -/
def LUAU_INSN_E (insn : Nat) : Int := toInt32 insn >>> (8 : Nat)

/-! ## bytecode.hpp: `enum LuauOpcode` -/

def LOP_NOP : Nat := 0x00
def LOP_BREAK : Nat := 0xE3
def LOP_LOADNIL : Nat := 0xC6
def LOP_LOADB : Nat := 0xA9
def LOP_LOADN : Nat := 0x8C
def LOP_LOADK : Nat := 0x6F
def LOP_MOVE : Nat := 0x52
def LOP_GETGLOBAL : Nat := 0x35
def LOP_SETGLOBAL : Nat := 0x18
def LOP_GETUPVAL : Nat := 0xFB
def LOP_SETUPVAL : Nat := 0xDE
def LOP_CLOSEUPVALS : Nat := 0xC1
def LOP_GETIMPORT : Nat := 0xA4
def LOP_GETTABLE : Nat := 0x87
def LOP_SETTABLE : Nat := 0x6A
def LOP_GETTABLEKS : Nat := 0x4D
def LOP_SETTABLEKS : Nat := 0x30
def LOP_GETTABLEN : Nat := 0x13
def LOP_SETTABLEN : Nat := 0xF6
def LOP_NEWCLOSURE : Nat := 0xD9
def LOP_NAMECALL : Nat := 0xBC
def LOP_CALL : Nat := 0x9F
def LOP_RETURN : Nat := 0x82
def LOP_JUMP : Nat := 0x65
def LOP_JUMPBACK : Nat := 0x48
def LOP_JUMPIF : Nat := 0x2B
def LOP_JUMPIFNOT : Nat := 0x0E
def LOP_JUMPIFEQ : Nat := 0xF1
def LOP_JUMPIFLE : Nat := 0xD4
def LOP_JUMPIFLT : Nat := 0xB7
def LOP_JUMPIFNOTEQ : Nat := 0x9A
def LOP_JUMPIFNOTLE : Nat := 0x7D
def LOP_JUMPIFNOTLT : Nat := 0x60
def LOP_ADD : Nat := 0x43
def LOP_SUB : Nat := 0x26
def LOP_MUL : Nat := 0x09
def LOP_DIV : Nat := 0xEC
def LOP_MOD : Nat := 0xCF
def LOP_POW : Nat := 0xB2
def LOP_ADDK : Nat := 0x95
def LOP_SUBK : Nat := 0x78
def LOP_MULK : Nat := 0x5B
def LOP_DIVK : Nat := 0x3E
def LOP_MODK : Nat := 0x21
def LOP_POWK : Nat := 0x04
def LOP_AND : Nat := 0xE7
def LOP_OR : Nat := 0xCA
def LOP_ANDK : Nat := 0xAD
def LOP_ORK : Nat := 0x90
def LOP_CONCAT : Nat := 0x73
def LOP_NOT : Nat := 0x56
def LOP_MINUS : Nat := 0x39
def LOP_LENGTH : Nat := 0x1C
def LOP_NEWTABLE : Nat := 0xFF
def LOP_DUPTABLE : Nat := 0xE2
def LOP_SETLIST : Nat := 0xC5
def LOP_FORNPREP : Nat := 0xA8
def LOP_FORNLOOP : Nat := 0x8B
def LOP_FORGLOOP : Nat := 0x6E
def LOP_FORGPREP_INEXT : Nat := 0x51
def LOP_FORGLOOP_INEXT : Nat := 0x34
def LOP_FORGPREP_NEXT : Nat := 0x17
def LOP_FORGLOOP_NEXT : Nat := 0xFA
def LOP_GETVARARGS : Nat := 0xDD
def LOP_DUPCLOSURE : Nat := 0xC0
def LOP_PREPVARARGS : Nat := 0xA3
def LOP_LOADKX : Nat := 0x86
def LOP_JUMPX : Nat := 0x69
def LOP_FASTCALL : Nat := 0x4C
def LOP_COVERAGE : Nat := 0x2F
def LOP_CAPTURE : Nat := 0x12
def LOP_JUMPIFEQK : Nat := 0xF5
def LOP_JUMPIFNOTEQK : Nat := 0xD8
def LOP_FASTCALL1 : Nat := 0xBB
def LOP_FASTCALL2 : Nat := 0x9E
def LOP_FASTCALL2K : Nat := 0x81

/-- Every enumerator of `enum LuauOpcode`, in declaration order. -/
def luauOpcodes : List Nat :=
  [LOP_NOP, LOP_BREAK, LOP_LOADNIL, LOP_LOADB, LOP_LOADN, LOP_LOADK, LOP_MOVE,
   LOP_GETGLOBAL, LOP_SETGLOBAL, LOP_GETUPVAL, LOP_SETUPVAL, LOP_CLOSEUPVALS,
   LOP_GETIMPORT, LOP_GETTABLE, LOP_SETTABLE, LOP_GETTABLEKS, LOP_SETTABLEKS,
   LOP_GETTABLEN, LOP_SETTABLEN, LOP_NEWCLOSURE, LOP_NAMECALL, LOP_CALL,
   LOP_RETURN, LOP_JUMP, LOP_JUMPBACK, LOP_JUMPIF, LOP_JUMPIFNOT, LOP_JUMPIFEQ,
   LOP_JUMPIFLE, LOP_JUMPIFLT, LOP_JUMPIFNOTEQ, LOP_JUMPIFNOTLE,
   LOP_JUMPIFNOTLT, LOP_ADD, LOP_SUB, LOP_MUL, LOP_DIV, LOP_MOD, LOP_POW,
   LOP_ADDK, LOP_SUBK, LOP_MULK, LOP_DIVK, LOP_MODK, LOP_POWK, LOP_AND, LOP_OR,
   LOP_ANDK, LOP_ORK, LOP_CONCAT, LOP_NOT, LOP_MINUS, LOP_LENGTH, LOP_NEWTABLE,
   LOP_DUPTABLE, LOP_SETLIST, LOP_FORNPREP, LOP_FORNLOOP, LOP_FORGLOOP,
   LOP_FORGPREP_INEXT, LOP_FORGLOOP_INEXT, LOP_FORGPREP_NEXT,
   LOP_FORGLOOP_NEXT, LOP_GETVARARGS, LOP_DUPCLOSURE, LOP_PREPVARARGS,
   LOP_LOADKX, LOP_JUMPX, LOP_FASTCALL, LOP_COVERAGE, LOP_CAPTURE,
   LOP_JUMPIFEQK, LOP_JUMPIFNOTEQK, LOP_FASTCALL1, LOP_FASTCALL2,
   LOP_FASTCALL2K]

/-- The opcodes whose comment in `bytecode.hpp` documents an `AUX` word. -/
def documentedAuxOpcodes : List Nat :=
  [LOP_GETGLOBAL, LOP_SETGLOBAL, LOP_GETIMPORT, LOP_GETTABLEKS, LOP_SETTABLEKS,
   LOP_NAMECALL, LOP_JUMPIFEQ, LOP_JUMPIFLE, LOP_JUMPIFLT, LOP_JUMPIFNOTEQ,
   LOP_JUMPIFNOTLE, LOP_JUMPIFNOTLT, LOP_NEWTABLE, LOP_SETLIST, LOP_FORGLOOP,
   LOP_LOADKX, LOP_JUMPIFEQK, LOP_JUMPIFNOTEQK, LOP_FASTCALL2, LOP_FASTCALL2K]

/-! ## disassembler.cpp: data model -/

/-- Enumerators of `enum LuaType : uint8_t`. -/
def LUA_TNIL : Nat := 0
def LUA_TBOOLEAN : Nat := 1
def LUA_TNUMBER : Nat := 2
def LUA_TSTRING : Nat := 3
def LUA_TIMPORT : Nat := 4

/-- Record `struct LuaImport`. -/
structure LuaImport where
  count : Nat := 0
  displayString : String := ""
  deriving DecidableEq, Repr

/-- The `union LuaValueUnion`, as the member that is currently active and its
value.  A `double` is kept as its 64-bit pattern.  The default constructor
activates `import` with a default `LuaImport`. -/
inductive LuaValueUnion where
  | boolean (b : Bool)
  | number (bits : Nat)
  | str (s : String)
  | imp (i : LuaImport)
  deriving DecidableEq, Repr

/-- Record `struct LuaValue`: the union and the separate `type` tag.  The default
value (also what the user-written empty copy constructor produces) is tag
`LUA_TNIL` over a default `import` member. -/
structure LuaValue where
  value : LuaValueUnion := LuaValueUnion.imp {}
  type : Nat := LUA_TNIL
  deriving DecidableEq, Repr

/-- Record `struct Proto`.  `lineinfo = none` is the null pointer; otherwise it holds
the bytes `lineinfo[0 .. code.size())` of the allocated block, and
`abslineinfo` the `int`s written through `abslineinfo`, which points
`absoffset` bytes into the same block. -/
structure Proto where
  maxstacksize : Nat := 0
  numparams : Nat := 0
  nups : Nat := 0
  is_vararg : Nat := 0
  code : List Nat := []
  k : List LuaValue := []
  p : List Nat := []
  lineinfo : Option (List Nat) := none
  abslineinfo : List Int := []
  debugname : String := "UNNAMED"
  linegaplog2 : Nat := 0
  sizelineinfo : Nat := 0
  sizelocvars : Nat := 0
  sizeupvalues : Nat := 0
  linedefined : Nat := 0
  deriving DecidableEq, Repr

/-- Read of `.value.str`: defined only while `str` is the active member. -/
def LuaValue.getStr (v : LuaValue) : Except Fault String :=
  match v.value with
  | LuaValueUnion.str s => .ok s
  | _ => .error Fault.undefinedBehaviour

/-- Read of `.value.number`: defined only while `number` is the active
member. -/
def LuaValue.getNumber (v : LuaValue) : Except Fault Nat :=
  match v.value with
  | LuaValueUnion.number d => .ok d
  | _ => .error Fault.undefinedBehaviour

/-- Read of `.value.boolean`: defined only while `boolean` is the active
member. -/
def LuaValue.getBoolean (v : LuaValue) : Except Fault Bool :=
  match v.value with
  | LuaValueUnion.boolean b => .ok b
  | _ => .error Fault.undefinedBehaviour

/-- Unchecked `operator[]` of a `std::vector` (or a built-in array) with a
signed index: outside `0 .. size()` the access is undefined. -/
def index {α : Type} (xs : List α) (i : Int) : Except Fault α :=
  match i with
  | Int.ofNat n =>
    match xs[n]? with
    | some x => .ok x
    | none => .error Fault.undefinedBehaviour
  | Int.negSucc _ => .error Fault.undefinedBehaviour

/-! ## C library formatting used by the disassembler -/

/-- Conversion `%i` of `sprintf_s`: the argument's low 32 bits as a signed
decimal.  Arguments of type `size_t` and `uint32_t` reach `%i` in the source;
32 bits of them are consumed. -/
def fmt_i (x : Int) : String :=
  match toInt32 x with
  | Int.ofNat n => Nat.repr n
  | Int.negSucc n => "-" ++ Nat.repr (n + 1)

/-- Left padding with the character `0` up to width `w`. -/
def zeroPad (w : Nat) (s : String) : String :=
  String.mk (List.replicate (w - s.length) (Char.ofNat 48)) ++ s

/-- Conversion `%03i`: signed decimal of the low 32 bits, zero padded to a
field of three characters (the sign counts). -/
def fmt_03i (x : Int) : String :=
  match toInt32 x with
  | Int.ofNat n => zeroPad 3 (Nat.repr n)
  | Int.negSucc n => "-" ++ zeroPad 2 (Nat.repr (n + 1))

/-- Upper-case hexadecimal digits of a number. -/
def hexUpper (n : Nat) : String :=
  String.mk ((Nat.toDigits 16 n).map Char.toUpper)

/-- Conversion `%#010X` of a 32-bit value: upper-case hexadecimal in a field of
ten characters, zero padded, preceded by `0X` unless the value is zero (the
alternate form adds no radix mark to zero). -/
def fmt_hash010X (n : Nat) : String :=
  if n % 4294967296 = 0 then zeroPad 10 "0"
  else "0X" ++ zeroPad 8 (hexUpper (n % 4294967296))

/-- Conversion `%0.2X`: upper-case hexadecimal with at least two digits. -/
def fmt_0_2X (n : Nat) : String := zeroPad 2 (hexUpper n)

/-- Text seen through `c_str()` by `%s`: the bytes before the first NUL. -/
def c_str (s : String) : String :=
  String.mk (s.data.takeWhile (fun c => c != Char.ofNat 0))

/-- Call `sprintf_s(buffer, ...)` on a `char buffer[cap]`: the text and its
terminator must fit, otherwise the invalid parameter handler ends the
process. -/
def sprintf_s (cap : Nat) (text : String) : Except Fault String :=
  if text.length < cap then .ok text else .error Fault.bufferTooSmall

/-- The text `"MULTRET"` for 0, else the decimal of the count minus one:
`n == 0 ? "MULTRET" : std::to_string(n - 1).c_str()`. -/
def multretOrCount (n : Nat) : String :=
  if n = 0 then "MULTRET" else fmt_i ((n : Int) - 1)

/-! ## disassembler.cpp: `dissect_import` -/

/-- Function `dissect_import(uint32_t id, std::vector<LuaValue>& k)`. -/
def dissect_import (id : Nat) (k : List LuaValue) : Except Fault LuaImport := do
  let count := (id >>> 30) % 256
  let id0 : Int := if count > 0 then ((id >>> 20) &&& 1023 : Nat) else -1
  let id1 : Int := if count > 1 then ((id >>> 10) &&& 1023 : Nat) else -1
  let id2 : Int := if count > 2 then (id &&& 1023 : Nat) else -1
  let s0 ← (← index k id0).getStr
  let displayString ←
    if id1 ≥ 0 then do
      let s1 ← (← index k id1).getStr
      let displayString := s0 ++ ("." ++ s1)
      if id2 ≥ 0 then do
        let s2 ← (← index k id2).getStr
        pure (displayString ++ ("." ++ s2))
      else pure displayString
    else pure s0
  pure { count := count, displayString := displayString }

/-! ## disassembler.cpp: `read` and `readLEB128` -/

/-- Little-endian value of the `n` bytes stored at `offset`. -/
def leValue (data : Nat → Nat) (offset : Nat) : Nat → Nat
  | 0 => 0
  | n + 1 => data offset % 256 + 256 * leValue data (offset + 1) n

/-- Template `read<T>(data, offset)` for a `T` of `size` bytes: `memcpy` of
`size` bytes at `data + offset` (little-endian target), then
`offset += sizeof(T)`.  No bound is checked.  The result pairs the value with
the new offset. -/
def read (size : Nat) (data : Nat → Nat) (offset : Nat) : Nat × Nat :=
  (leValue data offset size, offset + size)

/-- The `do ... while (byte & 128)` loop of `readLEB128`, with the state
`(offset, result, shift)`.  The first argument bounds the iterations: after
five of them `shift` is 35, and a sixth would evaluate
`(byte & 127) << 35` on a 32-bit `int`, which is undefined. -/
def readLEB128Loop (data : Nat → Nat) : Nat → Nat → Nat → Nat → Except Fault (Nat × Nat)
  | 0, _, _, _ => .error Fault.undefinedBehaviour
  | n + 1, offset, result, shift =>
    let (byte, offset) := read 1 data offset
    let result := result ||| (((byte &&& 127) <<< shift) % 4294967296)
    let shift := shift + 7
    if byte &&& 128 ≠ 0 then readLEB128Loop data n offset result shift
    else .ok (result, offset)

/-- Function `readLEB128(data, offset)`: value and new offset. -/
def readLEB128 (data : Nat → Nat) (offset : Nat) : Except Fault (Nat × Nat) :=
  readLEB128Loop data 5 offset 0 0

/-! ## disassembler.cpp: `deserialize_bytecode` -/

/-- Bytes `data[offset .. offset + n)` as a `std::string`:
`std::string(data + offset, n)`. -/
def stringAt (data : Nat → Nat) (offset n : Nat) : String :=
  String.mk ((List.range n).map (fun i => Char.ofNat (data (offset + i) % 256)))

/-- The string table loop `for (i = 0; i < stringCount; i++)`; the first
argument counts the iterations left. -/
def readStringTable (data : Nat → Nat) :
    Nat → Nat → List String → Except Fault (List String × Nat)
  | 0, offset, stringTable => .ok (stringTable, offset)
  | n + 1, offset, stringTable => do
    let (stringLength, offset) ← readLEB128 data offset
    let stringTable := stringTable ++ [stringAt data offset stringLength]
    readStringTable data n (offset + stringLength) stringTable

/-- The loop `for (j = 0; j < sizecode; j++) p->code.push_back(read<uint32_t>(data, offset))`. -/
def readCode (data : Nat → Nat) : Nat → Nat → List Nat → List Nat × Nat
  | 0, offset, code => (code, offset)
  | n + 1, offset, code =>
    let (insn, offset) := read 4 data offset
    readCode data n offset (code ++ [insn])

/-- The key loop of a table constant: `keys` LEB128 values, all discarded. -/
def readTableKeys (data : Nat → Nat) : Nat → Nat → Except Fault Nat
  | 0, offset => .ok offset
  | n + 1, offset => do
    let (_, offset) ← readLEB128 data offset
    readTableKeys data n offset

/-- One iteration of the constant loop: `p->k.push_back(LuaValue())`, the tag
byte, and the `switch (constantType)`.  `k` holds the entries decoded so far;
the result is `k` with the new entry appended, and the new offset.  The pushed
entry is default-initialised by the empty copy constructor, so its active
union member is `import`; case 3 assigns through the member `str`, a
`std::string` whose lifetime never began, which is undefined behaviour. -/
def readConstant (data : Nat → Nat) (stringTable : List String) (k : List LuaValue)
    (offset : Nat) : Except Fault (List LuaValue × Nat) :=
  let fresh : LuaValue := {}
  let (constantType, offset) := read 1 data offset
  match constantType with
  | 0 => .ok (k ++ [{ fresh with type := LUA_TNIL }], offset)
  | 1 =>
    let (v, offset) := read 1 data offset
    .ok (k ++ [{ value := LuaValueUnion.boolean (v != 0), type := LUA_TBOOLEAN }], offset)
  | 2 =>
    let (v, offset) := read 8 data offset
    .ok (k ++ [{ value := LuaValueUnion.number v, type := LUA_TNUMBER }], offset)
  | 3 => do
    let (id, _) ← readLEB128 data offset
    let _ ← index stringTable ((dec32 id : Nat) : Int)
    -- `constantValue->value.str = std::string(...)` calls the assignment operator
    -- of the member `str`, which was never constructed: the pushed entry holds the
    -- member `import` (`LuaValueUnion() : import(LuaImport())`).
    .error Fault.undefinedBehaviour
  | 4 => do
    let (iid, offset) := read 4 data offset
    let imp ← dissect_import iid (k ++ [{ fresh with type := LUA_TIMPORT }])
    .ok (k ++ [{ value := LuaValueUnion.imp imp, type := LUA_TIMPORT }], offset)
  | 5 => do
    let (keys, offset) ← readLEB128 data offset
    let offset ← readTableKeys data keys offset
    .ok (k ++ [fresh], offset)
  | 6 => do
    let (_, offset) ← readLEB128 data offset
    .ok (k ++ [fresh], offset)
  | _ => .error Fault.unknownConstantType

/-- The constant loop `for (j = 0; j < sizek; j++)`. -/
def readConstants (data : Nat → Nat) (stringTable : List String) :
    Nat → Nat → List LuaValue → Except Fault (List LuaValue × Nat)
  | 0, offset, k => .ok (k, offset)
  | n + 1, offset, k => do
    let (k, offset) ← readConstant data stringTable k offset
    readConstants data stringTable n offset k

/-- The child loop: `p->p.push_back(0); p->p[j] = readLEB128(data, offset)`. -/
def readChildren (data : Nat → Nat) : Nat → Nat → List Nat → Except Fault (List Nat × Nat)
  | 0, offset, p => .ok (p, offset)
  | n + 1, offset, p => do
    let (id, offset) ← readLEB128 data offset
    readChildren data n offset (p ++ [id])

/-- The loop over the per-instruction line offsets:
`lastoffset += read<uint8_t>(data, offset); p->lineinfo[j] = lastoffset`
with an 8-bit `lastoffset`. -/
def readLineOffsets (data : Nat → Nat) : Nat → Nat → Nat → List Nat → List Nat × Nat
  | 0, offset, _, lineinfo => (lineinfo, offset)
  | n + 1, offset, lastoffset, lineinfo =>
    let (b, offset) := read 1 data offset
    let lastoffset := (lastoffset + b) % 256
    readLineOffsets data n offset lastoffset (lineinfo ++ [lastoffset])

/-- The loop over the interval lines:
`lastLine += read<uint32_t>(data, offset); p->abslineinfo[j] = lastLine`
with an `int lastLine`. -/
def readAbsLines (data : Nat → Nat) : Nat → Nat → Int → List Int → List Int × Nat
  | 0, offset, _, abslineinfo => (abslineinfo, offset)
  | n + 1, offset, lastLine, abslineinfo =>
    let (d, offset) := read 4 data offset
    let lastLine := toInt32 (lastLine + d)
    readAbsLines data n offset lastLine (abslineinfo ++ [lastLine])

/-- The `if (lineinfo)` block of a prototype with `sizecode` instructions.
`intervals` and `absoffset` are `int`, `sizelineinfo` is `uint32_t`.  The
writes through `lineinfo` and `abslineinfo` are defined only inside the
`sizelineinfo` bytes allocated; when they are, `absoffset` is at least
`sizecode`, so the two regions do not overlap. -/
def readLineInfo (data : Nat → Nat) (sizecode : Nat) (p : Proto) (offset : Nat) :
    Except Fault (Proto × Nat) :=
  let (linegaplog2, offset) := read 1 data offset
  if linegaplog2 ≥ 32 then .error Fault.undefinedBehaviour
  else
    let intervals : Int :=
      toInt32 ((dec32 sizecode >>> linegaplog2 + 1 : Nat) : Int)
    let absoffset : Int :=
      toInt32 ((((sizecode + 3) % 4294967296) &&& 0xFFFFFFFC : Nat) : Int)
    let sizelineinfo : Nat := ((absoffset + intervals * 4) % 4294967296).toNat
    if absoffset < 0 ∨ (sizelineinfo : Int) < absoffset then .error Fault.undefinedBehaviour
    else if sizelineinfo < p.code.length then .error Fault.undefinedBehaviour
    else if 0 < intervals ∧ (sizelineinfo : Int) < absoffset + intervals * 4 then
      .error Fault.undefinedBehaviour
    else
      let (lineinfo, offset) := readLineOffsets data p.code.length offset 0 []
      let (abslineinfo, offset) := readAbsLines data intervals.toNat offset 0 []
      .ok ({ p with linegaplog2 := linegaplog2, sizelineinfo := sizelineinfo,
                    lineinfo := some lineinfo, abslineinfo := abslineinfo }, offset)

/-- The local-variable loop of the debug info: three LEB128 values and one
skipped byte per record. -/
def readLocvars (data : Nat → Nat) : Nat → Nat → Except Fault Nat
  | 0, offset => .ok offset
  | n + 1, offset => do
    let (_, offset) ← readLEB128 data offset
    let (_, offset) ← readLEB128 data offset
    let (_, offset) ← readLEB128 data offset
    readLocvars data n (offset + 1)

/-- The upvalue-name loop of the debug info: one LEB128 value per record. -/
def readUpvalueNames (data : Nat → Nat) : Nat → Nat → Except Fault Nat
  | 0, offset => .ok offset
  | n + 1, offset => do
    let (_, offset) ← readLEB128 data offset
    readUpvalueNames data n offset

/-- The statement `if (debugname_id) p->debugname = stringTable[debugname_id - 1];`. -/
def readDebugName (stringTable : List String) (p : Proto) (debugname_id : Nat) :
    Except Fault Proto :=
  if debugname_id ≠ 0 then do
    let s ← index stringTable ((dec32 debugname_id : Nat) : Int)
    pure { p with debugname := s }
  else pure p

/-- The flag byte `lineinfo` and, when it is set, the `if (lineinfo)` block. -/
def readLineInfoFlag (data : Nat → Nat) (sizecode : Nat) (p : Proto) (offset : Nat) :
    Except Fault (Proto × Nat) :=
  let (lineinfo, offset) := read 1 data offset
  if lineinfo ≠ 0 then readLineInfo data sizecode p offset else pure (p, offset)

/-- The flag byte `debuginfo` and, when it is set, the `if (debuginfo)` block. -/
def readDebugInfo (data : Nat → Nat) (p : Proto) (offset : Nat) :
    Except Fault (Proto × Nat) :=
  let (debuginfo, offset) := read 1 data offset
  if debuginfo ≠ 0 then do
    let (sizelocvars, offset) ← readLEB128 data offset
    let p := { p with sizelocvars := sizelocvars }
    let offset ← readLocvars data sizelocvars offset
    let (sizeupvalues, offset) ← readLEB128 data offset
    let p := { p with sizeupvalues := sizeupvalues }
    let offset ← readUpvalueNames data sizeupvalues offset
    pure (p, offset)
  else pure (p, offset)

/-- One iteration of the prototype loop of `deserialize_bytecode`. -/
def readProto (data : Nat → Nat) (stringTable : List String) (offset : Nat) :
    Except Fault (Proto × Nat) := do
  let p : Proto := {}
  let (maxstacksize, offset) := read 1 data offset
  let (numparams, offset) := read 1 data offset
  let (nups, offset) := read 1 data offset
  let (is_vararg, offset) := read 1 data offset
  let p := { p with maxstacksize := maxstacksize, numparams := numparams, nups := nups,
                    is_vararg := is_vararg }
  let (sizecode, offset) ← readLEB128 data offset
  let (code, offset) := readCode data sizecode offset []
  let p := { p with code := code }
  let (sizek, offset) ← readLEB128 data offset
  let (k, offset) ← readConstants data stringTable sizek offset []
  let p := { p with k := k }
  let (sizep, offset) ← readLEB128 data offset
  let (children, offset) ← readChildren data sizep offset []
  let p := { p with p := children }
  let (linedefined, offset) ← readLEB128 data offset
  let p := { p with linedefined := linedefined }
  let (debugname_id, offset) ← readLEB128 data offset
  let p ← readDebugName stringTable p debugname_id
  let (p, offset) ← readLineInfoFlag data sizecode p offset
  readDebugInfo data p offset

/-- The prototype loop `for (i = 0; i < protoCount; i++)`. -/
def readProtos (data : Nat → Nat) (stringTable : List String) :
    Nat → Nat → List Proto → Except Fault (List Proto × Nat)
  | 0, offset, protoTable => .ok (protoTable, offset)
  | n + 1, offset, protoTable => do
    let (p, offset) ← readProto data stringTable offset
    readProtos data stringTable n offset (protoTable ++ [p])

/-- Function `deserialize_bytecode(const char* data)`, together with the final
offset (which the source drops). -/
def deserialize_bytecode_at (data : Nat → Nat) : Except Fault (List Proto × Nat) := do
  let offset := 0
  let (version, offset) := read 1 data offset
  if version = 0 ∨ version ≠ 2 then .error Fault.invalidBytecode
  else do
    let (stringCount, offset) ← readLEB128 data offset
    let (stringTable, offset) ← readStringTable data stringCount offset []
    let (protoCount, offset) ← readLEB128 data offset
    let (protoTable, offset) ← readProtos data stringTable protoCount offset []
    let (_mainid, offset) ← readLEB128 data offset
    pure (protoTable, offset)

/-- Function `deserialize_bytecode(const char* data)`. -/
def deserialize_bytecode (data : Nat → Nat) : Except Fault (List Proto) :=
  (deserialize_bytecode_at data).map Prod.fst

/-! ## disassembler.cpp: rendering of one instruction -/

/-- Function `getLineNumberFromPc(Proto* p, int pc)`. -/
def getLineNumberFromPc (p : Proto) (pc : Int) : Except Fault Int :=
  match p.lineinfo with
  | none => .ok 0
  | some lineinfo =>
    if p.linegaplog2 ≥ 32 then .error Fault.undefinedBehaviour
    else do
      let abs ← index p.abslineinfo (pc >>> p.linegaplog2)
      let rel ← index lineinfo pc
      pure (toInt32 (abs + rel))

/-- Function `getConstantString(LuaValue* constant)`.  `fmt_4_3f` is the C
library's rendering of a `double`, given by its bit pattern, under `%4.3f`. -/
def getConstantString (fmt_4_3f : Nat → String) (constant : LuaValue) : Except Fault String :=
  if constant.type = LUA_TNIL then .ok "nil"
  else if constant.type = LUA_TBOOLEAN then do
    let b ← constant.getBoolean
    pure (if b != false then "true" else "false")
  else if constant.type = LUA_TSTRING then do
    let s ← constant.getStr
    pure ("'" ++ s ++ "'")
  else if constant.type = LUA_TNUMBER then do
    let d ← constant.getNumber
    sprintf_s 20 (fmt_4_3f d)
  else .ok "unknown"

/-- Array `const char* CAPTURE_TYPES[3]`. -/
def CAPTURE_TYPES : List String := ["VAL", "REF", "UPVAL"]

/-- Format `"<name> %i %i"` over the fields A and B. -/
def textAB (cap : Nat) (name : String) (insn : Nat) : Except Fault String :=
  sprintf_s cap (name ++ " " ++ fmt_i (LUAU_INSN_A insn) ++ " " ++ fmt_i (LUAU_INSN_B insn))

/-- Format `"<name> %i %i %i"` over the fields A, B and C. -/
def textABC (cap : Nat) (name : String) (insn : Nat) : Except Fault String :=
  sprintf_s cap (name ++ " " ++ fmt_i (LUAU_INSN_A insn) ++ " " ++ fmt_i (LUAU_INSN_B insn)
    ++ " " ++ fmt_i (LUAU_INSN_C insn))

/-- Format `"<name> %i %i"` over the fields A and D. -/
def textAD (cap : Nat) (name : String) (insn : Nat) : Except Fault String :=
  sprintf_s cap (name ++ " " ++ fmt_i (LUAU_INSN_A insn) ++ " " ++ fmt_i (LUAU_INSN_D insn))

/-- Cases `LOP_JUMP` and `LOP_JUMPBACK`: `"<name> %i ; to %i"` with the
arguments `offset` and `pc + offset + 1`. -/
def textJump (cap : Nat) (name : String) (insn pc : Nat) : Except Fault String :=
  let offset := LUAU_INSN_D insn
  sprintf_s cap (name ++ " " ++ fmt_i offset ++ " ; to " ++ fmt_i ((pc : Int) + offset + 1))

/-- Cases `LOP_JUMPIF`, `LOP_JUMPIFNOT`, `LOP_FORNPREP`, `LOP_FORNLOOP` and the
four `LOP_FORG*_*NEXT`: `"<name> %i %i ; to %i"` with the arguments A,
`offset` and `pc + offset + 1`. -/
def textJumpA (cap : Nat) (name : String) (insn pc : Nat) : Except Fault String :=
  let offset := LUAU_INSN_D insn
  sprintf_s cap (name ++ " " ++ fmt_i (LUAU_INSN_A insn) ++ " " ++ fmt_i offset ++ " ; to "
    ++ fmt_i ((pc : Int) + offset + 1))

/-- Cases `LOP_JUMPIFEQ` .. `LOP_JUMPIFNOTLT`: `pc++`, then
`jumpTo = pc + offset` and `aux = code[pc]`; format
`"<name> %i %i %i ; to %i"`. -/
def textJumpAux (name : String) (code : List Nat) (insn pc : Nat) :
    Except Fault (String × Nat) := do
  let offset := LUAU_INSN_D insn
  let pc := pc + 1
  let jumpTo : Int := (pc : Int) + offset
  let aux ← index code pc
  let text ← sprintf_s 36 (name ++ " " ++ fmt_i (LUAU_INSN_A insn) ++ " " ++ fmt_i aux ++ " "
    ++ fmt_i offset ++ " ; to " ++ fmt_i jumpTo)
  pure (text, pc)

/-- Cases `LOP_JUMPIFEQK` and `LOP_JUMPIFNOTEQK`: `jumpTo = pc + offset`, then
`pc++` and `aux = code[pc]`; format
`"<name> %i %i %i ; K(%i) = %s, to %i"`. -/
def textJumpK (fmt_4_3f : Nat → String) (name : String) (code : List Nat) (k : List LuaValue)
    (insn pc : Nat) : Except Fault (String × Nat) := do
  let offset := LUAU_INSN_D insn
  let jumpTo : Int := (pc : Int) + offset
  let pc := pc + 1
  let aux ← index code pc
  let constantString ← getConstantString fmt_4_3f (← index k aux)
  let text ← sprintf_s 127 (name ++ " " ++ fmt_i (LUAU_INSN_A insn) ++ " " ++ fmt_i aux ++ " "
    ++ fmt_i offset ++ " ; K(" ++ fmt_i aux ++ ") = " ++ c_str constantString ++ ", to "
    ++ fmt_i jumpTo)
  pure (text, pc)

/-- Cases `LOP_GETGLOBAL` and `LOP_SETGLOBAL`: `pc++`, `aux = code[pc]`; format
`"<name> %i %i ; K(%i) = '%s'"` with `k[aux].value.str.c_str()`. -/
def textGlobal (name : String) (code : List Nat) (k : List LuaValue) (insn pc : Nat) :
    Except Fault (String × Nat) := do
  let pc := pc + 1
  let aux ← index code pc
  let s ← (← index k aux).getStr
  let text ← sprintf_s 127 (name ++ " " ++ fmt_i (LUAU_INSN_A insn) ++ " " ++ fmt_i aux
    ++ " ; K(" ++ fmt_i aux ++ ") = '" ++ c_str s ++ "'")
  pure (text, pc)

/-- Cases `LOP_GETTABLEKS`, `LOP_SETTABLEKS` and `LOP_NAMECALL`: `pc++`,
`aux = code[pc]`; format `"<name> %i %i %i ; K(%i) = '%s'"`. -/
def textKS (name : String) (code : List Nat) (k : List LuaValue) (insn pc : Nat) :
    Except Fault (String × Nat) := do
  let pc := pc + 1
  let aux ← index code pc
  let s ← (← index k aux).getStr
  let text ← sprintf_s 127 (name ++ " " ++ fmt_i (LUAU_INSN_A insn) ++ " "
    ++ fmt_i (LUAU_INSN_B insn) ++ " " ++ fmt_i aux ++ " ; K(" ++ fmt_i aux ++ ") = '"
    ++ c_str s ++ "'")
  pure (text, pc)

/-- Cases `LOP_GETTABLEN` and `LOP_SETTABLEN`: format
`"<name> %i %i %i ; index = %i"` with the arguments A, B, `argc`, `argc + 1`. -/
def textTableN (name : String) (insn : Nat) : Except Fault String :=
  let argc := LUAU_INSN_C insn
  sprintf_s 36 (name ++ " " ++ fmt_i (LUAU_INSN_A insn) ++ " " ++ fmt_i (LUAU_INSN_B insn)
    ++ " " ++ fmt_i argc ++ " ; index = " ++ fmt_i ((argc : Int) + 1))

/-- Cases `LOP_ADDK` .. `LOP_POWK`: format `"<name> %i %i %i ; K(%i) = %4.3f"`
with `k[constantIndex].value.number`. -/
def textArithK (fmt_4_3f : Nat → String) (name : String) (k : List LuaValue) (insn : Nat) :
    Except Fault String := do
  let constantIndex := LUAU_INSN_C insn
  let constantValue ← index k constantIndex
  let number ← constantValue.getNumber
  sprintf_s 46 (name ++ " " ++ fmt_i (LUAU_INSN_A insn) ++ " " ++ fmt_i (LUAU_INSN_B insn)
    ++ " " ++ fmt_i constantIndex ++ " ; K(" ++ fmt_i constantIndex ++ ") = "
    ++ fmt_4_3f number)

/-- Cases `LOP_ANDK` and `LOP_ORK`: format `"<name> %i %i %i ; K(%i) = %s"` with
`getConstantString(&k[constantIndex]).c_str()`. -/
def textLogicK (fmt_4_3f : Nat → String) (name : String) (k : List LuaValue) (insn : Nat) :
    Except Fault String := do
  let constantIndex := LUAU_INSN_C insn
  let constantString ← getConstantString fmt_4_3f (← index k constantIndex)
  sprintf_s 127 (name ++ " " ++ fmt_i (LUAU_INSN_A insn) ++ " " ++ fmt_i (LUAU_INSN_B insn)
    ++ " " ++ fmt_i constantIndex ++ " ; K(" ++ fmt_i constantIndex ++ ") = "
    ++ c_str constantString)

/-- Case `LOP_GETIMPORT`: `pc++`, `aux = code[pc]`,
`import = dissect_import(aux, k)`; format
`"GETIMPORT %i %i ; count = %i, '%s'"`. -/
def textImport (code : List Nat) (k : List LuaValue) (insn pc : Nat) :
    Except Fault (String × Nat) := do
  let pc := pc + 1
  let aux ← index code pc
  let imp ← dissect_import aux k
  let text ← sprintf_s 127 ("GETIMPORT " ++ fmt_i (LUAU_INSN_A insn) ++ " "
    ++ fmt_i (LUAU_INSN_D insn) ++ " ; count = " ++ fmt_i imp.count ++ ", '"
    ++ c_str imp.displayString ++ "'")
  pure (text, pc)

/-- Case `LOP_NEWTABLE`: `pc++`, `aux = code[pc]`; format `"NEWTABLE %i %i %i"`. -/
def textNewTable (code : List Nat) (insn pc : Nat) : Except Fault (String × Nat) := do
  let pc := pc + 1
  let aux ← index code pc
  let text ← sprintf_s 24 ("NEWTABLE " ++ fmt_i (LUAU_INSN_A insn) ++ " "
    ++ fmt_i (LUAU_INSN_B insn) ++ " " ++ fmt_i aux)
  pure (text, pc)

/-- Case `LOP_SETLIST`: `pc++`, `aux = code[pc]`; format
`"SETLIST %i %i %i %i ; start at register %i, fill %s values, start at table index %i"`. -/
def textSetList (code : List Nat) (insn pc : Nat) : Except Fault (String × Nat) := do
  let sourceStart := LUAU_INSN_B insn
  let argc := LUAU_INSN_C insn
  let pc := pc + 1
  let aux ← index code pc
  let text ← sprintf_s 127 ("SETLIST " ++ fmt_i (LUAU_INSN_A insn) ++ " "
    ++ fmt_i sourceStart ++ " " ++ fmt_i argc ++ " " ++ fmt_i aux ++ " ; start at register "
    ++ fmt_i sourceStart ++ ", fill " ++ multretOrCount argc
    ++ " values, start at table index " ++ fmt_i aux)
  pure (text, pc)

/-- Case `LOP_FASTCALL2`: `pc++`, `aux = code[pc]`; format
`"FASTCALL2 %i %i %i %i ; jump to %i"` with the last argument
`pc + jumpOffset` taken after the increment. -/
def textFastcall2 (code : List Nat) (insn pc : Nat) : Except Fault (String × Nat) := do
  let jumpOffset := LUAU_INSN_C insn
  let pc := pc + 1
  let aux ← index code pc
  let text ← sprintf_s 38 ("FASTCALL2 " ++ fmt_i (LUAU_INSN_A insn) ++ " "
    ++ fmt_i (LUAU_INSN_B insn) ++ " " ++ fmt_i aux ++ " " ++ fmt_i jumpOffset
    ++ " ; jump to " ++ fmt_i ((pc : Int) + jumpOffset))
  pure (text, pc)

/-- Case `LOP_FASTCALL2K`: `pc++`, `aux = code[pc]`; format
`"FASTCALL2K %i %i %i %i ; K(%i) = %s, jump to %i"` with the last argument
`pc + jumpOffset` taken after the increment. -/
def textFastcall2K (fmt_4_3f : Nat → String) (code : List Nat) (k : List LuaValue)
    (insn pc : Nat) : Except Fault (String × Nat) := do
  let jumpOffset := LUAU_INSN_C insn
  let pc := pc + 1
  let aux ← index code pc
  let constantString ← getConstantString fmt_4_3f (← index k aux)
  let text ← sprintf_s 127 ("FASTCALL2K " ++ fmt_i (LUAU_INSN_A insn) ++ " "
    ++ fmt_i (LUAU_INSN_B insn) ++ " " ++ fmt_i aux ++ " " ++ fmt_i jumpOffset
    ++ " ; K(" ++ fmt_i aux ++ ") = " ++ c_str constantString ++ ", jump to "
    ++ fmt_i ((pc : Int) + jumpOffset))
  pure (text, pc)

/-- Without a following word: the text and the unchanged `pc`. -/
def keepPc (pc : Nat) (text : Except Fault String) : Except Fault (String × Nat) :=
  text.map (fun t => (t, pc))

/-- Case `LOP_NOP`: format `"NOP (%#010X)"` over the whole word. -/
def textNop (insn : Nat) : Except Fault String :=
  sprintf_s 17 ("NOP (" ++ fmt_hash010X insn ++ ")")

/-- Case `LOP_LOADB`: with a non-zero `jumpOffset` (field C) the format
`"LOADB %i %i %i ; %s, jump to %i"` and the last argument
`pc + jumpOffset + 1`; otherwise `"LOADB %i %i ; %s"`. -/
def textLoadB (insn pc : Nat) : Except Fault String :=
  let targetRegister := LUAU_INSN_A insn
  let boolValue := LUAU_INSN_B insn
  let jumpOffset := LUAU_INSN_C insn
  if jumpOffset > 0 then
    sprintf_s 38 ("LOADB " ++ fmt_i targetRegister ++ " " ++ fmt_i boolValue ++ " "
      ++ fmt_i jumpOffset ++ " ; " ++ (if boolValue ≠ 0 then "true" else "false")
      ++ ", jump to " ++ fmt_i ((pc : Int) + jumpOffset + 1))
  else
    sprintf_s 20 ("LOADB " ++ fmt_i targetRegister ++ " " ++ fmt_i boolValue
      ++ " ; " ++ (if boolValue ≠ 0 then "true" else "false"))

/-- Case `LOP_LOADK`: `constantIndex` is the field D; format
`"LOADK %i %i ; K(%i) = %s"` with `getConstantString(&k[constantIndex])`. -/
def textLoadK (fmt_4_3f : Nat → String) (k : List LuaValue) (insn : Nat) :
    Except Fault String := do
  let constantIndex := LUAU_INSN_D insn
  let constantString ← getConstantString fmt_4_3f (← index k constantIndex)
  sprintf_s 255 ("LOADK " ++ fmt_i (LUAU_INSN_A insn) ++ " " ++ fmt_i constantIndex
    ++ " ; K(" ++ fmt_i constantIndex ++ ") = " ++ c_str constantString)

/-- Case `LOP_NEWCLOSURE`: `childProtoId` is the field D; format
`"NEWCLOSURE %i %i ; global id = %i"` with `proto->p[childProtoId]`. -/
def textNewClosure (children : List Nat) (insn : Nat) : Except Fault String := do
  let childProtoId := LUAU_INSN_D insn
  let globalId ← index children childProtoId
  sprintf_s 41 ("NEWCLOSURE " ++ fmt_i (LUAU_INSN_A insn) ++ " " ++ fmt_i childProtoId
    ++ " ; global id = " ++ fmt_i globalId)

/-- Case `LOP_CALL`: format `"CALL %i %i %i ; %s arguments, %s results"`. -/
def textCall (insn : Nat) : Except Fault String :=
  let nargs := LUAU_INSN_B insn
  let nresults := LUAU_INSN_C insn
  sprintf_s 54 ("CALL " ++ fmt_i (LUAU_INSN_A insn) ++ " " ++ fmt_i nargs ++ " "
    ++ fmt_i nresults ++ " ; " ++ multretOrCount nargs ++ " arguments, "
    ++ multretOrCount nresults ++ " results")

/-- Case `LOP_RETURN`: format
`"RETURN %i %i ; values start at %i, num returned values = %s"`. -/
def textReturn (insn : Nat) : Except Fault String :=
  let arga := LUAU_INSN_A insn
  let argb := LUAU_INSN_B insn
  sprintf_s 64 ("RETURN " ++ fmt_i arga ++ " " ++ fmt_i argb ++ " ; values start at "
    ++ fmt_i arga ++ ", num returned values = " ++ multretOrCount argb)

/-- Case `LOP_FASTCALL`: format `"FASTCALL %i %i ; to %i"` with the last
argument `pc + jumpOffset + 1`, `jumpOffset` being the field C. -/
def textFastcall (insn pc : Nat) : Except Fault String :=
  let jumpOffset := LUAU_INSN_C insn
  sprintf_s 30 ("FASTCALL " ++ fmt_i (LUAU_INSN_A insn) ++ " "
    ++ fmt_i jumpOffset ++ " ; to " ++ fmt_i ((pc : Int) + jumpOffset + 1))

/-- Case `LOP_FASTCALL1`: format `"FASTCALL1 %i %i %i ; jump to %i"` with the
last argument `pc + jumpOffset + 1`. -/
def textFastcall1 (insn pc : Nat) : Except Fault String :=
  let jumpOffset := LUAU_INSN_C insn
  sprintf_s 34 ("FASTCALL1 " ++ fmt_i (LUAU_INSN_A insn) ++ " "
    ++ fmt_i (LUAU_INSN_B insn) ++ " " ++ fmt_i jumpOffset ++ " ; jump to "
    ++ fmt_i ((pc : Int) + jumpOffset + 1))

/-- Case `LOP_CAPTURE`: `captureTypeId` is the field A; format
`"CAPTURE %i %i ; %s capture"` with `CAPTURE_TYPES[captureTypeId]`. -/
def textCapture (insn : Nat) : Except Fault String := do
  let captureTypeId := LUAU_INSN_A insn
  let captureTypeString ← index CAPTURE_TYPES captureTypeId
  sprintf_s 30 ("CAPTURE " ++ fmt_i captureTypeId ++ " " ++ fmt_i (LUAU_INSN_B insn)
    ++ " ; " ++ captureTypeString ++ " capture")

/-- The `switch (opcode)` of `getStringForInstruction`: the text appended to
`result` and the value of `pc` on return. -/
def instructionText (fmt_4_3f : Nat → String) (proto : Proto) (pc instruction : Nat) :
    Except Fault (String × Nat) :=
  if LUAU_INSN_OP instruction = LOP_NOP then keepPc pc (textNop instruction)
  else if LUAU_INSN_OP instruction = LOP_LOADNIL then
    .ok ("LOADNIL " ++ Nat.repr (LUAU_INSN_A instruction), pc)
  else if LUAU_INSN_OP instruction = LOP_LOADB then keepPc pc (textLoadB instruction pc)
  else if LUAU_INSN_OP instruction = LOP_LOADN then keepPc pc (textAD 17 "LOADN" instruction)
  else if LUAU_INSN_OP instruction = LOP_LOADK then keepPc pc (textLoadK fmt_4_3f proto.k instruction)
  else if LUAU_INSN_OP instruction = LOP_MOVE then keepPc pc (textAB 13 "MOVE" instruction)
  else if LUAU_INSN_OP instruction = LOP_GETGLOBAL then textGlobal "GETGLOBAL" proto.code proto.k instruction pc
  else if LUAU_INSN_OP instruction = LOP_SETGLOBAL then textGlobal "SETGLOBAL" proto.code proto.k instruction pc
  else if LUAU_INSN_OP instruction = LOP_GETUPVAL then keepPc pc (textAB 18 "GETUPVAL" instruction)
  else if LUAU_INSN_OP instruction = LOP_SETUPVAL then keepPc pc (textAB 18 "SETUPVAL" instruction)
  else if LUAU_INSN_OP instruction = LOP_CLOSEUPVALS then
    .ok ("CLOSEUPVALS " ++ Nat.repr (LUAU_INSN_A instruction), pc)
  else if LUAU_INSN_OP instruction = LOP_GETIMPORT then textImport proto.code proto.k instruction pc
  else if LUAU_INSN_OP instruction = LOP_GETTABLE then keepPc pc (textABC 21 "GETTABLE" instruction)
  else if LUAU_INSN_OP instruction = LOP_SETTABLE then keepPc pc (textABC 21 "SETTABLE" instruction)
  else if LUAU_INSN_OP instruction = LOP_GETTABLEKS then textKS "GETTABLEKS" proto.code proto.k instruction pc
  else if LUAU_INSN_OP instruction = LOP_SETTABLEKS then textKS "SETTABLEKS" proto.code proto.k instruction pc
  else if LUAU_INSN_OP instruction = LOP_GETTABLEN then keepPc pc (textTableN "GETTABLEN" instruction)
  else if LUAU_INSN_OP instruction = LOP_SETTABLEN then keepPc pc (textTableN "SETTABLEN" instruction)
  else if LUAU_INSN_OP instruction = LOP_NEWCLOSURE then keepPc pc (textNewClosure proto.p instruction)
  else if LUAU_INSN_OP instruction = LOP_NAMECALL then textKS "NAMECALL" proto.code proto.k instruction pc
  else if LUAU_INSN_OP instruction = LOP_CALL then keepPc pc (textCall instruction)
  else if LUAU_INSN_OP instruction = LOP_RETURN then keepPc pc (textReturn instruction)
  else if LUAU_INSN_OP instruction = LOP_JUMP then keepPc pc (textJump 24 "JUMP" instruction pc)
  else if LUAU_INSN_OP instruction = LOP_JUMPBACK then keepPc pc (textJump 24 "JUMPBACK" instruction pc)
  else if LUAU_INSN_OP instruction = LOP_JUMPIF then keepPc pc (textJumpA 30 "JUMPIF" instruction pc)
  else if LUAU_INSN_OP instruction = LOP_JUMPIFNOT then keepPc pc (textJumpA 30 "JUMPIFNOT" instruction pc)
  else if LUAU_INSN_OP instruction = LOP_JUMPIFEQ then textJumpAux "JUMPIFEQ" proto.code instruction pc
  else if LUAU_INSN_OP instruction = LOP_JUMPIFLE then textJumpAux "JUMPIFLE" proto.code instruction pc
  else if LUAU_INSN_OP instruction = LOP_JUMPIFLT then textJumpAux "JUMPIFLT" proto.code instruction pc
  else if LUAU_INSN_OP instruction = LOP_JUMPIFNOTEQ then textJumpAux "JUMPIFNOTEQ" proto.code instruction pc
  else if LUAU_INSN_OP instruction = LOP_JUMPIFNOTLE then textJumpAux "JUMPIFNOTLE" proto.code instruction pc
  else if LUAU_INSN_OP instruction = LOP_JUMPIFNOTLT then textJumpAux "JUMPIFNOTLT" proto.code instruction pc
  else if LUAU_INSN_OP instruction = LOP_ADD then keepPc pc (textABC 16 "ADD" instruction)
  else if LUAU_INSN_OP instruction = LOP_SUB then keepPc pc (textABC 16 "SUB" instruction)
  else if LUAU_INSN_OP instruction = LOP_MUL then keepPc pc (textABC 16 "MUL" instruction)
  else if LUAU_INSN_OP instruction = LOP_DIV then keepPc pc (textABC 16 "DIV" instruction)
  else if LUAU_INSN_OP instruction = LOP_MOD then keepPc pc (textABC 16 "MOD" instruction)
  else if LUAU_INSN_OP instruction = LOP_POW then keepPc pc (textABC 16 "POW" instruction)
  else if LUAU_INSN_OP instruction = LOP_ADDK then keepPc pc (textArithK fmt_4_3f "ADDK" proto.k instruction)
  else if LUAU_INSN_OP instruction = LOP_SUBK then keepPc pc (textArithK fmt_4_3f "SUBK" proto.k instruction)
  else if LUAU_INSN_OP instruction = LOP_MULK then keepPc pc (textArithK fmt_4_3f "MULK" proto.k instruction)
  else if LUAU_INSN_OP instruction = LOP_DIVK then keepPc pc (textArithK fmt_4_3f "DIVK" proto.k instruction)
  else if LUAU_INSN_OP instruction = LOP_MODK then keepPc pc (textArithK fmt_4_3f "MODK" proto.k instruction)
  else if LUAU_INSN_OP instruction = LOP_POWK then keepPc pc (textArithK fmt_4_3f "POWK" proto.k instruction)
  else if LUAU_INSN_OP instruction = LOP_ANDK then keepPc pc (textLogicK fmt_4_3f "ANDK" proto.k instruction)
  else if LUAU_INSN_OP instruction = LOP_ORK then keepPc pc (textLogicK fmt_4_3f "ORK" proto.k instruction)
  else if LUAU_INSN_OP instruction = LOP_CONCAT then keepPc pc (textABC 19 "CONCAT" instruction)
  else if LUAU_INSN_OP instruction = LOP_NOT then keepPc pc (textAB 12 "NOT" instruction)
  else if LUAU_INSN_OP instruction = LOP_MINUS then keepPc pc (textAB 14 "MINUS" instruction)
  else if LUAU_INSN_OP instruction = LOP_LENGTH then keepPc pc (textAB 16 "LENGTH" instruction)
  else if LUAU_INSN_OP instruction = LOP_NEWTABLE then textNewTable proto.code instruction pc
  else if LUAU_INSN_OP instruction = LOP_DUPTABLE then keepPc pc (textAD 19 "DUPTABLE" instruction)
  else if LUAU_INSN_OP instruction = LOP_SETLIST then textSetList proto.code instruction pc
  else if LUAU_INSN_OP instruction = LOP_FORNPREP then keepPc pc (textJumpA 32 "FORNPREP" instruction pc)
  else if LUAU_INSN_OP instruction = LOP_FORNLOOP then keepPc pc (textJumpA 32 "FORNLOOP" instruction pc)
  else if LUAU_INSN_OP instruction = LOP_FORGPREP_INEXT then
    keepPc pc (textJumpA 40 "FORGPREP_INEXT" instruction pc)
  else if LUAU_INSN_OP instruction = LOP_FORGLOOP_INEXT then
    keepPc pc (textJumpA 40 "FORGLOOP_INEXT" instruction pc)
  else if LUAU_INSN_OP instruction = LOP_FORGPREP_NEXT then
    keepPc pc (textJumpA 40 "FORGPREP_NEXT" instruction pc)
  else if LUAU_INSN_OP instruction = LOP_FORGLOOP_NEXT then
    keepPc pc (textJumpA 40 "FORGLOOP_NEXT" instruction pc)
  else if LUAU_INSN_OP instruction = LOP_DUPCLOSURE then keepPc pc (textAD 21 "DUPCLOSURE" instruction)
  else if LUAU_INSN_OP instruction = LOP_PREPVARARGS then
    .ok ("PREPVARARGS " ++ Nat.repr (LUAU_INSN_A instruction), pc)
  else if LUAU_INSN_OP instruction = LOP_FASTCALL then keepPc pc (textFastcall instruction pc)
  else if LUAU_INSN_OP instruction = LOP_CAPTURE then keepPc pc (textCapture instruction)
  else if LUAU_INSN_OP instruction = LOP_JUMPIFEQK then textJumpK fmt_4_3f "JUMPIFEQK" proto.code proto.k instruction pc
  else if LUAU_INSN_OP instruction = LOP_JUMPIFNOTEQK then
    textJumpK fmt_4_3f "JUMPIFNOTEQK" proto.code proto.k instruction pc
  else if LUAU_INSN_OP instruction = LOP_FASTCALL1 then keepPc pc (textFastcall1 instruction pc)
  else if LUAU_INSN_OP instruction = LOP_FASTCALL2 then textFastcall2 proto.code instruction pc
  else if LUAU_INSN_OP instruction = LOP_FASTCALL2K then textFastcall2K fmt_4_3f proto.code proto.k instruction pc
  else .ok ("UNKNOWN", pc)

/-- The text of `instructionIndexTextBuffer`: `"L%i [%03i] "` over
`getLineNumberFromPc(proto, pc)` and `pc` when `displayLineInfo` is set,
otherwise `"[%03i] "` over `pc`. -/
def instructionIndexText (proto : Proto) (pc : Nat) (displayLineInfo : Bool) :
    Except Fault String :=
  if displayLineInfo then do
    let line ← getLineNumberFromPc proto (toInt32 pc)
    sprintf_s 32 ("L" ++ fmt_i line ++ " [" ++ fmt_03i pc ++ "] ")
  else sprintf_s 32 ("[" ++ fmt_03i pc ++ "] ")

/-- Function `getStringForInstruction(Proto* proto, size_t& pc, bool displayLineInfo)`:
the returned string and the value left in `pc`. -/
def getStringForInstruction (fmt_4_3f : Nat → String) (proto : Proto) (pc : Nat)
    (displayLineInfo : Bool) : Except Fault (String × Nat) := do
  let instruction ← index proto.code pc
  let result ← instructionIndexText proto pc displayLineInfo
  let (text, pc) ← instructionText fmt_4_3f proto pc instruction
  pure (result ++ text, pc)

/-! ## disassembler.cpp: `disassemble` -/

/-- Function `listChildProtos(childProtoList, listSize)` called with
`listSize = childProtoList.size()`. -/
def listChildProtos (childProtoList : List Nat) : String :=
  "\n; child protos: " ++ ", ".intercalate (childProtoList.map Nat.repr) ++ "\n"

/-- The `std::format` header of one prototype. -/
def protoHeader (protoId : Nat) (p : Proto) : String :=
  "; global id: " ++ Nat.repr protoId ++ "\n" ++
  "; proto name: " ++ p.debugname ++ "\n" ++
  "; linedefined: " ++ Nat.repr p.linedefined ++ "\n" ++
  "\n" ++
  "; maxstacksize: " ++ Nat.repr p.maxstacksize ++ "\n" ++
  "; numparams: " ++ Nat.repr p.numparams ++ "\n" ++
  "; nups: " ++ Nat.repr p.nups ++ "\n" ++
  "; is_vararg: " ++ fmt_0_2X p.is_vararg ++ "\n" ++
  (if p.p.length > 0 then listChildProtos p.p else "") ++ "\n" ++
  "; sizecode: " ++ Nat.repr p.code.length ++ "\n" ++
  "; sizek: " ++ Nat.repr p.k.length ++ "\n"

/-- The loop `for (size_t i = 0; i < p->code.size(); i++)` of `disassemble`,
from index `i` on: the lines appended to `output`, each with its `'\n'`.
`getStringForInstruction` receives `i` by reference.  The first argument
bounds the iterations; `p.code.length` suffices because `i` grows by at least
one per iteration. -/
def instructionLines (fmt_4_3f : Nat → String) (p : Proto) (displayLineInfo : Bool) :
    Nat → Nat → Except Fault (List String)
  | 0, _ => .ok []
  | n + 1, i =>
    if i < p.code.length then do
      let (line, i) ← getStringForInstruction fmt_4_3f p i displayLineInfo
      let rest ← instructionLines fmt_4_3f p displayLineInfo n (i + 1)
      pure ((line ++ "\n") :: rest)
    else .ok []

/-- The body of the prototype loop of `disassemble`, from prototype `protoId`
on: what is appended to `output`. -/
def disassembleProtos (fmt_4_3f : Nat → String) (displayLineInfo : Bool) :
    List Proto → Nat → Except Fault String
  | [], _ => .ok ""
  | p :: rest, protoId => do
    let lines ← instructionLines fmt_4_3f p displayLineInfo p.code.length 0
    let tail ← disassembleProtos fmt_4_3f displayLineInfo rest (protoId + 1)
    pure (protoHeader protoId p ++ String.join lines ++ tail)

/-- Function `disassemble(bytecode, bytecode_size, displayLineInfo)`.
`bytecode_size` only sizes the `reserve` of the output string. -/
def disassemble (fmt_4_3f : Nat → String) (bytecode : Nat → Nat) (_bytecode_size : Nat)
    (displayLineInfo : Bool) : Except Fault String := do
  let protoTable ← deserialize_bytecode bytecode
  disassembleProtos fmt_4_3f displayLineInfo protoTable 0

/-! ## Specification-side definitions -/

/-- Bit position of segment `i` of an import word: segment 0 sits in bits
20-29, segment 1 in bits 10-19, segment 2 in bits 0-9. -/
def importSegmentIndex (w i : Nat) : Nat := (w >>> (20 - 10 * i)) &&& 1023

/-- Canonical unsigned LEB128 encoding of a number: seven data bits per byte,
least-significant group first, bit 7 set on every byte except the last. -/
def encodeLEB128 (v : Nat) : List Nat :=
  if h : v < 128 then [v] else (v % 128 + 128) :: encodeLEB128 (v / 128)
termination_by v
decreasing_by omega

/-- The jump opcodes that carry no auxiliary word. -/
def plainJumpOpcodes : List Nat :=
  [LOP_JUMP, LOP_JUMPBACK, LOP_JUMPIF, LOP_JUMPIFNOT, LOP_FORNPREP, LOP_FORNLOOP,
   LOP_FORGPREP_INEXT, LOP_FORGLOOP_INEXT, LOP_FORGPREP_NEXT, LOP_FORGLOOP_NEXT]

/-- The opcodes whose text is built from the fields A, B, C and D of the word
alone and always fits the buffer declared in their case, each with the size
of that buffer. -/
def fittingFieldTexts : List (Nat × Nat) :=
  [(LOP_LOADN, 17), (LOP_MOVE, 13), (LOP_GETUPVAL, 18), (LOP_SETUPVAL, 18),
   (LOP_GETTABLE, 21), (LOP_SETTABLE, 21), (LOP_GETTABLEN, 36), (LOP_SETTABLEN, 36),
   (LOP_CALL, 54), (LOP_ADD, 16), (LOP_SUB, 16), (LOP_MUL, 16), (LOP_DIV, 16),
   (LOP_MOD, 16), (LOP_POW, 16), (LOP_CONCAT, 19), (LOP_NOT, 12), (LOP_MINUS, 14),
   (LOP_LENGTH, 16)]

/-- The opcodes that look up the constant whose index is their auxiliary
word. -/
def auxConstantOpcodes : List Nat :=
  [LOP_GETGLOBAL, LOP_SETGLOBAL, LOP_GETTABLEKS, LOP_SETTABLEKS, LOP_NAMECALL,
   LOP_JUMPIFEQK, LOP_JUMPIFNOTEQK, LOP_FASTCALL2K]

/-- The opcodes that look up the constant whose index is their field C. -/
def fieldConstantOpcodes : List Nat :=
  [LOP_ADDK, LOP_SUBK, LOP_MULK, LOP_DIVK, LOP_MODK, LOP_POWK, LOP_ANDK, LOP_ORK]

/-- The two jumps that compare a register with a constant. -/
def constantJumpOpcodes : List Nat := [LOP_JUMPIFEQK, LOP_JUMPIFNOTEQK]

/-- The six jumps that compare two registers. -/
def registerJumpOpcodes : List Nat :=
  [LOP_JUMPIFEQ, LOP_JUMPIFLE, LOP_JUMPIFLT, LOP_JUMPIFNOTEQ, LOP_JUMPIFNOTLE,
   LOP_JUMPIFNOTLT]

/-- The layout of the prototype stored at offset `o`, up to its debug-name
index: after the four header bytes come the instruction count `sizecode`, the
instruction words from offset `codeStart` on, the constant table, the child
list, `linedefined` and the debug-name index `debugnameId`, which ends at
offset `next`. -/
def ProtoFieldsAt (d : Nat → Nat) (stringTable : List String)
    (o sizecode codeStart debugnameId next : Nat) : Prop :=
  ∃ (sizek o6 o7 sizep o8 o9 linedefined o10 : Nat) (k : List LuaValue) (children : List Nat),
    readLEB128 d (o + 4) = .ok (sizecode, codeStart) ∧
    readLEB128 d (codeStart + 4 * sizecode) = .ok (sizek, o6) ∧
    readConstants d stringTable sizek o6 [] = .ok (k, o7) ∧
    readLEB128 d o7 = .ok (sizep, o8) ∧
    readChildren d sizep o8 [] = .ok (children, o9) ∧
    readLEB128 d o9 = .ok (linedefined, o10) ∧
    readLEB128 d o10 = .ok (debugnameId, next)

/-- The text of one module: for each prototype, numbered from `i` on, its header
followed by its body. -/
def sectionsText : Nat → List (Proto × String) → String
  | _, [] => ""
  | i, (p, body) :: rest => protoHeader i p ++ body ++ sectionsText (i + 1) rest

/-- The upper-case hexadecimal digit of a value below 16. -/
def hexDigitUpper (n : Nat) : Char := "0123456789ABCDEF".toList.getD n '0'

/-- The case labels of the switch of `getStringForInstruction`, in source
order. -/
def switchOpcodes : List Nat :=
  [LOP_NOP, LOP_LOADNIL, LOP_LOADB, LOP_LOADN, LOP_LOADK, LOP_MOVE, LOP_GETGLOBAL,
   LOP_SETGLOBAL, LOP_GETUPVAL, LOP_SETUPVAL, LOP_CLOSEUPVALS, LOP_GETIMPORT,
   LOP_GETTABLE, LOP_SETTABLE, LOP_GETTABLEKS, LOP_SETTABLEKS, LOP_GETTABLEN,
   LOP_SETTABLEN, LOP_NEWCLOSURE, LOP_NAMECALL, LOP_CALL, LOP_RETURN, LOP_JUMP,
   LOP_JUMPBACK, LOP_JUMPIF, LOP_JUMPIFNOT, LOP_JUMPIFEQ, LOP_JUMPIFLE, LOP_JUMPIFLT,
   LOP_JUMPIFNOTEQ, LOP_JUMPIFNOTLE, LOP_JUMPIFNOTLT, LOP_ADD, LOP_SUB, LOP_MUL, LOP_DIV,
   LOP_MOD, LOP_POW, LOP_ADDK, LOP_SUBK, LOP_MULK, LOP_DIVK, LOP_MODK, LOP_POWK, LOP_ANDK,
   LOP_ORK, LOP_CONCAT, LOP_NOT, LOP_MINUS, LOP_LENGTH, LOP_NEWTABLE, LOP_DUPTABLE,
   LOP_SETLIST, LOP_FORNPREP, LOP_FORNLOOP, LOP_FORGPREP_INEXT, LOP_FORGLOOP_INEXT,
   LOP_FORGPREP_NEXT, LOP_FORGLOOP_NEXT, LOP_DUPCLOSURE, LOP_PREPVARARGS, LOP_FASTCALL,
   LOP_CAPTURE, LOP_JUMPIFEQK, LOP_JUMPIFNOTEQK, LOP_FASTCALL1, LOP_FASTCALL2,
   LOP_FASTCALL2K]

/-- The opcodes whose case in the switch of `getStringForInstruction` executes
`pc++` and reads `code[pc]`. -/
def auxOpcodes : List Nat :=
  [LOP_GETGLOBAL, LOP_SETGLOBAL, LOP_GETIMPORT, LOP_GETTABLEKS, LOP_SETTABLEKS,
   LOP_NAMECALL, LOP_JUMPIFEQ, LOP_JUMPIFLE, LOP_JUMPIFLT, LOP_JUMPIFNOTEQ,
   LOP_JUMPIFNOTLE, LOP_JUMPIFNOTLT, LOP_NEWTABLE, LOP_SETLIST, LOP_JUMPIFEQK,
   LOP_JUMPIFNOTEQK, LOP_FASTCALL2, LOP_FASTCALL2K]

/-- The indices of the primary instructions of a stream that starts at index
`i`: every word is primary except the one that follows an opcode of
`auxOpcodes`. -/
def primaryPositions : List Nat → Nat → List Nat
  | [], _ => []
  | [_], i => [i]
  | w :: a :: rest, i =>
    if LUAU_INSN_OP w ∈ auxOpcodes then i :: primaryPositions rest (i + 2)
    else i :: primaryPositions (a :: rest) (i + 1)

/-- The indices of the primary instructions of a well-formed stream that starts
at index `i`, by the documentation of `bytecode.hpp`: every word is primary
except the one that follows an opcode of `documentedAuxOpcodes`. -/
def documentedPrimaryPositions : List Nat → Nat → List Nat
  | [], _ => []
  | [_], i => [i]
  | w :: a :: rest, i =>
    if LUAU_INSN_OP w ∈ documentedAuxOpcodes then i :: documentedPrimaryPositions rest (i + 2)
    else i :: documentedPrimaryPositions (a :: rest) (i + 1)

/-- One rendered line, with its newline, for each of the given indices. -/
def linesAt (fmt_4_3f : Nat → String) (p : Proto) (displayLineInfo : Bool) :
    List Nat → Except Fault (List String)
  | [] => .ok []
  | pc :: rest => do
    let (line, _) ← getStringForInstruction fmt_4_3f p pc displayLineInfo
    let tail ← linesAt fmt_4_3f p displayLineInfo rest
    pure ((line ++ "\n") :: tail)

/-- Whenever `x` returns, the `pc` it leaves is `n`. -/
def PcIs (n : Nat) (x : Except Fault (String × Nat)) : Prop :=
  ∀ t pc', x = .ok (t, pc') → pc' = n

/-- The two memories hold the same bytes at every offset below `n`. -/
def Agree (n : Nat) (d d' : Nat → Nat) : Prop :=
  ∀ i, i < n → d' i % 256 = d i % 256

/-- The memory seen through the pointer `data` when the request buffer
`buffer` is followed in memory by the bytes `after`. -/
def memoryOf (buffer : List Nat) (after : Nat → Nat) : Nat → Nat :=
  fun i => if i < buffer.length then buffer.getD i 0 else after (i - buffer.length)

/-- The only fault of `x` is undefined behaviour. -/
def OnlyUB {α : Type} (x : Except Fault α) : Prop :=
  ∀ e, x = .error e → e = Fault.undefinedBehaviour

/-- The computation `x` does not end with the fault `e0`. -/
def Avoids {α : Type} (e0 : Fault) (x : Except Fault α) : Prop := x ≠ .error e0

/-- Sum of the `m` bytes stored from offset `o` on. -/
def byteSum (d : Nat → Nat) (o : Nat) : Nat → Nat
  | 0 => 0
  | m + 1 => byteSum d o m + d (o + m) % 256

/-- Sum of the `m` little-endian 32-bit values stored from offset `o` on. -/
def deltaSum (d : Nat → Nat) (o : Nat) : Nat → Nat
  | 0 => 0
  | m + 1 => deltaSum d o m + leValue d (o + 4 * m) 4

/-- The 8-bit cumulative offset of instruction `pc` in the line table whose
granularity byte is stored at offset `t`: the sum of the first `pc + 1` raw
offset bytes, reduced modulo 256. -/
def perInstructionOffset (d : Nat → Nat) (t pc : Nat) : Nat :=
  byteSum d (t + 1) (pc + 1) % 256

/-- The base line of interval `j` in the line table of a prototype with
`sizecode` instructions whose granularity byte is stored at offset `t`: the
32-bit running total of the first `j + 1` interval deltas. -/
def intervalBase (d : Nat → Nat) (t sizecode j : Nat) : Int :=
  toInt32 (deltaSum d (t + 1 + sizecode) (j + 1) : Nat)

/-- The quotient `n / m` rounded up. -/
def ceilDiv (n m : Nat) : Nat := (n + m - 1) / m

/-! ## General lemmas -/

theorem toInt32_def (x : Int) :
    toInt32 x = (x + 2147483648) % 4294967296 - 2147483648 := by
  unfold toInt32
  dsimp only
  split <;> omega

theorem dec32_def (x : Nat) : dec32 x = (x + 4294967295) % 4294967296 := by
  unfold dec32
  split <;> omega

theorem bind_eq_ok {ε α β : Type} (x : Except ε α) (f : α → Except ε β) (b : β) :
    (x >>= f) = .ok b ↔ ∃ a, x = .ok a ∧ f a = .ok b := by
  cases x with
  | error e => simp [bind, Except.bind]
  | ok a => simp [bind, Except.bind]

theorem bind_eq_error {ε α β : Type} (x : Except ε α) (f : α → Except ε β) (e : ε) :
    (x >>= f) = .error e ↔ x = .error e ∨ ∃ a, x = .ok a ∧ f a = .error e := by
  cases x with
  | error e => simp [bind, Except.bind]
  | ok a => simp [bind, Except.bind]

theorem index_ofNat {α : Type} (xs : List α) (n : Nat) (x : α) (h : xs[n]? = some x) :
    index xs (n : Int) = .ok x := by
  show index xs (Int.ofNat n) = .ok x
  simp [index, h]

theorem index_error {α : Type} (xs : List α) (i : Int) (e : Fault)
    (h : index xs i = .error e) : e = Fault.undefinedBehaviour := by
  unfold index at h
  split at h
  · split at h <;> simp_all
  · simp_all

theorem getStr_error (v : LuaValue) (e : Fault) (h : v.getStr = .error e) :
    e = Fault.undefinedBehaviour := by
  unfold LuaValue.getStr at h
  split at h <;> simp_all

/-! ## C10: import words -/

theorem intercalate_two (a b : String) : ".".intercalate [a, b] = a ++ ("." ++ b) := by
  simp [String.intercalate, String.intercalate.go, String.append_assoc]

theorem intercalate_three (a b c : String) :
    ".".intercalate [a, b, c] = a ++ ("." ++ b) ++ ("." ++ c) := by
  simp [String.intercalate, String.intercalate.go, String.append_assoc]

theorem dissect_import_general (w : Nat) (k : List LuaValue) (segs : List String)
    (hw : w < 4294967296) (hc : 1 ≤ w >>> 30) (hlen : segs.length = w >>> 30)
    (hseg : ∀ i s, segs[i]? = some s →
      k[importSegmentIndex w i]? = some { value := LuaValueUnion.str s, type := LUA_TSTRING }) :
    dissect_import w k
      = .ok { count := w >>> 30, displayString := ".".intercalate segs } := by
  have h3 : w >>> 30 ≤ 3 := by
    rw [Nat.shiftRight_eq_div_pow]; omega
  have hmod : (w >>> 30) % 256 = w >>> 30 := by omega
  generalize hcdef : w >>> 30 = c at *
  have hcases : c = 1 ∨ c = 2 ∨ c = 3 := by omega
  rcases hcases with rfl | rfl | rfl
  · match segs, hlen with
    | [s0], _ =>
      have h0 := hseg 0 s0 rfl
      simp only [importSegmentIndex] at h0
      simp [dissect_import, hcdef, index_ofNat _ _ _ h0, LuaValue.getStr, String.intercalate,
        String.intercalate.go, bind, Except.bind, pure, Except.pure]
  · match segs, hlen with
    | [s0, s1], _ =>
      have h0 := hseg 0 s0 rfl
      have h1 := hseg 1 s1 rfl
      simp only [importSegmentIndex] at h0 h1
      simp [dissect_import, hcdef, index_ofNat _ _ _ h0, index_ofNat _ _ _ h1, LuaValue.getStr,
        intercalate_two, bind, Except.bind, pure, Except.pure]
  · match segs, hlen with
    | [s0, s1, s2], _ =>
      have h0 := hseg 0 s0 rfl
      have h1 := hseg 1 s1 rfl
      have h2 := hseg 2 s2 rfl
      simp only [importSegmentIndex] at h0 h1 h2
      simp at h2
      simp [dissect_import, hcdef, index_ofNat _ _ _ h0, index_ofNat _ _ _ h1,
        index_ofNat _ _ _ h2, LuaValue.getStr,
        intercalate_three, bind, Except.bind, pure, Except.pure]

/-- **C10.** For every 32-bit import word `w` whose count `c = w >> 30` is 1, 2
or 3 and whose used segment indices each address a String constant of `k`,
`dissect_import w k` returns the count `c` and the first `c` segment strings
joined with `.`; segments `game`, `Players` with `c = 2` give
`game.Players` and count 2, and one segment gives that segment's string and
count 1. -/
theorem dissect_import_joins_segments :
    (∀ (w : Nat) (k : List LuaValue) (segs : List String),
      w < 4294967296 → 1 ≤ w >>> 30 → segs.length = w >>> 30 →
      (∀ i s, segs[i]? = some s →
        k[importSegmentIndex w i]? = some { value := LuaValueUnion.str s, type := LUA_TSTRING }) →
      dissect_import w k
        = .ok { count := w >>> 30, displayString := ".".intercalate segs }) ∧
    dissect_import 0x80000400
        [{ value := LuaValueUnion.str "game", type := LUA_TSTRING },
         { value := LuaValueUnion.str "Players", type := LUA_TSTRING }]
      = .ok { count := 2, displayString := "game.Players" } ∧
    dissect_import 0x40000000 [{ value := LuaValueUnion.str "game", type := LUA_TSTRING }]
      = .ok { count := 1, displayString := "game" } :=
  ⟨dissect_import_general, by rfl, by rfl⟩

/-- Witness for C10: a three-segment word over a four-entry table. -/
theorem dissect_import_joins_segments_witness :
    dissect_import 0xC0300801
        [{ value := LuaValueUnion.str "Part", type := LUA_TSTRING },
         { value := LuaValueUnion.str "Name", type := LUA_TSTRING },
         { value := LuaValueUnion.str "Workspace", type := LUA_TSTRING },
         { value := LuaValueUnion.str "game", type := LUA_TSTRING }]
      = .ok { count := 3, displayString := "game.Workspace.Name" } :=
  dissect_import_joins_segments.1 0xC0300801 _ ["game", "Workspace", "Name"]
    (by decide) (by decide) (by decide)
    (by
      intro i s h
      match i, h with
      | 0, h => cases h; rfl
      | 1, h => cases h; rfl
      | 2, h => cases h; rfl)

/-! ## Which faults a reader can raise -/

theorem onlyUB_ok {α : Type} (a : α) : OnlyUB (Except.ok a : Except Fault α) := by
  intro e h; cases h

theorem onlyUB_ub {α : Type} : OnlyUB (Except.error Fault.undefinedBehaviour : Except Fault α) := by
  intro e h; cases h; rfl

theorem onlyUB_bind {α β : Type} {x : Except Fault α} {f : α → Except Fault β}
    (hx : OnlyUB x) (hf : ∀ a, OnlyUB (f a)) : OnlyUB (x >>= f) := by
  intro e h
  rcases (bind_eq_error x f e).1 h with h | ⟨a, _, h⟩
  · exact hx e h
  · exact hf a e h

theorem onlyUB_index {α : Type} (xs : List α) (i : Int) : OnlyUB (index xs i) :=
  fun e h => index_error xs i e h

theorem onlyUB_getStr (v : LuaValue) : OnlyUB v.getStr :=
  fun e h => getStr_error v e h

theorem onlyUB_readLEB128Loop (data : Nat → Nat) :
    ∀ n offset result shift, OnlyUB (readLEB128Loop data n offset result shift) := by
  intro n
  induction n with
  | zero => intro _ _ _; exact onlyUB_ub
  | succ n ih =>
    intro offset result shift
    simp only [LuauDisassembler.readLEB128Loop]
    split
    · exact ih _ _ _
    · exact onlyUB_ok _

theorem onlyUB_readLEB128 (data : Nat → Nat) (offset : Nat) : OnlyUB (readLEB128 data offset) :=
  onlyUB_readLEB128Loop data 5 offset 0 0

theorem onlyUB_readTableKeys (data : Nat → Nat) :
    ∀ n offset, OnlyUB (readTableKeys data n offset) := by
  intro n
  induction n with
  | zero => intro _; exact onlyUB_ok _
  | succ n ih =>
    intro offset
    simp only [LuauDisassembler.readTableKeys]
    exact onlyUB_bind (onlyUB_readLEB128 data offset) (fun a => ih _)

theorem onlyUB_dissect_import (id : Nat) (k : List LuaValue) : OnlyUB (dissect_import id k) := by
  unfold LuauDisassembler.dissect_import
  dsimp only
  repeat (first
    | exact onlyUB_ok _
    | exact onlyUB_index _ _
    | exact onlyUB_getStr _
    | refine onlyUB_bind ?_ (fun _ => ?_)
    | split)

/-! ## C3: the constant tag -/

theorem read_one (data : Nat → Nat) (offset : Nat) :
    read 1 data offset = (data offset % 256, offset + 1) := by
  simp [read, leValue]

/-- **C3.** While decoding a prototype's constant table, an entry fails with
the unknown-constant-type error if and only if its tag byte is greater than 6;
tags 0 through 6 never raise that error. -/
theorem readConstant_unknown_tag_iff (data : Nat → Nat) (stringTable : List String)
    (k : List LuaValue) (offset : Nat) :
    readConstant data stringTable k offset = .error Fault.unknownConstantType
      ↔ 6 < data offset % 256 := by
  unfold readConstant
  rw [read_one]
  dsimp only
  constructor
  · intro h
    split at h
    all_goals first
      | (exfalso
         revert h
         intro h
         have hub : Fault.unknownConstantType = Fault.undefinedBehaviour := by
           revert h
           generalize Fault.unknownConstantType = e
           intro h
           revert e
           show OnlyUB _
           repeat (first
             | exact onlyUB_ok _
             | exact onlyUB_ub
             | exact onlyUB_index _ _
             | exact onlyUB_readLEB128 _ _
             | exact onlyUB_readTableKeys _ _ _
             | exact onlyUB_dissect_import _ _
             | refine onlyUB_bind ?_ (fun _ => ?_))
         cases hub)
      | (rename_i h0 h1 h2 h3 h4 h5 h6
         have h0 : ¬ _ := h0
         have h1 : ¬ _ := h1
         have h2 : ¬ _ := h2
         have h3 : ¬ _ := h3
         have h4 : ¬ _ := h4
         have h5 : ¬ _ := h5
         have h6 : ¬ _ := h6
         omega)
  · intro h
    split
    all_goals first
      | omega
      | rfl

/-! ## C2: the version byte -/

theorem avoids_ok {α : Type} (e0 : Fault) (a : α) : Avoids e0 (Except.ok a) := by
  intro h; cases h

theorem avoids_pure {α : Type} (e0 : Fault) (a : α) :
    Avoids e0 (Pure.pure a : Except Fault α) := by
  intro h; cases h

theorem avoids_ofOnlyUB {α : Type} {e0 : Fault} {x : Except Fault α}
    (h0 : e0 ≠ Fault.undefinedBehaviour) (hx : OnlyUB x) : Avoids e0 x :=
  fun h => h0 (hx e0 h)

theorem avoids_bind {α β : Type} {e0 : Fault} {x : Except Fault α} {f : α → Except Fault β}
    (hx : Avoids e0 x) (hf : ∀ a, Avoids e0 (f a)) : Avoids e0 (x >>= f) := by
  intro h
  rcases (bind_eq_error x f e0).1 h with h | ⟨a, _, h⟩
  · exact hx h
  · exact hf a h

theorem avoids_map {α β : Type} {e0 : Fault} {x : Except Fault α} (f : α → β)
    (hx : Avoids e0 x) : Avoids e0 (x.map f) := by
  cases x with
  | error e => intro h; apply hx; simpa [Except.map] using h
  | ok a => intro h; cases h

theorem onlyUB_readStringTable (data : Nat → Nat) :
    ∀ n offset table, OnlyUB (readStringTable data n offset table) := by
  intro n
  induction n with
  | zero => intro _ _; exact onlyUB_ok _
  | succ n ih =>
    intro offset table
    simp only [LuauDisassembler.readStringTable]
    exact onlyUB_bind (onlyUB_readLEB128 data offset) (fun a => ih _ _)

theorem onlyUB_readChildren (data : Nat → Nat) :
    ∀ n offset p, OnlyUB (readChildren data n offset p) := by
  intro n
  induction n with
  | zero => intro _ _; exact onlyUB_ok _
  | succ n ih =>
    intro offset p
    simp only [LuauDisassembler.readChildren]
    exact onlyUB_bind (onlyUB_readLEB128 data offset) (fun a => ih _ _)

theorem onlyUB_readLocvars (data : Nat → Nat) :
    ∀ n offset, OnlyUB (readLocvars data n offset) := by
  intro n
  induction n with
  | zero => intro _; exact onlyUB_ok _
  | succ n ih =>
    intro offset
    simp only [LuauDisassembler.readLocvars]
    repeat (first
      | with_reducible exact ih _
      | with_reducible exact onlyUB_readLEB128 _ _
      | with_reducible refine onlyUB_bind ?_ (fun _ => ?_))

theorem onlyUB_readUpvalueNames (data : Nat → Nat) :
    ∀ n offset, OnlyUB (readUpvalueNames data n offset) := by
  intro n
  induction n with
  | zero => intro _; exact onlyUB_ok _
  | succ n ih =>
    intro offset
    simp only [LuauDisassembler.readUpvalueNames]
    exact onlyUB_bind (onlyUB_readLEB128 data offset) (fun a => ih _)

theorem onlyUB_readLineInfo (data : Nat → Nat) (sizecode : Nat) (p : Proto) (offset : Nat) :
    OnlyUB (readLineInfo data sizecode p offset) := by
  unfold LuauDisassembler.readLineInfo
  dsimp only
  repeat (first
    | with_reducible exact onlyUB_ok _
    | with_reducible exact onlyUB_ub
    | split)

theorem avoids_readConstant (data : Nat → Nat) (stringTable : List String) (k : List LuaValue)
    (offset : Nat) : Avoids Fault.invalidBytecode (readConstant data stringTable k offset) := by
  unfold LuauDisassembler.readConstant
  dsimp only
  split
  all_goals first
    | with_reducible exact avoids_ok _ _
    | (intro h; cases h)
    | (apply avoids_ofOnlyUB (by decide)
       repeat (first
         | with_reducible exact onlyUB_ok _
         | with_reducible exact onlyUB_ub
         | with_reducible exact onlyUB_index _ _
         | with_reducible exact onlyUB_readLEB128 _ _
         | with_reducible exact onlyUB_readTableKeys _ _ _
         | with_reducible exact onlyUB_dissect_import _ _
         | with_reducible refine onlyUB_bind ?_ (fun _ => ?_)))

theorem avoids_readConstants (data : Nat → Nat) (stringTable : List String) :
    ∀ n offset k, Avoids Fault.invalidBytecode (readConstants data stringTable n offset k) := by
  intro n
  induction n with
  | zero => intro _ _; exact avoids_ok _ _
  | succ n ih =>
    intro offset k
    simp only [LuauDisassembler.readConstants]
    exact avoids_bind (avoids_readConstant _ _ _ _) (fun a => ih _ _)

theorem onlyUB_readDebugName (stringTable : List String) (p : Proto) (debugname_id : Nat) :
    OnlyUB (readDebugName stringTable p debugname_id) := by
  unfold LuauDisassembler.readDebugName
  repeat (first
    | with_reducible exact onlyUB_ok _
    | exact onlyUB_ok _
    | with_reducible exact onlyUB_index _ _
    | with_reducible refine onlyUB_bind ?_ (fun _ => ?_)
    | split)

theorem onlyUB_readLineInfoFlag (data : Nat → Nat) (sizecode : Nat) (p : Proto) (offset : Nat) :
    OnlyUB (readLineInfoFlag data sizecode p offset) := by
  unfold LuauDisassembler.readLineInfoFlag
  rw [read_one]
  dsimp only
  split
  · exact onlyUB_readLineInfo _ _ _ _
  · exact onlyUB_ok _

theorem onlyUB_readDebugInfo (data : Nat → Nat) (p : Proto) (offset : Nat) :
    OnlyUB (readDebugInfo data p offset) := by
  unfold LuauDisassembler.readDebugInfo
  rw [read_one]
  dsimp only
  repeat (first
    | with_reducible exact onlyUB_ok _
    | exact onlyUB_ok _
    | with_reducible exact onlyUB_readLEB128 _ _
    | with_reducible exact onlyUB_readLocvars _ _ _
    | with_reducible exact onlyUB_readUpvalueNames _ _ _
    | with_reducible refine onlyUB_bind ?_ (fun _ => ?_)
    | split)

theorem avoids_readProto (data : Nat → Nat) (stringTable : List String) (offset : Nat) :
    Avoids Fault.invalidBytecode (readProto data stringTable offset) := by
  unfold LuauDisassembler.readProto
  dsimp only
  repeat (first
    | with_reducible exact avoids_ok _ _
    | with_reducible exact avoids_pure _ _
    | with_reducible exact avoids_readConstants _ _ _ _ _
    | with_reducible exact avoids_ofOnlyUB (by decide) (onlyUB_readLEB128 _ _)
    | with_reducible exact avoids_ofOnlyUB (by decide) (onlyUB_readChildren _ _ _ _)
    | with_reducible exact avoids_ofOnlyUB (by decide) (onlyUB_readDebugName _ _ _)
    | with_reducible exact avoids_ofOnlyUB (by decide) (onlyUB_readLineInfoFlag _ _ _ _)
    | with_reducible exact avoids_ofOnlyUB (by decide) (onlyUB_readDebugInfo _ _ _)
    | with_reducible refine avoids_bind ?_ (fun _ => ?_)
    | split)

theorem avoids_readProtos (data : Nat → Nat) (stringTable : List String) :
    ∀ n offset table, Avoids Fault.invalidBytecode (readProtos data stringTable n offset table) := by
  intro n
  induction n with
  | zero => intro _ _; exact avoids_ok _ _
  | succ n ih =>
    intro offset table
    simp only [LuauDisassembler.readProtos]
    exact avoids_bind (avoids_readProto _ _ _) (fun a => ih _ _)

theorem deserialize_bytecode_at_bad_version (data : Nat → Nat) (h : data 0 % 256 ≠ 2) :
    deserialize_bytecode_at data = .error Fault.invalidBytecode := by
  unfold deserialize_bytecode_at
  dsimp only
  rw [read_one]
  dsimp only
  have hv : data 0 % 256 = 0 ∨ data 0 % 256 ≠ 2 := Or.inr h
  simp only [hv, if_true]

theorem deserialize_bytecode_at_good_version (data : Nat → Nat) (h : data 0 % 256 = 2) :
    Avoids Fault.invalidBytecode (deserialize_bytecode_at data) := by
  unfold deserialize_bytecode_at
  dsimp only
  rw [read_one]
  dsimp only
  have hv : ¬ (data 0 % 256 = 0 ∨ data 0 % 256 ≠ 2) := by omega
  simp only [hv, if_false]
  repeat (first
    | with_reducible exact avoids_pure _ _
    | with_reducible exact avoids_readProtos _ _ _ _ _
    | with_reducible exact avoids_ofOnlyUB (by decide) (onlyUB_readLEB128 _ _)
    | with_reducible exact avoids_ofOnlyUB (by decide) (onlyUB_readStringTable _ _ _ _)
    | with_reducible refine avoids_bind ?_ (fun _ => ?_)
    | split)

/-- **C2.** For every buffer whose first byte is not 2, `deserialize_bytecode`
fails with the invalid-bytecode (unsupported version) error whatever the other
bytes are, and `disassemble` fails the same way and so produces no output; for
every buffer whose first byte is 2 the version check does not fail. -/
theorem version_check (data : Nat → Nat) :
    (data 0 % 256 ≠ 2 →
      deserialize_bytecode data = .error Fault.invalidBytecode ∧
      (∀ (other : Nat → Nat), other 0 = data 0 →
        deserialize_bytecode other = .error Fault.invalidBytecode) ∧
      ∀ (fmt_4_3f : Nat → String) (bytecode_size : Nat) (displayLineInfo : Bool),
        disassemble fmt_4_3f data bytecode_size displayLineInfo
          = .error Fault.invalidBytecode) ∧
    (data 0 % 256 = 2 → deserialize_bytecode data ≠ .error Fault.invalidBytecode) := by
  refine ⟨fun h => ⟨?_, ?_, ?_⟩, fun h => ?_⟩
  · simp [deserialize_bytecode, deserialize_bytecode_at_bad_version data h, Except.map]
  · intro other ho
    have h' : other 0 % 256 ≠ 2 := by rw [ho]; exact h
    simp [deserialize_bytecode, deserialize_bytecode_at_bad_version other h', Except.map]
  · intro fmt_4_3f bytecode_size displayLineInfo
    simp [disassemble, deserialize_bytecode, deserialize_bytecode_at_bad_version data h,
      Except.map, bind, Except.bind]
  · exact avoids_map Prod.fst (deserialize_bytecode_at_good_version data h)

/-- Witness for C2: a buffer that starts with the byte `0x01`. -/
theorem version_check_witness :
    deserialize_bytecode (fun i => [1, 0, 0, 0].getD i 0) = .error Fault.invalidBytecode :=
  ((version_check (fun i => [1, 0, 0, 0].getD i 0)).1 (by decide)).1

/-! ## C4: LEB128 -/

set_option maxRecDepth 100000 in
theorem and_127_byte : ∀ b, b < 256 → b &&& 127 = b % 128 := by decide

set_option maxRecDepth 100000 in
theorem and_128_byte : ∀ b, b < 256 → (b &&& 128 = 0 ↔ b < 128) := by decide

theorem or_shifted (result c s : Nat) (hr : result < 2 ^ s) (hc : c * 2 ^ s < 4294967296) :
    result ||| ((c <<< s) % 4294967296) = result + c * 2 ^ s := by
  rw [Nat.shiftLeft_eq, Nat.mod_eq_of_lt hc, Nat.or_comm, Nat.mul_comm,
    ← Nat.mul_add_lt_is_or hr, Nat.add_comm]

theorem encodeLEB128_small (v : Nat) (h : v < 128) : encodeLEB128 v = [v] := by
  rw [encodeLEB128]; simp [h]

theorem encodeLEB128_large (v : Nat) (h : ¬ v < 128) :
    encodeLEB128 v = (v % 128 + 128) :: encodeLEB128 (v / 128) := by
  rw [encodeLEB128]; simp [h]

theorem readLEB128Loop_canonical (data : Nat → Nat) :
    ∀ (n v o result shift : Nat), shift + 7 * n = 35 → 1 ≤ n → result < 2 ^ shift →
      v * 2 ^ shift < 4294967296 →
      (∀ i, i < (encodeLEB128 v).length → data (o + i) = (encodeLEB128 v).getD i 0) →
      readLEB128Loop data n o result shift
        = .ok (result + v * 2 ^ shift, o + (encodeLEB128 v).length) := by
  intro n
  induction n with
  | zero => intro v o result shift _ h; omega
  | succ n ih =>
    intro v o result shift hs _ hr hv hdata
    have hpos : 0 < 2 ^ shift := Nat.two_pow_pos shift
    simp only [readLEB128Loop, read_one]
    by_cases hsmall : v < 128
    · have henc := encodeLEB128_small v hsmall
      have h0 : data o = v := by
        have := hdata 0 (by rw [henc]; simp)
        simpa [henc] using this
      have hb : data o % 256 = v := by rw [h0]; omega
      rw [hb, and_127_byte v (by omega), if_neg (by
        rw [ne_eq, not_not]; exact (and_128_byte v (by omega)).2 hsmall)]
      have hm : v % 128 = v := by omega
      rw [hm, or_shifted result v shift hr hv, henc]
      rfl
    · have henc := encodeLEB128_large v hsmall
      have h0 : data o = v % 128 + 128 := by
        have := hdata 0 (by rw [henc]; simp)
        simpa [henc] using this
      have hb : data o % 256 = v % 128 + 128 := by rw [h0]; omega
      have hcont : (v % 128 + 128) &&& 128 ≠ 0 := by
        intro hz
        have := (and_128_byte (v % 128 + 128) (by omega)).1 hz
        omega
      rw [hb, and_127_byte _ (by omega), if_pos hcont]
      have hm : (v % 128 + 128) % 128 = v % 128 := by omega
      have hle : v % 128 * 2 ^ shift ≤ v * 2 ^ shift :=
        Nat.mul_le_mul_right _ (Nat.mod_le _ _)
      have hpow : 2 ^ (shift + 7) = 128 * 2 ^ shift := by
        rw [Nat.pow_add]; norm_num [Nat.mul_comm]
      have hdiv : v / 128 * (128 * 2 ^ shift) ≤ v * 2 ^ shift := by
        rw [← Nat.mul_assoc]
        exact Nat.mul_le_mul_right _ (Nat.div_mul_le_self v 128)
      have hn : 1 ≤ n := by
        rcases Nat.eq_zero_or_pos n with h | h
        · subst h
          have h28 : shift = 28 := by omega
          subst h28
          have : 128 * 2 ^ 28 ≤ v * 2 ^ 28 := Nat.mul_le_mul_right _ (by omega)
          norm_num at this hv
          omega
        · exact h
      rw [hm, or_shifted result (v % 128) shift hr (by omega)]
      rw [ih (v / 128) (o + 1) (result + v % 128 * 2 ^ shift) (shift + 7) (by omega) hn
        (by
          rw [hpow]
          have : v % 128 < 128 := Nat.mod_lt _ (by decide)
          have h1 : v % 128 * 2 ^ shift + 2 ^ shift ≤ 128 * 2 ^ shift := by
            calc v % 128 * 2 ^ shift + 2 ^ shift = (v % 128 + 1) * 2 ^ shift := by ring
              _ ≤ 128 * 2 ^ shift := Nat.mul_le_mul_right _ (by omega)
          omega)
        (by rw [hpow]; omega)
        (by
          intro i hi
          have := hdata (i + 1) (by rw [henc]; simp; omega)
          rw [henc] at this
          simpa [Nat.add_assoc, Nat.add_comm 1 i] using this)]
      rw [henc, hpow]
      have hsplit : v % 128 * 2 ^ shift + v / 128 * (128 * 2 ^ shift) = v * 2 ^ shift := by
        have h := Nat.mod_add_div v 128
        calc v % 128 * 2 ^ shift + v / 128 * (128 * 2 ^ shift)
            = (v % 128 + 128 * (v / 128)) * 2 ^ shift := by ring
          _ = v * 2 ^ shift := by rw [h]
      simp only [List.length_cons, Except.ok.injEq, Prod.mk.injEq]
      constructor
      · omega
      · omega

/-- **C4.** For every value `v` below `2^32`, `readLEB128` applied at offset
`o` to the canonical unsigned LEB128 encoding of `v` returns `v` and leaves the
offset at `o` plus the number of encoded bytes. -/
theorem readLEB128_decodes_canonical (v : Nat) (data : Nat → Nat) (o : Nat)
    (hv : v < 4294967296)
    (hdata : ∀ i, i < (encodeLEB128 v).length → data (o + i) = (encodeLEB128 v).getD i 0) :
    readLEB128 data o = .ok (v, o + (encodeLEB128 v).length) := by
  have h := readLEB128Loop_canonical data 5 v o 0 0 (by decide) (by decide) (by decide)
    (by simpa using hv) hdata
  simpa [readLEB128] using h

/-- Witness for C4: the three-byte encoding `E5 8E 26` of 624485 at offset 2. -/
theorem readLEB128_decodes_canonical_witness :
    readLEB128 (fun i => [0, 0, 0xE5, 0x8E, 0x26, 0xFF].getD i 0) 2 = .ok (624485, 5) := by
  have henc : encodeLEB128 624485 = [0xE5, 0x8E, 0x26] := by
    rw [encodeLEB128_large _ (by decide), encodeLEB128_large _ (by decide),
      encodeLEB128_small _ (by decide)]
  have h := readLEB128_decodes_canonical 624485
    (fun i => [0, 0, 0xE5, 0x8E, 0x26, 0xFF].getD i 0) 2 (by decide)
    (by
      rw [henc]
      intro i hi
      have hi3 : i < 3 := by simpa using hi
      interval_cases i <;> rfl)
  rw [henc] at h
  exact h

/-! ## Formatting lemmas -/

theorem toInt32_range (x : Int) : -2147483648 ≤ toInt32 x ∧ toInt32 x < 2147483648 := by
  rw [toInt32_def]; omega

theorem toInt32_of_range (x : Int) (h1 : -2147483648 ≤ x) (h2 : x < 2147483648) :
    toInt32 x = x := by
  rw [toInt32_def]; omega

theorem fmt_i_length (x : Int) : (fmt_i x).length ≤ 11 := by
  unfold fmt_i
  have hr := toInt32_range x
  generalize toInt32 x = y at hr
  cases y with
  | ofNat n =>
    have hn : n < 10 ^ 10 := by
      have : (n : Int) < 2147483648 := hr.2
      norm_num; omega
    have := Nat.repr_length n 10 (by decide) hn
    show (Nat.repr n).length ≤ 11
    omega
  | negSucc n =>
    have hn : n + 1 < 10 ^ 10 := by
      have : -2147483648 ≤ Int.negSucc n := hr.1
      rw [Int.negSucc_eq] at this
      norm_num; omega
    have := Nat.repr_length (n + 1) 10 (by decide) hn
    show ("-" ++ Nat.repr (n + 1)).length ≤ 11
    rw [String.length_append]
    have : "-".length = 1 := rfl
    omega

theorem zeroPad_length (w : Nat) (s : String) : (zeroPad w s).length = max w s.length := by
  unfold zeroPad
  rw [String.length_append, String.length_mk, List.length_replicate]
  omega

theorem fmt_03i_length (x : Int) : (fmt_03i x).length ≤ 11 := by
  unfold fmt_03i
  have hr := toInt32_range x
  generalize toInt32 x = y at hr
  cases y with
  | ofNat n =>
    have hn : n < 10 ^ 10 := by
      have : (n : Int) < 2147483648 := hr.2
      norm_num; omega
    have := Nat.repr_length n 10 (by decide) hn
    show (zeroPad 3 (Nat.repr n)).length ≤ 11
    rw [zeroPad_length]
    omega
  | negSucc n =>
    have hn : n + 1 < 10 ^ 10 := by
      have : -2147483648 ≤ Int.negSucc n := hr.1
      rw [Int.negSucc_eq] at this
      norm_num; omega
    have := Nat.repr_length (n + 1) 10 (by decide) hn
    show ("-" ++ zeroPad 2 (Nat.repr (n + 1))).length ≤ 11
    rw [String.length_append, zeroPad_length]
    have : "-".length = 1 := rfl
    omega

theorem sprintf_s_fits (cap : Nat) (text : String) (h : text.length < cap) :
    sprintf_s cap text = .ok text := by
  unfold sprintf_s
  rw [if_pos h]

theorem instructionIndexText_plain (proto : Proto) (pc : Nat) :
    instructionIndexText proto pc false = .ok ("[" ++ fmt_03i pc ++ "] ") := by
  unfold instructionIndexText
  simp only [Bool.false_eq_true, if_false]
  apply sprintf_s_fits
  have := fmt_03i_length pc
  simp only [String.length_append]
  have h1 : "[".length = 1 := rfl
  have h2 : "] ".length = 2 := rfl
  omega

theorem instructionIndexText_line (proto : Proto) (pc : Nat) (line : Int)
    (h : getLineNumberFromPc proto (toInt32 pc) = .ok line) :
    instructionIndexText proto pc true
      = .ok ("L" ++ fmt_i line ++ " [" ++ fmt_03i pc ++ "] ") := by
  unfold instructionIndexText
  simp only [if_true, h, bind, Except.bind]
  apply sprintf_s_fits
  have := fmt_03i_length pc
  have := fmt_i_length line
  simp only [String.length_append]
  have h0 : "L".length = 1 := rfl
  have h1 : " [".length = 2 := rfl
  have h2 : "] ".length = 2 := rfl
  omega

/-! ## Selecting a case of the opcode switch -/

/-- The numeric value of every enumerator of `LuauOpcode`. -/
theorem lopValues :
    LOP_NOP = 0x00 ∧
    LOP_BREAK = 0xE3 ∧
    LOP_LOADNIL = 0xC6 ∧
    LOP_LOADB = 0xA9 ∧
    LOP_LOADN = 0x8C ∧
    LOP_LOADK = 0x6F ∧
    LOP_MOVE = 0x52 ∧
    LOP_GETGLOBAL = 0x35 ∧
    LOP_SETGLOBAL = 0x18 ∧
    LOP_GETUPVAL = 0xFB ∧
    LOP_SETUPVAL = 0xDE ∧
    LOP_CLOSEUPVALS = 0xC1 ∧
    LOP_GETIMPORT = 0xA4 ∧
    LOP_GETTABLE = 0x87 ∧
    LOP_SETTABLE = 0x6A ∧
    LOP_GETTABLEKS = 0x4D ∧
    LOP_SETTABLEKS = 0x30 ∧
    LOP_GETTABLEN = 0x13 ∧
    LOP_SETTABLEN = 0xF6 ∧
    LOP_NEWCLOSURE = 0xD9 ∧
    LOP_NAMECALL = 0xBC ∧
    LOP_CALL = 0x9F ∧
    LOP_RETURN = 0x82 ∧
    LOP_JUMP = 0x65 ∧
    LOP_JUMPBACK = 0x48 ∧
    LOP_JUMPIF = 0x2B ∧
    LOP_JUMPIFNOT = 0x0E ∧
    LOP_JUMPIFEQ = 0xF1 ∧
    LOP_JUMPIFLE = 0xD4 ∧
    LOP_JUMPIFLT = 0xB7 ∧
    LOP_JUMPIFNOTEQ = 0x9A ∧
    LOP_JUMPIFNOTLE = 0x7D ∧
    LOP_JUMPIFNOTLT = 0x60 ∧
    LOP_ADD = 0x43 ∧
    LOP_SUB = 0x26 ∧
    LOP_MUL = 0x09 ∧
    LOP_DIV = 0xEC ∧
    LOP_MOD = 0xCF ∧
    LOP_POW = 0xB2 ∧
    LOP_ADDK = 0x95 ∧
    LOP_SUBK = 0x78 ∧
    LOP_MULK = 0x5B ∧
    LOP_DIVK = 0x3E ∧
    LOP_MODK = 0x21 ∧
    LOP_POWK = 0x04 ∧
    LOP_AND = 0xE7 ∧
    LOP_OR = 0xCA ∧
    LOP_ANDK = 0xAD ∧
    LOP_ORK = 0x90 ∧
    LOP_CONCAT = 0x73 ∧
    LOP_NOT = 0x56 ∧
    LOP_MINUS = 0x39 ∧
    LOP_LENGTH = 0x1C ∧
    LOP_NEWTABLE = 0xFF ∧
    LOP_DUPTABLE = 0xE2 ∧
    LOP_SETLIST = 0xC5 ∧
    LOP_FORNPREP = 0xA8 ∧
    LOP_FORNLOOP = 0x8B ∧
    LOP_FORGLOOP = 0x6E ∧
    LOP_FORGPREP_INEXT = 0x51 ∧
    LOP_FORGLOOP_INEXT = 0x34 ∧
    LOP_FORGPREP_NEXT = 0x17 ∧
    LOP_FORGLOOP_NEXT = 0xFA ∧
    LOP_GETVARARGS = 0xDD ∧
    LOP_DUPCLOSURE = 0xC0 ∧
    LOP_PREPVARARGS = 0xA3 ∧
    LOP_LOADKX = 0x86 ∧
    LOP_JUMPX = 0x69 ∧
    LOP_FASTCALL = 0x4C ∧
    LOP_COVERAGE = 0x2F ∧
    LOP_CAPTURE = 0x12 ∧
    LOP_JUMPIFEQK = 0xF5 ∧
    LOP_JUMPIFNOTEQK = 0xD8 ∧
    LOP_FASTCALL1 = 0xBB ∧
    LOP_FASTCALL2 = 0x9E ∧
    LOP_FASTCALL2K = 0x81 :=
  ⟨rfl, rfl, rfl, rfl, rfl, rfl, rfl, rfl, rfl, rfl, rfl, rfl, rfl, rfl, rfl, rfl, rfl, rfl,
   rfl, rfl, rfl, rfl, rfl, rfl, rfl, rfl, rfl, rfl, rfl, rfl, rfl, rfl, rfl, rfl, rfl, rfl,
   rfl, rfl, rfl, rfl, rfl, rfl, rfl, rfl, rfl, rfl, rfl, rfl, rfl, rfl, rfl, rfl, rfl, rfl,
   rfl, rfl, rfl, rfl, rfl, rfl, rfl, rfl, rfl, rfl, rfl, rfl, rfl, rfl, rfl, rfl, rfl, rfl,
   rfl, rfl, rfl, rfl⟩

theorem instructionText_NOP (fmt_4_3f : Nat → String) (proto : Proto) (pc w : Nat)
    (h : LUAU_INSN_OP w = LOP_NOP) :
    instructionText fmt_4_3f proto pc w = keepPc pc (textNop w) := by
  unfold instructionText
  simp only [h, lopValues, Nat.reduceEqDiff, if_false, if_true]

theorem instructionText_LOADNIL (fmt_4_3f : Nat → String) (proto : Proto) (pc w : Nat)
    (h : LUAU_INSN_OP w = LOP_LOADNIL) :
    instructionText fmt_4_3f proto pc w
      = Except.ok ("LOADNIL " ++ Nat.repr (LUAU_INSN_A w), pc) := by
  unfold instructionText
  simp only [h, lopValues, Nat.reduceEqDiff, if_false, if_true]

theorem instructionText_LOADB (fmt_4_3f : Nat → String) (proto : Proto) (pc w : Nat)
    (h : LUAU_INSN_OP w = LOP_LOADB) :
    instructionText fmt_4_3f proto pc w = keepPc pc (textLoadB w pc) := by
  unfold instructionText
  simp only [h, lopValues, Nat.reduceEqDiff, if_false, if_true]

theorem instructionText_LOADN (fmt_4_3f : Nat → String) (proto : Proto) (pc w : Nat)
    (h : LUAU_INSN_OP w = LOP_LOADN) :
    instructionText fmt_4_3f proto pc w = keepPc pc (textAD 17 "LOADN" w) := by
  unfold instructionText
  simp only [h, lopValues, Nat.reduceEqDiff, if_false, if_true]

theorem instructionText_LOADK (fmt_4_3f : Nat → String) (proto : Proto) (pc w : Nat)
    (h : LUAU_INSN_OP w = LOP_LOADK) :
    instructionText fmt_4_3f proto pc w = keepPc pc (textLoadK fmt_4_3f proto.k w) := by
  unfold instructionText
  simp only [h, lopValues, Nat.reduceEqDiff, if_false, if_true]

theorem instructionText_MOVE (fmt_4_3f : Nat → String) (proto : Proto) (pc w : Nat)
    (h : LUAU_INSN_OP w = LOP_MOVE) :
    instructionText fmt_4_3f proto pc w = keepPc pc (textAB 13 "MOVE" w) := by
  unfold instructionText
  simp only [h, lopValues, Nat.reduceEqDiff, if_false, if_true]

theorem instructionText_GETGLOBAL (fmt_4_3f : Nat → String) (proto : Proto) (pc w : Nat)
    (h : LUAU_INSN_OP w = LOP_GETGLOBAL) :
    instructionText fmt_4_3f proto pc w = textGlobal "GETGLOBAL" proto.code proto.k w pc := by
  unfold instructionText
  simp only [h, lopValues, Nat.reduceEqDiff, if_false, if_true]

theorem instructionText_SETGLOBAL (fmt_4_3f : Nat → String) (proto : Proto) (pc w : Nat)
    (h : LUAU_INSN_OP w = LOP_SETGLOBAL) :
    instructionText fmt_4_3f proto pc w = textGlobal "SETGLOBAL" proto.code proto.k w pc := by
  unfold instructionText
  simp only [h, lopValues, Nat.reduceEqDiff, if_false, if_true]

theorem instructionText_GETUPVAL (fmt_4_3f : Nat → String) (proto : Proto) (pc w : Nat)
    (h : LUAU_INSN_OP w = LOP_GETUPVAL) :
    instructionText fmt_4_3f proto pc w = keepPc pc (textAB 18 "GETUPVAL" w) := by
  unfold instructionText
  simp only [h, lopValues, Nat.reduceEqDiff, if_false, if_true]

theorem instructionText_SETUPVAL (fmt_4_3f : Nat → String) (proto : Proto) (pc w : Nat)
    (h : LUAU_INSN_OP w = LOP_SETUPVAL) :
    instructionText fmt_4_3f proto pc w = keepPc pc (textAB 18 "SETUPVAL" w) := by
  unfold instructionText
  simp only [h, lopValues, Nat.reduceEqDiff, if_false, if_true]

theorem instructionText_CLOSEUPVALS (fmt_4_3f : Nat → String) (proto : Proto) (pc w : Nat)
    (h : LUAU_INSN_OP w = LOP_CLOSEUPVALS) :
    instructionText fmt_4_3f proto pc w
      = Except.ok ("CLOSEUPVALS " ++ Nat.repr (LUAU_INSN_A w), pc) := by
  unfold instructionText
  simp only [h, lopValues, Nat.reduceEqDiff, if_false, if_true]

theorem instructionText_GETIMPORT (fmt_4_3f : Nat → String) (proto : Proto) (pc w : Nat)
    (h : LUAU_INSN_OP w = LOP_GETIMPORT) :
    instructionText fmt_4_3f proto pc w = textImport proto.code proto.k w pc := by
  unfold instructionText
  simp only [h, lopValues, Nat.reduceEqDiff, if_false, if_true]

theorem instructionText_GETTABLE (fmt_4_3f : Nat → String) (proto : Proto) (pc w : Nat)
    (h : LUAU_INSN_OP w = LOP_GETTABLE) :
    instructionText fmt_4_3f proto pc w = keepPc pc (textABC 21 "GETTABLE" w) := by
  unfold instructionText
  simp only [h, lopValues, Nat.reduceEqDiff, if_false, if_true]

theorem instructionText_SETTABLE (fmt_4_3f : Nat → String) (proto : Proto) (pc w : Nat)
    (h : LUAU_INSN_OP w = LOP_SETTABLE) :
    instructionText fmt_4_3f proto pc w = keepPc pc (textABC 21 "SETTABLE" w) := by
  unfold instructionText
  simp only [h, lopValues, Nat.reduceEqDiff, if_false, if_true]

theorem instructionText_GETTABLEKS (fmt_4_3f : Nat → String) (proto : Proto) (pc w : Nat)
    (h : LUAU_INSN_OP w = LOP_GETTABLEKS) :
    instructionText fmt_4_3f proto pc w = textKS "GETTABLEKS" proto.code proto.k w pc := by
  unfold instructionText
  simp only [h, lopValues, Nat.reduceEqDiff, if_false, if_true]

theorem instructionText_SETTABLEKS (fmt_4_3f : Nat → String) (proto : Proto) (pc w : Nat)
    (h : LUAU_INSN_OP w = LOP_SETTABLEKS) :
    instructionText fmt_4_3f proto pc w = textKS "SETTABLEKS" proto.code proto.k w pc := by
  unfold instructionText
  simp only [h, lopValues, Nat.reduceEqDiff, if_false, if_true]

theorem instructionText_GETTABLEN (fmt_4_3f : Nat → String) (proto : Proto) (pc w : Nat)
    (h : LUAU_INSN_OP w = LOP_GETTABLEN) :
    instructionText fmt_4_3f proto pc w = keepPc pc (textTableN "GETTABLEN" w) := by
  unfold instructionText
  simp only [h, lopValues, Nat.reduceEqDiff, if_false, if_true]

theorem instructionText_SETTABLEN (fmt_4_3f : Nat → String) (proto : Proto) (pc w : Nat)
    (h : LUAU_INSN_OP w = LOP_SETTABLEN) :
    instructionText fmt_4_3f proto pc w = keepPc pc (textTableN "SETTABLEN" w) := by
  unfold instructionText
  simp only [h, lopValues, Nat.reduceEqDiff, if_false, if_true]

theorem instructionText_NEWCLOSURE (fmt_4_3f : Nat → String) (proto : Proto) (pc w : Nat)
    (h : LUAU_INSN_OP w = LOP_NEWCLOSURE) :
    instructionText fmt_4_3f proto pc w = keepPc pc (textNewClosure proto.p w) := by
  unfold instructionText
  simp only [h, lopValues, Nat.reduceEqDiff, if_false, if_true]

theorem instructionText_NAMECALL (fmt_4_3f : Nat → String) (proto : Proto) (pc w : Nat)
    (h : LUAU_INSN_OP w = LOP_NAMECALL) :
    instructionText fmt_4_3f proto pc w = textKS "NAMECALL" proto.code proto.k w pc := by
  unfold instructionText
  simp only [h, lopValues, Nat.reduceEqDiff, if_false, if_true]

theorem instructionText_CALL (fmt_4_3f : Nat → String) (proto : Proto) (pc w : Nat)
    (h : LUAU_INSN_OP w = LOP_CALL) :
    instructionText fmt_4_3f proto pc w = keepPc pc (textCall w) := by
  unfold instructionText
  simp only [h, lopValues, Nat.reduceEqDiff, if_false, if_true]

theorem instructionText_RETURN (fmt_4_3f : Nat → String) (proto : Proto) (pc w : Nat)
    (h : LUAU_INSN_OP w = LOP_RETURN) :
    instructionText fmt_4_3f proto pc w = keepPc pc (textReturn w) := by
  unfold instructionText
  simp only [h, lopValues, Nat.reduceEqDiff, if_false, if_true]

theorem instructionText_JUMP (fmt_4_3f : Nat → String) (proto : Proto) (pc w : Nat)
    (h : LUAU_INSN_OP w = LOP_JUMP) :
    instructionText fmt_4_3f proto pc w = keepPc pc (textJump 24 "JUMP" w pc) := by
  unfold instructionText
  simp only [h, lopValues, Nat.reduceEqDiff, if_false, if_true]

theorem instructionText_JUMPBACK (fmt_4_3f : Nat → String) (proto : Proto) (pc w : Nat)
    (h : LUAU_INSN_OP w = LOP_JUMPBACK) :
    instructionText fmt_4_3f proto pc w = keepPc pc (textJump 24 "JUMPBACK" w pc) := by
  unfold instructionText
  simp only [h, lopValues, Nat.reduceEqDiff, if_false, if_true]

theorem instructionText_JUMPIF (fmt_4_3f : Nat → String) (proto : Proto) (pc w : Nat)
    (h : LUAU_INSN_OP w = LOP_JUMPIF) :
    instructionText fmt_4_3f proto pc w = keepPc pc (textJumpA 30 "JUMPIF" w pc) := by
  unfold instructionText
  simp only [h, lopValues, Nat.reduceEqDiff, if_false, if_true]

theorem instructionText_JUMPIFNOT (fmt_4_3f : Nat → String) (proto : Proto) (pc w : Nat)
    (h : LUAU_INSN_OP w = LOP_JUMPIFNOT) :
    instructionText fmt_4_3f proto pc w = keepPc pc (textJumpA 30 "JUMPIFNOT" w pc) := by
  unfold instructionText
  simp only [h, lopValues, Nat.reduceEqDiff, if_false, if_true]

theorem instructionText_JUMPIFEQ (fmt_4_3f : Nat → String) (proto : Proto) (pc w : Nat)
    (h : LUAU_INSN_OP w = LOP_JUMPIFEQ) :
    instructionText fmt_4_3f proto pc w = textJumpAux "JUMPIFEQ" proto.code w pc := by
  unfold instructionText
  simp only [h, lopValues, Nat.reduceEqDiff, if_false, if_true]

theorem instructionText_JUMPIFLE (fmt_4_3f : Nat → String) (proto : Proto) (pc w : Nat)
    (h : LUAU_INSN_OP w = LOP_JUMPIFLE) :
    instructionText fmt_4_3f proto pc w = textJumpAux "JUMPIFLE" proto.code w pc := by
  unfold instructionText
  simp only [h, lopValues, Nat.reduceEqDiff, if_false, if_true]

theorem instructionText_JUMPIFLT (fmt_4_3f : Nat → String) (proto : Proto) (pc w : Nat)
    (h : LUAU_INSN_OP w = LOP_JUMPIFLT) :
    instructionText fmt_4_3f proto pc w = textJumpAux "JUMPIFLT" proto.code w pc := by
  unfold instructionText
  simp only [h, lopValues, Nat.reduceEqDiff, if_false, if_true]

theorem instructionText_JUMPIFNOTEQ (fmt_4_3f : Nat → String) (proto : Proto) (pc w : Nat)
    (h : LUAU_INSN_OP w = LOP_JUMPIFNOTEQ) :
    instructionText fmt_4_3f proto pc w = textJumpAux "JUMPIFNOTEQ" proto.code w pc := by
  unfold instructionText
  simp only [h, lopValues, Nat.reduceEqDiff, if_false, if_true]

theorem instructionText_JUMPIFNOTLE (fmt_4_3f : Nat → String) (proto : Proto) (pc w : Nat)
    (h : LUAU_INSN_OP w = LOP_JUMPIFNOTLE) :
    instructionText fmt_4_3f proto pc w = textJumpAux "JUMPIFNOTLE" proto.code w pc := by
  unfold instructionText
  simp only [h, lopValues, Nat.reduceEqDiff, if_false, if_true]

theorem instructionText_JUMPIFNOTLT (fmt_4_3f : Nat → String) (proto : Proto) (pc w : Nat)
    (h : LUAU_INSN_OP w = LOP_JUMPIFNOTLT) :
    instructionText fmt_4_3f proto pc w = textJumpAux "JUMPIFNOTLT" proto.code w pc := by
  unfold instructionText
  simp only [h, lopValues, Nat.reduceEqDiff, if_false, if_true]

theorem instructionText_ADD (fmt_4_3f : Nat → String) (proto : Proto) (pc w : Nat)
    (h : LUAU_INSN_OP w = LOP_ADD) :
    instructionText fmt_4_3f proto pc w = keepPc pc (textABC 16 "ADD" w) := by
  unfold instructionText
  simp only [h, lopValues, Nat.reduceEqDiff, if_false, if_true]

theorem instructionText_SUB (fmt_4_3f : Nat → String) (proto : Proto) (pc w : Nat)
    (h : LUAU_INSN_OP w = LOP_SUB) :
    instructionText fmt_4_3f proto pc w = keepPc pc (textABC 16 "SUB" w) := by
  unfold instructionText
  simp only [h, lopValues, Nat.reduceEqDiff, if_false, if_true]

theorem instructionText_MUL (fmt_4_3f : Nat → String) (proto : Proto) (pc w : Nat)
    (h : LUAU_INSN_OP w = LOP_MUL) :
    instructionText fmt_4_3f proto pc w = keepPc pc (textABC 16 "MUL" w) := by
  unfold instructionText
  simp only [h, lopValues, Nat.reduceEqDiff, if_false, if_true]

theorem instructionText_DIV (fmt_4_3f : Nat → String) (proto : Proto) (pc w : Nat)
    (h : LUAU_INSN_OP w = LOP_DIV) :
    instructionText fmt_4_3f proto pc w = keepPc pc (textABC 16 "DIV" w) := by
  unfold instructionText
  simp only [h, lopValues, Nat.reduceEqDiff, if_false, if_true]

theorem instructionText_MOD (fmt_4_3f : Nat → String) (proto : Proto) (pc w : Nat)
    (h : LUAU_INSN_OP w = LOP_MOD) :
    instructionText fmt_4_3f proto pc w = keepPc pc (textABC 16 "MOD" w) := by
  unfold instructionText
  simp only [h, lopValues, Nat.reduceEqDiff, if_false, if_true]

theorem instructionText_POW (fmt_4_3f : Nat → String) (proto : Proto) (pc w : Nat)
    (h : LUAU_INSN_OP w = LOP_POW) :
    instructionText fmt_4_3f proto pc w = keepPc pc (textABC 16 "POW" w) := by
  unfold instructionText
  simp only [h, lopValues, Nat.reduceEqDiff, if_false, if_true]

theorem instructionText_ADDK (fmt_4_3f : Nat → String) (proto : Proto) (pc w : Nat)
    (h : LUAU_INSN_OP w = LOP_ADDK) :
    instructionText fmt_4_3f proto pc w = keepPc pc (textArithK fmt_4_3f "ADDK" proto.k w) := by
  unfold instructionText
  simp only [h, lopValues, Nat.reduceEqDiff, if_false, if_true]

theorem instructionText_SUBK (fmt_4_3f : Nat → String) (proto : Proto) (pc w : Nat)
    (h : LUAU_INSN_OP w = LOP_SUBK) :
    instructionText fmt_4_3f proto pc w = keepPc pc (textArithK fmt_4_3f "SUBK" proto.k w) := by
  unfold instructionText
  simp only [h, lopValues, Nat.reduceEqDiff, if_false, if_true]

theorem instructionText_MULK (fmt_4_3f : Nat → String) (proto : Proto) (pc w : Nat)
    (h : LUAU_INSN_OP w = LOP_MULK) :
    instructionText fmt_4_3f proto pc w = keepPc pc (textArithK fmt_4_3f "MULK" proto.k w) := by
  unfold instructionText
  simp only [h, lopValues, Nat.reduceEqDiff, if_false, if_true]

theorem instructionText_DIVK (fmt_4_3f : Nat → String) (proto : Proto) (pc w : Nat)
    (h : LUAU_INSN_OP w = LOP_DIVK) :
    instructionText fmt_4_3f proto pc w = keepPc pc (textArithK fmt_4_3f "DIVK" proto.k w) := by
  unfold instructionText
  simp only [h, lopValues, Nat.reduceEqDiff, if_false, if_true]

theorem instructionText_MODK (fmt_4_3f : Nat → String) (proto : Proto) (pc w : Nat)
    (h : LUAU_INSN_OP w = LOP_MODK) :
    instructionText fmt_4_3f proto pc w = keepPc pc (textArithK fmt_4_3f "MODK" proto.k w) := by
  unfold instructionText
  simp only [h, lopValues, Nat.reduceEqDiff, if_false, if_true]

theorem instructionText_POWK (fmt_4_3f : Nat → String) (proto : Proto) (pc w : Nat)
    (h : LUAU_INSN_OP w = LOP_POWK) :
    instructionText fmt_4_3f proto pc w = keepPc pc (textArithK fmt_4_3f "POWK" proto.k w) := by
  unfold instructionText
  simp only [h, lopValues, Nat.reduceEqDiff, if_false, if_true]

theorem instructionText_ANDK (fmt_4_3f : Nat → String) (proto : Proto) (pc w : Nat)
    (h : LUAU_INSN_OP w = LOP_ANDK) :
    instructionText fmt_4_3f proto pc w = keepPc pc (textLogicK fmt_4_3f "ANDK" proto.k w) := by
  unfold instructionText
  simp only [h, lopValues, Nat.reduceEqDiff, if_false, if_true]

theorem instructionText_ORK (fmt_4_3f : Nat → String) (proto : Proto) (pc w : Nat)
    (h : LUAU_INSN_OP w = LOP_ORK) :
    instructionText fmt_4_3f proto pc w = keepPc pc (textLogicK fmt_4_3f "ORK" proto.k w) := by
  unfold instructionText
  simp only [h, lopValues, Nat.reduceEqDiff, if_false, if_true]

theorem instructionText_CONCAT (fmt_4_3f : Nat → String) (proto : Proto) (pc w : Nat)
    (h : LUAU_INSN_OP w = LOP_CONCAT) :
    instructionText fmt_4_3f proto pc w = keepPc pc (textABC 19 "CONCAT" w) := by
  unfold instructionText
  simp only [h, lopValues, Nat.reduceEqDiff, if_false, if_true]

theorem instructionText_NOT (fmt_4_3f : Nat → String) (proto : Proto) (pc w : Nat)
    (h : LUAU_INSN_OP w = LOP_NOT) :
    instructionText fmt_4_3f proto pc w = keepPc pc (textAB 12 "NOT" w) := by
  unfold instructionText
  simp only [h, lopValues, Nat.reduceEqDiff, if_false, if_true]

theorem instructionText_MINUS (fmt_4_3f : Nat → String) (proto : Proto) (pc w : Nat)
    (h : LUAU_INSN_OP w = LOP_MINUS) :
    instructionText fmt_4_3f proto pc w = keepPc pc (textAB 14 "MINUS" w) := by
  unfold instructionText
  simp only [h, lopValues, Nat.reduceEqDiff, if_false, if_true]

theorem instructionText_LENGTH (fmt_4_3f : Nat → String) (proto : Proto) (pc w : Nat)
    (h : LUAU_INSN_OP w = LOP_LENGTH) :
    instructionText fmt_4_3f proto pc w = keepPc pc (textAB 16 "LENGTH" w) := by
  unfold instructionText
  simp only [h, lopValues, Nat.reduceEqDiff, if_false, if_true]

theorem instructionText_NEWTABLE (fmt_4_3f : Nat → String) (proto : Proto) (pc w : Nat)
    (h : LUAU_INSN_OP w = LOP_NEWTABLE) :
    instructionText fmt_4_3f proto pc w = textNewTable proto.code w pc := by
  unfold instructionText
  simp only [h, lopValues, Nat.reduceEqDiff, if_false, if_true]

theorem instructionText_DUPTABLE (fmt_4_3f : Nat → String) (proto : Proto) (pc w : Nat)
    (h : LUAU_INSN_OP w = LOP_DUPTABLE) :
    instructionText fmt_4_3f proto pc w = keepPc pc (textAD 19 "DUPTABLE" w) := by
  unfold instructionText
  simp only [h, lopValues, Nat.reduceEqDiff, if_false, if_true]

theorem instructionText_SETLIST (fmt_4_3f : Nat → String) (proto : Proto) (pc w : Nat)
    (h : LUAU_INSN_OP w = LOP_SETLIST) :
    instructionText fmt_4_3f proto pc w = textSetList proto.code w pc := by
  unfold instructionText
  simp only [h, lopValues, Nat.reduceEqDiff, if_false, if_true]

theorem instructionText_FORNPREP (fmt_4_3f : Nat → String) (proto : Proto) (pc w : Nat)
    (h : LUAU_INSN_OP w = LOP_FORNPREP) :
    instructionText fmt_4_3f proto pc w = keepPc pc (textJumpA 32 "FORNPREP" w pc) := by
  unfold instructionText
  simp only [h, lopValues, Nat.reduceEqDiff, if_false, if_true]

theorem instructionText_FORNLOOP (fmt_4_3f : Nat → String) (proto : Proto) (pc w : Nat)
    (h : LUAU_INSN_OP w = LOP_FORNLOOP) :
    instructionText fmt_4_3f proto pc w = keepPc pc (textJumpA 32 "FORNLOOP" w pc) := by
  unfold instructionText
  simp only [h, lopValues, Nat.reduceEqDiff, if_false, if_true]

theorem instructionText_FORGPREP_INEXT (fmt_4_3f : Nat → String) (proto : Proto) (pc w : Nat)
    (h : LUAU_INSN_OP w = LOP_FORGPREP_INEXT) :
    instructionText fmt_4_3f proto pc w = keepPc pc (textJumpA 40 "FORGPREP_INEXT" w pc) := by
  unfold instructionText
  simp only [h, lopValues, Nat.reduceEqDiff, if_false, if_true]

theorem instructionText_FORGLOOP_INEXT (fmt_4_3f : Nat → String) (proto : Proto) (pc w : Nat)
    (h : LUAU_INSN_OP w = LOP_FORGLOOP_INEXT) :
    instructionText fmt_4_3f proto pc w = keepPc pc (textJumpA 40 "FORGLOOP_INEXT" w pc) := by
  unfold instructionText
  simp only [h, lopValues, Nat.reduceEqDiff, if_false, if_true]

theorem instructionText_FORGPREP_NEXT (fmt_4_3f : Nat → String) (proto : Proto) (pc w : Nat)
    (h : LUAU_INSN_OP w = LOP_FORGPREP_NEXT) :
    instructionText fmt_4_3f proto pc w = keepPc pc (textJumpA 40 "FORGPREP_NEXT" w pc) := by
  unfold instructionText
  simp only [h, lopValues, Nat.reduceEqDiff, if_false, if_true]

theorem instructionText_FORGLOOP_NEXT (fmt_4_3f : Nat → String) (proto : Proto) (pc w : Nat)
    (h : LUAU_INSN_OP w = LOP_FORGLOOP_NEXT) :
    instructionText fmt_4_3f proto pc w = keepPc pc (textJumpA 40 "FORGLOOP_NEXT" w pc) := by
  unfold instructionText
  simp only [h, lopValues, Nat.reduceEqDiff, if_false, if_true]

theorem instructionText_DUPCLOSURE (fmt_4_3f : Nat → String) (proto : Proto) (pc w : Nat)
    (h : LUAU_INSN_OP w = LOP_DUPCLOSURE) :
    instructionText fmt_4_3f proto pc w = keepPc pc (textAD 21 "DUPCLOSURE" w) := by
  unfold instructionText
  simp only [h, lopValues, Nat.reduceEqDiff, if_false, if_true]

theorem instructionText_PREPVARARGS (fmt_4_3f : Nat → String) (proto : Proto) (pc w : Nat)
    (h : LUAU_INSN_OP w = LOP_PREPVARARGS) :
    instructionText fmt_4_3f proto pc w
      = Except.ok ("PREPVARARGS " ++ Nat.repr (LUAU_INSN_A w), pc) := by
  unfold instructionText
  simp only [h, lopValues, Nat.reduceEqDiff, if_false, if_true]

theorem instructionText_FASTCALL (fmt_4_3f : Nat → String) (proto : Proto) (pc w : Nat)
    (h : LUAU_INSN_OP w = LOP_FASTCALL) :
    instructionText fmt_4_3f proto pc w = keepPc pc (textFastcall w pc) := by
  unfold instructionText
  simp only [h, lopValues, Nat.reduceEqDiff, if_false, if_true]

theorem instructionText_CAPTURE (fmt_4_3f : Nat → String) (proto : Proto) (pc w : Nat)
    (h : LUAU_INSN_OP w = LOP_CAPTURE) :
    instructionText fmt_4_3f proto pc w = keepPc pc (textCapture w) := by
  unfold instructionText
  simp only [h, lopValues, Nat.reduceEqDiff, if_false, if_true]

theorem instructionText_JUMPIFEQK (fmt_4_3f : Nat → String) (proto : Proto) (pc w : Nat)
    (h : LUAU_INSN_OP w = LOP_JUMPIFEQK) :
    instructionText fmt_4_3f proto pc w
      = textJumpK fmt_4_3f "JUMPIFEQK" proto.code proto.k w pc := by
  unfold instructionText
  simp only [h, lopValues, Nat.reduceEqDiff, if_false, if_true]

theorem instructionText_JUMPIFNOTEQK (fmt_4_3f : Nat → String) (proto : Proto) (pc w : Nat)
    (h : LUAU_INSN_OP w = LOP_JUMPIFNOTEQK) :
    instructionText fmt_4_3f proto pc w
      = textJumpK fmt_4_3f "JUMPIFNOTEQK" proto.code proto.k w pc := by
  unfold instructionText
  simp only [h, lopValues, Nat.reduceEqDiff, if_false, if_true]

theorem instructionText_FASTCALL1 (fmt_4_3f : Nat → String) (proto : Proto) (pc w : Nat)
    (h : LUAU_INSN_OP w = LOP_FASTCALL1) :
    instructionText fmt_4_3f proto pc w = keepPc pc (textFastcall1 w pc) := by
  unfold instructionText
  simp only [h, lopValues, Nat.reduceEqDiff, if_false, if_true]

theorem instructionText_FASTCALL2 (fmt_4_3f : Nat → String) (proto : Proto) (pc w : Nat)
    (h : LUAU_INSN_OP w = LOP_FASTCALL2) :
    instructionText fmt_4_3f proto pc w = textFastcall2 proto.code w pc := by
  unfold instructionText
  simp only [h, lopValues, Nat.reduceEqDiff, if_false, if_true]

theorem instructionText_FASTCALL2K (fmt_4_3f : Nat → String) (proto : Proto) (pc w : Nat)
    (h : LUAU_INSN_OP w = LOP_FASTCALL2K) :
    instructionText fmt_4_3f proto pc w = textFastcall2K fmt_4_3f proto.code proto.k w pc := by
  unfold instructionText
  simp only [h, lopValues, Nat.reduceEqDiff, if_false, if_true]

theorem instructionText_FORGLOOP (fmt_4_3f : Nat → String) (proto : Proto) (pc w : Nat)
    (h : LUAU_INSN_OP w = LOP_FORGLOOP) :
    instructionText fmt_4_3f proto pc w = .ok ("UNKNOWN", pc) := by
  unfold instructionText
  simp only [h, lopValues, Nat.reduceEqDiff, if_false, if_true]

theorem instructionText_LOADKX (fmt_4_3f : Nat → String) (proto : Proto) (pc w : Nat)
    (h : LUAU_INSN_OP w = LOP_LOADKX) :
    instructionText fmt_4_3f proto pc w = .ok ("UNKNOWN", pc) := by
  unfold instructionText
  simp only [h, lopValues, Nat.reduceEqDiff, if_false, if_true]

theorem instructionText_default (fmt_4_3f : Nat → String) (proto : Proto) (pc w : Nat)
    (h : LUAU_INSN_OP w ∉ switchOpcodes) :
    instructionText fmt_4_3f proto pc w = .ok ("UNKNOWN", pc) := by
  simp only [switchOpcodes, List.mem_cons, List.mem_singleton, not_or, List.not_mem_nil,
    not_false_eq_true, and_true] at h
  unfold instructionText
  simp only [h, if_false]

theorem getStringForInstruction_plain (fmt_4_3f : Nat → String) (proto : Proto) (pc w : Nat)
    (hw : proto.code[pc]? = some w) :
    getStringForInstruction fmt_4_3f proto pc false
      = (instructionText fmt_4_3f proto pc w).map
          (fun r => ("[" ++ fmt_03i pc ++ "] " ++ r.1, r.2)) := by
  unfold getStringForInstruction
  rw [index_ofNat _ _ _ hw, instructionIndexText_plain]
  simp only [bind, Except.bind]
  cases instructionText fmt_4_3f proto pc w <;> rfl

theorem getStringForInstruction_line (fmt_4_3f : Nat → String) (proto : Proto) (pc w : Nat)
    (line : Int) (hw : proto.code[pc]? = some w)
    (hl : getLineNumberFromPc proto (toInt32 pc) = .ok line) :
    getStringForInstruction fmt_4_3f proto pc true
      = (instructionText fmt_4_3f proto pc w).map
          (fun r => ("L" ++ fmt_i line ++ " [" ++ fmt_03i pc ++ "] " ++ r.1, r.2)) := by
  unfold getStringForInstruction
  rw [index_ofNat _ _ _ hw, instructionIndexText_line proto pc line hl]
  simp only [bind, Except.bind]
  cases instructionText fmt_4_3f proto pc w <;> rfl

/-! ## C7: unknown opcodes -/

theorem switchOpcodes_subset : ∀ x ∈ switchOpcodes, x ∈ luauOpcodes := by decide

theorem instructionText_unknown (fmt_4_3f : Nat → String) (proto : Proto) (pc w : Nat)
    (h : LUAU_INSN_OP w ∉ luauOpcodes) :
    instructionText fmt_4_3f proto pc w = .ok ("UNKNOWN", pc) :=
  instructionText_default fmt_4_3f proto pc w (fun hs => h (switchOpcodes_subset _ hs))

/-- **C7.** For every instruction word whose low byte is not one of the opcode
values of the `LuauOpcode` enumeration, `getStringForInstruction` returns the
index text of the line followed by `UNKNOWN`, raises no error of its own, and
leaves `pc` unchanged. -/
theorem unknown_opcode_renders_UNKNOWN (fmt_4_3f : Nat → String) (proto : Proto) (pc w : Nat)
    (hw : proto.code[pc]? = some w) (hop : LUAU_INSN_OP w ∉ luauOpcodes) :
    getStringForInstruction fmt_4_3f proto pc false
        = .ok ("[" ++ fmt_03i pc ++ "] " ++ "UNKNOWN", pc) ∧
    (∀ line, getLineNumberFromPc proto (toInt32 pc) = .ok line →
      getStringForInstruction fmt_4_3f proto pc true
        = .ok ("L" ++ fmt_i line ++ " [" ++ fmt_03i pc ++ "] " ++ "UNKNOWN", pc)) := by
  constructor
  · unfold getStringForInstruction
    rw [index_ofNat _ _ _ hw]
    simp only [bind, Except.bind, instructionIndexText_plain,
      instructionText_unknown fmt_4_3f proto pc w hop, pure, Except.pure]
  · intro line hline
    unfold getStringForInstruction
    rw [index_ofNat _ _ _ hw]
    simp only [bind, Except.bind, instructionIndexText_line proto pc line hline,
      instructionText_unknown fmt_4_3f proto pc w hop, pure, Except.pure]

/-- Witness for C7: the word `0x00000001` (low byte 1 is no opcode) at index 0. -/
theorem unknown_opcode_renders_UNKNOWN_witness :
    getStringForInstruction (fun _ => "") { code := [1] } 0 false
      = .ok ("[000] UNKNOWN", 0) :=
  (unknown_opcode_renders_UNKNOWN (fun _ => "") { code := [1] } 0 1 rfl (by decide)).1

/-! ## C8: jumps without an auxiliary word -/

theorem LUAU_INSN_D_range (w : Nat) : -32768 ≤ LUAU_INSN_D w ∧ LUAU_INSN_D w ≤ 32767 := by
  unfold LUAU_INSN_D
  rw [Int.shiftRight_eq_div_pow]
  have := toInt32_range w
  norm_num
  omega

theorem fmt_i_eq_toString (x : Int) (h1 : -2147483648 ≤ x) (h2 : x < 2147483648) :
    fmt_i x = toString x := by
  unfold fmt_i
  rw [toInt32_of_range x h1 h2]
  cases x <;> rfl

theorem getElem?_replicate_append (n a w : Nat) :
    (List.replicate n a ++ [w])[n]? = some w := by
  rw [List.getElem?_append_right (by rw [List.length_replicate])]
  rw [List.length_replicate, Nat.sub_self]
  rfl

theorem plain_jump_eval_at_2000 :
    getStringForInstruction (fun _ => "") { code := List.replicate 2000 0 ++ [0xFC180048] }
        2000 false
      = .error Fault.bufferTooSmall ∧
    getStringForInstruction (fun _ => "") { code := List.replicate 2000 0 ++ [0xFC180065] }
        2000 false
      = .ok ("[2000] JUMP -1000 ; to 1001", 2000) := by
  have h : ∀ w : Nat, ({ code := List.replicate 2000 0 ++ [w] } : Proto).code[2000]? = some w :=
    fun w => getElem?_replicate_append 2000 0 w
  constructor
  · rw [getStringForInstruction_plain _ _ _ _ (h _)]
    rfl
  · rw [getStringForInstruction_plain _ _ _ _ (h _)]
    rfl

/-- **C8 (failing input).** `JUMPBACK -1000` at index 2000 displays no target:
the text `JUMPBACK -1000 ; to 1001` has 24 characters and the case declares
24 bytes, the size of the `JUMP` case, whose text for the same offset and
index fits.  `JUMPIFNOT 100 10000` at index 0 displays no target, also as the
only instruction of a decoded module: the text has 30 characters and the
case declares 30 bytes, the size of the `JUMPIF` case, whose text for the same
fields fits.  Where a text is produced the target is `pc + D + 1`: `JUMP` at
index 10 with the offsets 0, -5 and 20 displays 11, 6 and 31. -/
theorem plain_jump_text_overflows_its_buffer :
    LOP_JUMPBACK ∈ plainJumpOpcodes ∧ LOP_JUMPIFNOT ∈ plainJumpOpcodes ∧
    LUAU_INSN_OP 0xFC180048 = LOP_JUMPBACK ∧ LUAU_INSN_D 0xFC180048 = -1000 ∧
    getStringForInstruction (fun _ => "") { code := List.replicate 2000 0 ++ [0xFC180048] }
        2000 false
      = .error Fault.bufferTooSmall ∧
    ("JUMPBACK -1000 ; to 1001").length = 24 ∧
    LUAU_INSN_OP 0xFC180065 = LOP_JUMP ∧
    getStringForInstruction (fun _ => "") { code := List.replicate 2000 0 ++ [0xFC180065] }
        2000 false
      = .ok ("[2000] JUMP -1000 ; to 1001", 2000) ∧
    LUAU_INSN_OP 0x2710640E = LOP_JUMPIFNOT ∧ LUAU_INSN_A 0x2710640E = 100 ∧
    LUAU_INSN_D 0x2710640E = 10000 ∧
    getStringForInstruction (fun _ => "") { code := [0x2710640E] } 0 false
      = .error Fault.bufferTooSmall ∧
    ("JUMPIFNOT 100 10000 ; to 10001").length = 30 ∧
    deserialize_bytecode
        (memoryOf [2, 0, 1, 0, 0, 0, 0, 1, 0x0E, 0x64, 0x10, 0x27, 0, 0, 0, 0, 0, 0, 0]
          (fun _ => 0))
      = .ok [{ code := [0x2710640E] }] ∧
    disassemble (fun _ => "")
        (memoryOf [2, 0, 1, 0, 0, 0, 0, 1, 0x0E, 0x64, 0x10, 0x27, 0, 0, 0, 0, 0, 0, 0]
          (fun _ => 0)) 19 false
      = .error Fault.bufferTooSmall ∧
    LUAU_INSN_OP 0x2710642B = LOP_JUMPIF ∧
    getStringForInstruction (fun _ => "") { code := [0x2710642B] } 0 false
      = .ok ("[000] JUMPIF 100 10000 ; to 10001", 0) ∧
    getStringForInstruction (fun _ => "") { code := List.replicate 10 0 ++ [0x00000065] } 10 false
      = .ok ("[010] JUMP 0 ; to 11", 10) ∧
    getStringForInstruction (fun _ => "") { code := List.replicate 10 0 ++ [0xFFFB0065] } 10 false
      = .ok ("[010] JUMP -5 ; to 6", 10) ∧
    getStringForInstruction (fun _ => "") { code := List.replicate 10 0 ++ [0x00140065] } 10 false
      = .ok ("[010] JUMP 20 ; to 31", 10) :=
  ⟨by decide, by decide, by rfl, by rfl, plain_jump_eval_at_2000.1, by rfl, by rfl,
   plain_jump_eval_at_2000.2, by rfl, by rfl, by rfl, by rfl, by rfl, by rfl, by rfl, by rfl,
   by rfl, by rfl, by rfl, by rfl⟩


/-! ## C5: the value left in `pc` -/

theorem pcIs_bind {α : Type} {n : Nat} {x : Except Fault α}
    {f : α → Except Fault (String × Nat)} (hf : ∀ a, PcIs n (f a)) : PcIs n (x >>= f) := by
  intro t pc' h
  rcases (bind_eq_ok x f (t, pc')).1 h with ⟨a, _, h⟩
  exact hf a t pc' h

theorem pcIs_pure (n : Nat) (t : String) : PcIs n (pure (t, n)) := by
  intro t' pc' h
  cases h
  rfl

theorem pcIs_ok (n : Nat) (t : String) : PcIs n (Except.ok (t, n)) := by
  intro t' pc' h
  cases h
  rfl

theorem pcIs_keepPc (n : Nat) (x : Except Fault String) : PcIs n (keepPc n x) := by
  intro t pc' h
  unfold keepPc at h
  cases x with
  | error e => simp [Except.map] at h
  | ok a =>
    simp only [Except.map, Except.ok.injEq, Prod.mk.injEq] at h
    exact h.2.symm

theorem pcIs_textGlobal (name : String) (code : List Nat) (k : List LuaValue) (insn pc : Nat) :
    PcIs (pc + 1) (textGlobal name code k insn pc) := by
  unfold textGlobal
  repeat (first
    | with_reducible exact pcIs_pure _ _
    | with_reducible refine pcIs_bind (fun _ => ?_))

theorem pcIs_textKS (name : String) (code : List Nat) (k : List LuaValue) (insn pc : Nat) :
    PcIs (pc + 1) (textKS name code k insn pc) := by
  unfold textKS
  repeat (first
    | with_reducible exact pcIs_pure _ _
    | with_reducible refine pcIs_bind (fun _ => ?_))

theorem pcIs_textJumpAux (name : String) (code : List Nat) (insn pc : Nat) :
    PcIs (pc + 1) (textJumpAux name code insn pc) := by
  unfold textJumpAux
  repeat (first
    | with_reducible exact pcIs_pure _ _
    | with_reducible refine pcIs_bind (fun _ => ?_))

theorem pcIs_textJumpK (fmt_4_3f : Nat → String) (name : String) (code : List Nat)
    (k : List LuaValue) (insn pc : Nat) :
    PcIs (pc + 1) (textJumpK fmt_4_3f name code k insn pc) := by
  unfold textJumpK
  repeat (first
    | with_reducible exact pcIs_pure _ _
    | with_reducible refine pcIs_bind (fun _ => ?_))

theorem pcIs_textImport (code : List Nat) (k : List LuaValue) (insn pc : Nat) :
    PcIs (pc + 1) (textImport code k insn pc) := by
  unfold textImport
  repeat (first
    | with_reducible exact pcIs_pure _ _
    | with_reducible refine pcIs_bind (fun _ => ?_))

theorem pcIs_textNewTable (code : List Nat) (insn pc : Nat) :
    PcIs (pc + 1) (textNewTable code insn pc) := by
  unfold textNewTable
  repeat (first
    | with_reducible exact pcIs_pure _ _
    | with_reducible refine pcIs_bind (fun _ => ?_))

theorem pcIs_textSetList (code : List Nat) (insn pc : Nat) :
    PcIs (pc + 1) (textSetList code insn pc) := by
  unfold textSetList
  repeat (first
    | with_reducible exact pcIs_pure _ _
    | with_reducible refine pcIs_bind (fun _ => ?_))

theorem pcIs_textFastcall2 (code : List Nat) (insn pc : Nat) :
    PcIs (pc + 1) (textFastcall2 code insn pc) := by
  unfold textFastcall2
  repeat (first
    | with_reducible exact pcIs_pure _ _
    | with_reducible refine pcIs_bind (fun _ => ?_))

theorem pcIs_textFastcall2K (fmt_4_3f : Nat → String) (code : List Nat) (k : List LuaValue)
    (insn pc : Nat) : PcIs (pc + 1) (textFastcall2K fmt_4_3f code k insn pc) := by
  unfold textFastcall2K
  repeat (first
    | with_reducible exact pcIs_pure _ _
    | with_reducible refine pcIs_bind (fun _ => ?_))

theorem auxOpcodes_subset : ∀ x ∈ auxOpcodes, x ∈ switchOpcodes := by decide

theorem pcIs_instructionText (fmt_4_3f : Nat → String) (proto : Proto) (pc w : Nat) :
    PcIs (pc + if LUAU_INSN_OP w ∈ auxOpcodes then 1 else 0)
      (instructionText fmt_4_3f proto pc w) := by
  by_cases hmem : LUAU_INSN_OP w ∈ switchOpcodes
  · simp only [switchOpcodes, List.mem_cons, List.mem_singleton, List.not_mem_nil,
      or_false] at hmem
    rcases hmem with h | h | h | h | h | h | h | h | h | h | h | h | h | h | h | h | h | h | h | h | h | h | h
      | h | h | h | h | h | h | h | h | h | h | h | h | h | h | h | h | h | h | h | h | h
      | h | h | h | h | h | h | h | h | h | h | h | h | h | h | h | h | h | h | h | h | h
      | h | h | h
    · rw [instructionText_NOP _ _ _ _ h, h]; exact pcIs_keepPc _ _
    · rw [instructionText_LOADNIL _ _ _ _ h, h]; exact pcIs_ok _ _
    · rw [instructionText_LOADB _ _ _ _ h, h]; exact pcIs_keepPc _ _
    · rw [instructionText_LOADN _ _ _ _ h, h]; exact pcIs_keepPc _ _
    · rw [instructionText_LOADK _ _ _ _ h, h]; exact pcIs_keepPc _ _
    · rw [instructionText_MOVE _ _ _ _ h, h]; exact pcIs_keepPc _ _
    · rw [instructionText_GETGLOBAL _ _ _ _ h, h]; exact pcIs_textGlobal _ _ _ _ _
    · rw [instructionText_SETGLOBAL _ _ _ _ h, h]; exact pcIs_textGlobal _ _ _ _ _
    · rw [instructionText_GETUPVAL _ _ _ _ h, h]; exact pcIs_keepPc _ _
    · rw [instructionText_SETUPVAL _ _ _ _ h, h]; exact pcIs_keepPc _ _
    · rw [instructionText_CLOSEUPVALS _ _ _ _ h, h]; exact pcIs_ok _ _
    · rw [instructionText_GETIMPORT _ _ _ _ h, h]; exact pcIs_textImport _ _ _ _
    · rw [instructionText_GETTABLE _ _ _ _ h, h]; exact pcIs_keepPc _ _
    · rw [instructionText_SETTABLE _ _ _ _ h, h]; exact pcIs_keepPc _ _
    · rw [instructionText_GETTABLEKS _ _ _ _ h, h]; exact pcIs_textKS _ _ _ _ _
    · rw [instructionText_SETTABLEKS _ _ _ _ h, h]; exact pcIs_textKS _ _ _ _ _
    · rw [instructionText_GETTABLEN _ _ _ _ h, h]; exact pcIs_keepPc _ _
    · rw [instructionText_SETTABLEN _ _ _ _ h, h]; exact pcIs_keepPc _ _
    · rw [instructionText_NEWCLOSURE _ _ _ _ h, h]; exact pcIs_keepPc _ _
    · rw [instructionText_NAMECALL _ _ _ _ h, h]; exact pcIs_textKS _ _ _ _ _
    · rw [instructionText_CALL _ _ _ _ h, h]; exact pcIs_keepPc _ _
    · rw [instructionText_RETURN _ _ _ _ h, h]; exact pcIs_keepPc _ _
    · rw [instructionText_JUMP _ _ _ _ h, h]; exact pcIs_keepPc _ _
    · rw [instructionText_JUMPBACK _ _ _ _ h, h]; exact pcIs_keepPc _ _
    · rw [instructionText_JUMPIF _ _ _ _ h, h]; exact pcIs_keepPc _ _
    · rw [instructionText_JUMPIFNOT _ _ _ _ h, h]; exact pcIs_keepPc _ _
    · rw [instructionText_JUMPIFEQ _ _ _ _ h, h]; exact pcIs_textJumpAux _ _ _ _
    · rw [instructionText_JUMPIFLE _ _ _ _ h, h]; exact pcIs_textJumpAux _ _ _ _
    · rw [instructionText_JUMPIFLT _ _ _ _ h, h]; exact pcIs_textJumpAux _ _ _ _
    · rw [instructionText_JUMPIFNOTEQ _ _ _ _ h, h]; exact pcIs_textJumpAux _ _ _ _
    · rw [instructionText_JUMPIFNOTLE _ _ _ _ h, h]; exact pcIs_textJumpAux _ _ _ _
    · rw [instructionText_JUMPIFNOTLT _ _ _ _ h, h]; exact pcIs_textJumpAux _ _ _ _
    · rw [instructionText_ADD _ _ _ _ h, h]; exact pcIs_keepPc _ _
    · rw [instructionText_SUB _ _ _ _ h, h]; exact pcIs_keepPc _ _
    · rw [instructionText_MUL _ _ _ _ h, h]; exact pcIs_keepPc _ _
    · rw [instructionText_DIV _ _ _ _ h, h]; exact pcIs_keepPc _ _
    · rw [instructionText_MOD _ _ _ _ h, h]; exact pcIs_keepPc _ _
    · rw [instructionText_POW _ _ _ _ h, h]; exact pcIs_keepPc _ _
    · rw [instructionText_ADDK _ _ _ _ h, h]; exact pcIs_keepPc _ _
    · rw [instructionText_SUBK _ _ _ _ h, h]; exact pcIs_keepPc _ _
    · rw [instructionText_MULK _ _ _ _ h, h]; exact pcIs_keepPc _ _
    · rw [instructionText_DIVK _ _ _ _ h, h]; exact pcIs_keepPc _ _
    · rw [instructionText_MODK _ _ _ _ h, h]; exact pcIs_keepPc _ _
    · rw [instructionText_POWK _ _ _ _ h, h]; exact pcIs_keepPc _ _
    · rw [instructionText_ANDK _ _ _ _ h, h]; exact pcIs_keepPc _ _
    · rw [instructionText_ORK _ _ _ _ h, h]; exact pcIs_keepPc _ _
    · rw [instructionText_CONCAT _ _ _ _ h, h]; exact pcIs_keepPc _ _
    · rw [instructionText_NOT _ _ _ _ h, h]; exact pcIs_keepPc _ _
    · rw [instructionText_MINUS _ _ _ _ h, h]; exact pcIs_keepPc _ _
    · rw [instructionText_LENGTH _ _ _ _ h, h]; exact pcIs_keepPc _ _
    · rw [instructionText_NEWTABLE _ _ _ _ h, h]; exact pcIs_textNewTable _ _ _
    · rw [instructionText_DUPTABLE _ _ _ _ h, h]; exact pcIs_keepPc _ _
    · rw [instructionText_SETLIST _ _ _ _ h, h]; exact pcIs_textSetList _ _ _
    · rw [instructionText_FORNPREP _ _ _ _ h, h]; exact pcIs_keepPc _ _
    · rw [instructionText_FORNLOOP _ _ _ _ h, h]; exact pcIs_keepPc _ _
    · rw [instructionText_FORGPREP_INEXT _ _ _ _ h, h]; exact pcIs_keepPc _ _
    · rw [instructionText_FORGLOOP_INEXT _ _ _ _ h, h]; exact pcIs_keepPc _ _
    · rw [instructionText_FORGPREP_NEXT _ _ _ _ h, h]; exact pcIs_keepPc _ _
    · rw [instructionText_FORGLOOP_NEXT _ _ _ _ h, h]; exact pcIs_keepPc _ _
    · rw [instructionText_DUPCLOSURE _ _ _ _ h, h]; exact pcIs_keepPc _ _
    · rw [instructionText_PREPVARARGS _ _ _ _ h, h]; exact pcIs_ok _ _
    · rw [instructionText_FASTCALL _ _ _ _ h, h]; exact pcIs_keepPc _ _
    · rw [instructionText_CAPTURE _ _ _ _ h, h]; exact pcIs_keepPc _ _
    · rw [instructionText_JUMPIFEQK _ _ _ _ h, h]; exact pcIs_textJumpK _ _ _ _ _ _
    · rw [instructionText_JUMPIFNOTEQK _ _ _ _ h, h]; exact pcIs_textJumpK _ _ _ _ _ _
    · rw [instructionText_FASTCALL1 _ _ _ _ h, h]; exact pcIs_keepPc _ _
    · rw [instructionText_FASTCALL2 _ _ _ _ h, h]; exact pcIs_textFastcall2 _ _ _
    · rw [instructionText_FASTCALL2K _ _ _ _ h, h]; exact pcIs_textFastcall2K _ _ _ _ _
  · have haux : LUAU_INSN_OP w ∉ auxOpcodes := fun h => hmem (auxOpcodes_subset _ h)
    rw [instructionText_default _ _ _ _ hmem, if_neg haux]
    exact pcIs_ok _ _

theorem getStringForInstruction_pc (fmt_4_3f : Nat → String) (proto : Proto) (pc : Nat)
    (displayLineInfo : Bool) (line : String) (pc' : Nat)
    (h : getStringForInstruction fmt_4_3f proto pc displayLineInfo = .ok (line, pc')) :
    ∃ w, proto.code[pc]? = some w ∧
      pc' = pc + if LUAU_INSN_OP w ∈ auxOpcodes then 1 else 0 := by
  unfold getStringForInstruction at h
  rcases (bind_eq_ok _ _ _).1 h with ⟨w, hw, h⟩
  rcases (bind_eq_ok _ _ _).1 h with ⟨r, _, h⟩
  rcases (bind_eq_ok _ _ _).1 h with ⟨⟨text, pc''⟩, ht, h⟩
  have hpc := pcIs_instructionText fmt_4_3f proto pc w text pc'' ht
  simp only [pure, Except.pure, Except.ok.injEq, Prod.mk.injEq] at h
  refine ⟨w, ?_, ?_⟩
  · unfold index at hw
    simp only at hw
    split at hw
    · cases hw; assumption
    · cases hw
  · rw [← h.2]; exact hpc

theorem instructionLines_done (fmt_4_3f : Nat → String) (p : Proto) (displayLineInfo : Bool)
    (n i : Nat) (h : p.code.length ≤ i) :
    instructionLines fmt_4_3f p displayLineInfo n i = .ok [] := by
  cases n with
  | zero => rfl
  | succ n =>
    unfold instructionLines
    rw [if_neg (by omega)]

theorem drop_eq_cons_of_getElem? {α : Type} (xs : List α) (i : Nat) (x : α)
    (h : xs[i]? = some x) : xs.drop i = x :: xs.drop (i + 1) := by
  have hi : i < xs.length := by
    rcases Nat.lt_or_ge i xs.length with h' | h'
    · exact h'
    · rw [List.getElem?_eq_none h'] at h; cases h
  rw [List.getElem?_eq_getElem hi] at h
  cases h
  exact List.drop_eq_getElem_cons hi

theorem instructionLines_eq_linesAt (fmt_4_3f : Nat → String) (p : Proto)
    (displayLineInfo : Bool) :
    ∀ n i, p.code.length ≤ n + i →
      instructionLines fmt_4_3f p displayLineInfo n i
        = linesAt fmt_4_3f p displayLineInfo (primaryPositions (p.code.drop i) i) := by
  intro n
  induction n with
  | zero =>
    intro i h
    rw [List.drop_of_length_le (by omega)]
    rfl
  | succ n ih =>
    intro i h
    by_cases hi : i < p.code.length
    · unfold instructionLines
      rw [if_pos hi]
      have hw : p.code[i]? = some p.code[i] := List.getElem?_eq_getElem hi
      rw [drop_eq_cons_of_getElem? _ _ _ hw]
      cases hcall : getStringForInstruction fmt_4_3f p i displayLineInfo with
      | error e =>
        cases hrest : p.code.drop (i + 1) with
        | nil => simp [primaryPositions, linesAt, hcall, bind, Except.bind]
        | cons a rest =>
          unfold primaryPositions
          split <;> simp [linesAt, hcall, bind, Except.bind]
      | ok r =>
        obtain ⟨line, i'⟩ := r
        obtain ⟨w, hw', hi'⟩ := getStringForInstruction_pc _ _ _ _ _ _ hcall
        rw [hw] at hw'
        cases hw'
        cases hrest : p.code.drop (i + 1) with
        | nil =>
          have hlen : p.code.length ≤ i + 1 := by
            have := congrArg List.length hrest
            simp at this
            omega
          have hdone := instructionLines_done fmt_4_3f p displayLineInfo n (i' + 1)
            (by omega)
          simp [primaryPositions, linesAt, hcall, hdone, bind, Except.bind, pure, Except.pure]
        | cons a rest =>
          have hdrop2 : p.code.drop (i + 2) = rest := by
            have := congrArg (List.drop 1) hrest
            simpa [List.drop_drop, Nat.add_comm 1] using this
          unfold primaryPositions
          by_cases haux : LUAU_INSN_OP p.code[i] ∈ auxOpcodes
          · rw [if_pos haux] at hi'
            rw [hi', if_pos haux]
            have := ih (i + 1 + 1) (by omega)
            rw [show i + 1 + 1 = i + 2 from rfl, hdrop2] at this
            simp [linesAt, hcall, this, bind, Except.bind, pure, Except.pure]
          · rw [if_neg haux] at hi'
            rw [hi', if_neg haux]
            have := ih (i + 0 + 1) (by omega)
            rw [show i + 0 + 1 = i + 1 from rfl, hrest] at this
            simp [linesAt, hcall, this, bind, Except.bind, pure, Except.pure]
    · rw [instructionLines_done _ _ _ _ _ (by omega), List.drop_of_length_le (by omega)]
      rfl

/-- **C5 (failing input).** The stream `[FORGLOOP, aux, RETURN]` is well formed
and has two primary instructions, at the indices 0 and 2, but the walk emits
three lines: `FORGLOOP` has no case in the switch, `pc` is left on it, and its
auxiliary word is rendered as an instruction of its own with the label 1.
The same holds for `[LOADKX, aux, RETURN]`.  The well-formed stream
`[RETURN 100 0]` has one primary instruction and the walk emits no line: the
text overflows the buffer of the case.  The stream
`[GETGLOBAL A=0, aux, RETURN]` gives the two lines labelled 0 and 2. -/
theorem walk_emits_a_line_for_an_undecoded_aux_word :
    LUAU_INSN_OP 0xFFFD006E = LOP_FORGLOOP ∧ LOP_FORGLOOP ∈ documentedAuxOpcodes ∧
    LUAU_INSN_OP 0x00000086 = LOP_LOADKX ∧ LOP_LOADKX ∈ documentedAuxOpcodes ∧
    documentedPrimaryPositions [0xFFFD006E, 2, 0x00010082] 0 = [0, 2] ∧
    instructionLines (fun _ => "") { code := [0xFFFD006E, 2, 0x00010082] } false 3 0
      = .ok ["[000] UNKNOWN\n", "[001] UNKNOWN\n",
             "[002] RETURN 0 1 ; values start at 0, num returned values = 0\n"] ∧
    documentedPrimaryPositions [0x00000086, 0, 0x00010082] 0 = [0, 2] ∧
    instructionLines (fun _ => "") { code := [0x00000086, 0, 0x00010082] } false 3 0
      = .ok ["[000] UNKNOWN\n", "[001] NOP (0000000000)\n",
             "[002] RETURN 0 1 ; values start at 0, num returned values = 0\n"] ∧
    documentedPrimaryPositions [0x00006482] 0 = [0] ∧
    instructionLines (fun _ => "") { code := [0x00006482] } false 1 0
      = .error Fault.bufferTooSmall ∧
    documentedPrimaryPositions [0x00000035, 0, 0x00010082] 0 = [0, 2] ∧
    instructionLines (fun _ => "")
        { code := [0x00000035, 0, 0x00010082],
          k := [{ value := LuaValueUnion.str "print", type := LUA_TSTRING }] }
        false 3 0
      = .ok ["[000] GETGLOBAL 0 0 ; K(0) = 'print'\n",
             "[002] RETURN 0 1 ; values start at 0, num returned values = 0\n"] :=
  ⟨by rfl, by decide, by rfl, by decide, by decide, by rfl, by decide, by rfl, by decide,
   by rfl, by decide, by rfl⟩

/-! ## C6: documented auxiliary words that the switch does not consume -/

/-- **C6 (failing input).** `FORGLOOP` and `LOADKX` are documented with an AUX
word but have no case in the switch: they render as `UNKNOWN`, leave `pc`
unchanged, and the walk decodes their auxiliary word as an instruction of its
own (three lines for `[FORGLOOP, aux, RETURN]` and for `[LOADKX, aux, RETURN]`). -/
theorem forgloop_loadkx_aux_word_is_decoded :
    LOP_FORGLOOP ∈ documentedAuxOpcodes ∧ LOP_LOADKX ∈ documentedAuxOpcodes ∧
    getStringForInstruction (fun _ => "") { code := [0xFFFD006E, 2, 0x00010082] } 0 false
      = .ok ("[000] UNKNOWN", 0) ∧
    getStringForInstruction (fun _ => "") { code := [0x00000086, 0, 0x00010082] } 0 false
      = .ok ("[000] UNKNOWN", 0) ∧
    instructionLines (fun _ => "") { code := [0xFFFD006E, 2, 0x00010082] } false 3 0
      = .ok ["[000] UNKNOWN\n", "[001] UNKNOWN\n",
             "[002] RETURN 0 1 ; values start at 0, num returned values = 0\n"] ∧
    instructionLines (fun _ => "") { code := [0x00000086, 0, 0x00010082] } false 3 0
      = .ok ["[000] UNKNOWN\n", "[001] NOP (0000000000)\n",
             "[002] RETURN 0 1 ; values start at 0, num returned values = 0\n"] :=
  ⟨by decide, by decide, by rfl, by rfl, by rfl, by rfl⟩

/-! ## C9: jumps with an auxiliary word -/

/-- **C9 (failing input).** `JUMPIFEQK` at index 10 with offset 5 displays the
target 15, that is `pc + D`, although its auxiliary word is consumed (`pc`
becomes 11); the sibling `JUMPIFEQ` with the same index and offset displays
16, that is `(pc + 1) + D`.  `JUMPIFNOTEQK` behaves as `JUMPIFEQK`. -/
theorem jumpifeqk_target_is_one_short :
    getStringForInstruction (fun _ => "")
        { code := List.replicate 10 0 ++ [0x000500F5, 0], k := [{}] } 10 false
      = .ok ("[010] JUMPIFEQK 0 0 5 ; K(0) = nil, to 15", 11) ∧
    getStringForInstruction (fun _ => "")
        { code := List.replicate 10 0 ++ [0x000500D8, 0], k := [{}] } 10 false
      = .ok ("[010] JUMPIFNOTEQK 0 0 5 ; K(0) = nil, to 15", 11) ∧
    getStringForInstruction (fun _ => "")
        { code := List.replicate 10 0 ++ [0x000500F1, 0], k := [{}] } 10 false
      = .ok ("[010] JUMPIFEQ 0 0 5 ; to 16", 11) :=
  ⟨by rfl, by rfl, by rfl⟩

/-! ## C1: reads are not bounds-checked -/

theorem agree_mono {m n : Nat} {d d' : Nat → Nat} (h : m ≤ n) (ha : Agree n d d') :
    Agree m d d' :=
  fun i hi => ha i (by omega)

theorem leValue_agree (d d' : Nat → Nat) :
    ∀ (n o : Nat), Agree (o + n) d d' → leValue d' o n = leValue d o n := by
  intro n
  induction n with
  | zero => intro o _; rfl
  | succ n ih =>
    intro o ha
    simp only [leValue]
    rw [ha o (by omega), ih (o + 1) (by simpa [Nat.add_assoc, Nat.add_comm 1 n] using ha)]

theorem read_agree (d d' : Nat → Nat) (n o : Nat) (ha : Agree (o + n) d d') :
    read n d' o = read n d o := by
  simp only [read, leValue_agree d d' n o ha]

theorem stringAt_agree (d d' : Nat → Nat) (o n : Nat) (ha : Agree (o + n) d d') :
    stringAt d' o n = stringAt d o n := by
  unfold stringAt
  congr 1
  apply List.map_congr_left
  intro i hi
  rw [ha (o + i) (by have := List.mem_range.1 hi; omega)]

theorem readLEB128Loop_frame (d d' : Nat → Nat) :
    ∀ (n o result shift r o' : Nat), readLEB128Loop d n o result shift = .ok (r, o') →
      o < o' ∧ (Agree o' d d' → readLEB128Loop d' n o result shift = .ok (r, o')) := by
  intro n
  induction n with
  | zero => intro o result shift r o' h; cases h
  | succ n ih =>
    intro o result shift r o' h
    simp only [readLEB128Loop, read_one] at h ⊢
    split at h
    · rename_i hc
      obtain ⟨hlt, hrest⟩ := ih _ _ _ _ _ h
      refine ⟨by omega, fun ha => ?_⟩
      rw [ha o (by omega), if_pos hc]
      exact hrest ha
    · rename_i hc
      cases h
      refine ⟨by omega, fun ha => ?_⟩
      rw [ha o (by omega), if_neg hc]

theorem readLEB128_frame (d d' : Nat → Nat) (o r o' : Nat)
    (h : readLEB128 d o = .ok (r, o')) :
    o < o' ∧ (Agree o' d d' → readLEB128 d' o = .ok (r, o')) :=
  readLEB128Loop_frame d d' 5 o 0 0 r o' h

theorem readStringTable_frame (d d' : Nat → Nat) :
    ∀ (n o : Nat) (table r : List String) (o' : Nat),
      readStringTable d n o table = .ok (r, o') →
      o ≤ o' ∧ (Agree o' d d' → readStringTable d' n o table = .ok (r, o')) := by
  intro n
  induction n with
  | zero =>
    intro o table r o' h
    cases h
    exact ⟨Nat.le_refl _, fun _ => rfl⟩
  | succ n ih =>
    intro o table r o' h
    simp only [readStringTable] at h ⊢
    rcases (bind_eq_ok _ _ _).1 h with ⟨⟨len, o1⟩, h1, h2⟩
    obtain ⟨hlt, hf1⟩ := readLEB128_frame d d' _ _ _ h1
    obtain ⟨hle, hf2⟩ := ih _ _ _ _ h2
    refine ⟨by omega, fun ha => ?_⟩
    rw [hf1 (agree_mono (by omega) ha)]
    simp only [bind, Except.bind]
    rw [stringAt_agree d d' o1 len (agree_mono hle ha)]
    exact hf2 ha

theorem readCode_offset (d : Nat → Nat) :
    ∀ (n o : Nat) (code : List Nat), (readCode d n o code).2 = o + 4 * n := by
  intro n
  induction n with
  | zero => intro o code; rfl
  | succ n ih =>
    intro o code
    simp only [readCode, read]
    rw [ih]
    omega

theorem readCode_agree (d d' : Nat → Nat) :
    ∀ (n o : Nat) (code : List Nat), Agree (o + 4 * n) d d' →
      readCode d' n o code = readCode d n o code := by
  intro n
  induction n with
  | zero => intro o code _; rfl
  | succ n ih =>
    intro o code ha
    simp only [readCode]
    rw [read_agree d d' 4 o (agree_mono (by omega) ha)]
    simp only [read]
    exact ih _ _ (agree_mono (by omega) ha)

theorem readLineOffsets_offset (d : Nat → Nat) :
    ∀ (n o last : Nat) (acc : List Nat), (readLineOffsets d n o last acc).2 = o + n := by
  intro n
  induction n with
  | zero => intro o last acc; rfl
  | succ n ih =>
    intro o last acc
    simp only [readLineOffsets, read]
    rw [ih]
    omega

theorem readLineOffsets_agree (d d' : Nat → Nat) :
    ∀ (n o last : Nat) (acc : List Nat), Agree (o + n) d d' →
      readLineOffsets d' n o last acc = readLineOffsets d n o last acc := by
  intro n
  induction n with
  | zero => intro o last acc _; rfl
  | succ n ih =>
    intro o last acc ha
    simp only [readLineOffsets]
    rw [read_agree d d' 1 o (agree_mono (by omega) ha)]
    simp only [read]
    exact ih _ _ _ (agree_mono (by omega) ha)

theorem readAbsLines_offset (d : Nat → Nat) :
    ∀ (n o : Nat) (last : Int) (acc : List Int), (readAbsLines d n o last acc).2 = o + 4 * n := by
  intro n
  induction n with
  | zero => intro o last acc; rfl
  | succ n ih =>
    intro o last acc
    simp only [readAbsLines, read]
    rw [ih]
    omega

theorem readAbsLines_agree (d d' : Nat → Nat) :
    ∀ (n o : Nat) (last : Int) (acc : List Int), Agree (o + 4 * n) d d' →
      readAbsLines d' n o last acc = readAbsLines d n o last acc := by
  intro n
  induction n with
  | zero => intro o last acc _; rfl
  | succ n ih =>
    intro o last acc ha
    simp only [readAbsLines]
    rw [read_agree d d' 4 o (agree_mono (by omega) ha)]
    simp only [read]
    exact ih _ _ _ (agree_mono (by omega) ha)

theorem readTableKeys_frame (d d' : Nat → Nat) :
    ∀ (n o o' : Nat), readTableKeys d n o = .ok o' →
      o ≤ o' ∧ (Agree o' d d' → readTableKeys d' n o = .ok o') := by
  intro n
  induction n with
  | zero =>
    intro o o' h
    cases h
    exact ⟨Nat.le_refl _, fun _ => rfl⟩
  | succ n ih =>
    intro o o' h
    simp only [readTableKeys] at h ⊢
    rcases (bind_eq_ok _ _ _).1 h with ⟨⟨v, o1⟩, h1, h2⟩
    obtain ⟨hlt, hf1⟩ := readLEB128_frame d d' _ _ _ h1
    obtain ⟨hle, hf2⟩ := ih _ _ h2
    refine ⟨by omega, fun ha => ?_⟩
    rw [hf1 (agree_mono (by omega) ha)]
    exact hf2 ha

theorem readChildren_frame (d d' : Nat → Nat) :
    ∀ (n o : Nat) (p r : List Nat) (o' : Nat), readChildren d n o p = .ok (r, o') →
      o ≤ o' ∧ (Agree o' d d' → readChildren d' n o p = .ok (r, o')) := by
  intro n
  induction n with
  | zero =>
    intro o p r o' h
    cases h
    exact ⟨Nat.le_refl _, fun _ => rfl⟩
  | succ n ih =>
    intro o p r o' h
    simp only [readChildren] at h ⊢
    rcases (bind_eq_ok _ _ _).1 h with ⟨⟨v, o1⟩, h1, h2⟩
    obtain ⟨hlt, hf1⟩ := readLEB128_frame d d' _ _ _ h1
    obtain ⟨hle, hf2⟩ := ih _ _ _ _ h2
    refine ⟨by omega, fun ha => ?_⟩
    rw [hf1 (agree_mono (by omega) ha)]
    exact hf2 ha

theorem readUpvalueNames_frame (d d' : Nat → Nat) :
    ∀ (n o o' : Nat), readUpvalueNames d n o = .ok o' →
      o ≤ o' ∧ (Agree o' d d' → readUpvalueNames d' n o = .ok o') := by
  intro n
  induction n with
  | zero =>
    intro o o' h
    cases h
    exact ⟨Nat.le_refl _, fun _ => rfl⟩
  | succ n ih =>
    intro o o' h
    simp only [readUpvalueNames] at h ⊢
    rcases (bind_eq_ok _ _ _).1 h with ⟨⟨v, o1⟩, h1, h2⟩
    obtain ⟨hlt, hf1⟩ := readLEB128_frame d d' _ _ _ h1
    obtain ⟨hle, hf2⟩ := ih _ _ h2
    refine ⟨by omega, fun ha => ?_⟩
    rw [hf1 (agree_mono (by omega) ha)]
    exact hf2 ha

theorem readLocvars_frame (d d' : Nat → Nat) :
    ∀ (n o o' : Nat), readLocvars d n o = .ok o' →
      o ≤ o' ∧ (Agree o' d d' → readLocvars d' n o = .ok o') := by
  intro n
  induction n with
  | zero =>
    intro o o' h
    cases h
    exact ⟨Nat.le_refl _, fun _ => rfl⟩
  | succ n ih =>
    intro o o' h
    simp only [readLocvars] at h ⊢
    rcases (bind_eq_ok _ _ _).1 h with ⟨⟨v1, o1⟩, h1, h⟩
    rcases (bind_eq_ok _ _ _).1 h with ⟨⟨v2, o2⟩, h2, h⟩
    rcases (bind_eq_ok _ _ _).1 h with ⟨⟨v3, o3⟩, h3, h4⟩
    obtain ⟨hlt1, hf1⟩ := readLEB128_frame d d' _ _ _ h1
    obtain ⟨hlt2, hf2⟩ := readLEB128_frame d d' _ _ _ h2
    obtain ⟨hlt3, hf3⟩ := readLEB128_frame d d' _ _ _ h3
    obtain ⟨hle, hf4⟩ := ih _ _ h4
    refine ⟨by omega, fun ha => ?_⟩
    rw [hf1 (agree_mono (by omega) ha)]
    simp only [bind, Except.bind]
    rw [hf2 (agree_mono (by omega) ha)]
    simp only
    rw [hf3 (agree_mono (by omega) ha)]
    exact hf4 ha

theorem read_offset (n : Nat) (d : Nat → Nat) (o : Nat) : (read n d o).2 = o + n := rfl

theorem readConstant_frame (d d' : Nat → Nat) (stringTable : List String)
    (k r : List LuaValue) (o o' : Nat)
    (h : readConstant d stringTable k o = .ok (r, o')) :
    o < o' ∧ (Agree o' d d' → readConstant d' stringTable k o = .ok (r, o')) := by
  unfold readConstant at h ⊢
  rw [read_one] at h
  rw [read_one]
  dsimp only at h ⊢
  generalize hb : d o % 256 = tag at h
  split at h
  · -- nil
    cases h
    refine ⟨by omega, fun ha => ?_⟩
    rw [ha o (by omega), hb]
  · -- boolean
    simp only [read, Except.ok.injEq, Prod.mk.injEq] at h
    obtain ⟨hr, ho⟩ := h
    refine ⟨by omega, fun ha => ?_⟩
    rw [ha o (by omega), hb]
    simp only [read, leValue_agree d d' 1 (o + 1) (agree_mono (by omega) ha), ← hr, ← ho]
  · -- number
    simp only [read, Except.ok.injEq, Prod.mk.injEq] at h
    obtain ⟨hr, ho⟩ := h
    refine ⟨by omega, fun ha => ?_⟩
    rw [ha o (by omega), hb]
    simp only [read, leValue_agree d d' 8 (o + 1) (agree_mono (by omega) ha), ← hr, ← ho]
  · -- string
    rcases (bind_eq_ok _ _ _).1 h with ⟨⟨id, o1⟩, h1, h2⟩
    rcases (bind_eq_ok _ _ _).1 h2 with ⟨s, hs, h3⟩
    cases h3
  · -- import
    simp only [read] at h
    rcases (bind_eq_ok _ _ _).1 h with ⟨imp, h1, h2⟩
    simp only [Except.ok.injEq, Prod.mk.injEq] at h2
    obtain ⟨hr, ho⟩ := h2
    refine ⟨by omega, fun ha => ?_⟩
    rw [ha o (by omega), hb]
    simp only [read, leValue_agree d d' 4 (o + 1) (agree_mono (by omega) ha)]
    simp only [bind, Except.bind, h1, hr, ho]
  · -- table
    rcases (bind_eq_ok _ _ _).1 h with ⟨⟨keys, o1⟩, h1, h2⟩
    obtain ⟨hlt, hf1⟩ := readLEB128_frame d d' _ _ _ h1
    rcases (bind_eq_ok _ _ _).1 h2 with ⟨o2, hk, h3⟩
    obtain ⟨hle, hf2⟩ := readTableKeys_frame d d' _ _ _ hk
    simp only [Except.ok.injEq, Prod.mk.injEq] at h3
    obtain ⟨hr, ho⟩ := h3
    refine ⟨by omega, fun ha => ?_⟩
    rw [ha o (by omega), hb]
    simp only
    rw [hf1 (agree_mono (by omega) ha)]
    simp only [bind, Except.bind]
    rw [hf2 (agree_mono (by omega) ha)]
    simp only [hr, ho]
  · -- closure
    rcases (bind_eq_ok _ _ _).1 h with ⟨⟨id, o1⟩, h1, h2⟩
    obtain ⟨hlt, hf1⟩ := readLEB128_frame d d' _ _ _ h1
    simp only [Except.ok.injEq, Prod.mk.injEq] at h2
    obtain ⟨hr, ho⟩ := h2
    refine ⟨by omega, fun ha => ?_⟩
    rw [ha o (by omega), hb]
    simp only
    rw [hf1 (agree_mono (by omega) ha)]
    simp only [bind, Except.bind, hr, ho]
  · cases h

theorem readConstants_frame (d d' : Nat → Nat) (stringTable : List String) :
    ∀ (n o : Nat) (k r : List LuaValue) (o' : Nat),
      readConstants d stringTable n o k = .ok (r, o') →
      o ≤ o' ∧ (Agree o' d d' → readConstants d' stringTable n o k = .ok (r, o')) := by
  intro n
  induction n with
  | zero =>
    intro o k r o' h
    cases h
    exact ⟨Nat.le_refl _, fun _ => rfl⟩
  | succ n ih =>
    intro o k r o' h
    simp only [readConstants] at h ⊢
    rcases (bind_eq_ok _ _ _).1 h with ⟨⟨k1, o1⟩, h1, h2⟩
    obtain ⟨hlt, hf1⟩ := readConstant_frame d d' _ _ _ _ _ h1
    obtain ⟨hle, hf2⟩ := ih _ _ _ _ h2
    refine ⟨by omega, fun ha => ?_⟩
    rw [hf1 (agree_mono (by omega) ha)]
    exact hf2 ha

theorem readLineInfo_frame (d d' : Nat → Nat) (sizecode : Nat) (p p' : Proto) (o o' : Nat)
    (h : readLineInfo d sizecode p o = .ok (p', o')) :
    o < o' ∧ (Agree o' d d' → readLineInfo d' sizecode p o = .ok (p', o')) := by
  unfold readLineInfo at h ⊢
  rw [read_one] at h
  rw [read_one]
  dsimp only at h ⊢
  generalize hb : d o % 256 = g at h
  rcases hLO : readLineOffsets d p.code.length (o + 1) 0 [] with ⟨lineinfo, off⟩
  have hoff : off = o + 1 + p.code.length := by
    have := readLineOffsets_offset d p.code.length (o + 1) 0 []
    rw [hLO] at this
    exact this
  generalize hcnt : (toInt32 ((dec32 sizecode >>> g + 1 : Nat) : Int)).toNat = cnt at h
  rcases hAB : readAbsLines d cnt off 0 [] with ⟨abslineinfo, off2⟩
  have hoff2 : off2 = off + 4 * cnt := by
    have := readAbsLines_offset d cnt off 0 []
    rw [hAB] at this
    exact this
  have ho' : o' = off2 := by
    simp only [hLO, hcnt, hAB] at h
    split at h
    · cases h
    · split at h
      · cases h
      · split at h
        · cases h
        · split at h
          · cases h
          · simp only [Except.ok.injEq, Prod.mk.injEq] at h
            exact h.2.symm
  refine ⟨by omega, fun ha => ?_⟩
  rw [ha o (by omega), hb,
    readLineOffsets_agree d d' p.code.length (o + 1) 0 [] (agree_mono (by omega) ha), hLO]
  simp only [hcnt]
  rw [readAbsLines_agree d d' cnt off 0 [] (agree_mono (by omega) ha)]
  simp only [hLO, hcnt] at h
  exact h

theorem readLineInfoFlag_frame (d d' : Nat → Nat) (sizecode : Nat) (p p' : Proto) (o o' : Nat)
    (h : readLineInfoFlag d sizecode p o = .ok (p', o')) :
    o < o' ∧ (Agree o' d d' → readLineInfoFlag d' sizecode p o = .ok (p', o')) := by
  unfold readLineInfoFlag at h ⊢
  rw [read_one] at h
  rw [read_one]
  dsimp only at h ⊢
  by_cases hf : d o % 256 ≠ 0
  · rw [if_pos hf] at h
    obtain ⟨hlt, hfr⟩ := readLineInfo_frame d d' _ _ _ _ _ h
    refine ⟨by omega, fun ha => ?_⟩
    rw [ha o (by omega), if_pos hf]
    exact hfr ha
  · rw [if_neg hf] at h
    cases h
    refine ⟨by omega, fun ha => ?_⟩
    rw [ha o (by omega), if_neg hf]
    rfl

theorem readDebugInfo_frame (d d' : Nat → Nat) (p p' : Proto) (o o' : Nat)
    (h : readDebugInfo d p o = .ok (p', o')) :
    o < o' ∧ (Agree o' d d' → readDebugInfo d' p o = .ok (p', o')) := by
  unfold readDebugInfo at h ⊢
  rw [read_one] at h
  rw [read_one]
  dsimp only at h ⊢
  by_cases hf : d o % 256 ≠ 0
  · rw [if_pos hf] at h
    rcases (bind_eq_ok _ _ _).1 h with ⟨⟨n1, o1⟩, h1, h⟩
    rcases (bind_eq_ok _ _ _).1 h with ⟨o2, h2, h⟩
    rcases (bind_eq_ok _ _ _).1 h with ⟨⟨n3, o3⟩, h3, h⟩
    rcases (bind_eq_ok _ _ _).1 h with ⟨o4, h4, h⟩
    obtain ⟨l1, f1⟩ := readLEB128_frame d d' _ _ _ h1
    obtain ⟨l2, f2⟩ := readLocvars_frame d d' _ _ _ h2
    obtain ⟨l3, f3⟩ := readLEB128_frame d d' _ _ _ h3
    obtain ⟨l4, f4⟩ := readUpvalueNames_frame d d' _ _ _ h4
    simp only [pure, Except.pure, Except.ok.injEq, Prod.mk.injEq] at h
    obtain ⟨hp, ho⟩ := h
    refine ⟨by omega, fun ha => ?_⟩
    rw [ha o (by omega), if_pos hf, f1 (agree_mono (by omega) ha)]
    simp only [bind, Except.bind]
    rw [f2 (agree_mono (by omega) ha)]
    simp only
    rw [f3 (agree_mono (by omega) ha)]
    simp only
    rw [f4 (agree_mono (by omega) ha)]
    simp only [pure, Except.pure, hp, ho]
  · rw [if_neg hf] at h
    cases h
    refine ⟨by omega, fun ha => ?_⟩
    rw [ha o (by omega), if_neg hf]
    rfl

theorem readProto_frame (d d' : Nat → Nat) (stringTable : List String) (p' : Proto)
    (o o' : Nat) (h : readProto d stringTable o = .ok (p', o')) :
    o < o' ∧ (Agree o' d d' → readProto d' stringTable o = .ok (p', o')) := by
  unfold readProto at h ⊢
  rw [read_one] at h
  dsimp only at h
  rw [read_one] at h
  dsimp only at h
  rw [read_one] at h
  dsimp only at h
  rw [read_one] at h
  dsimp only at h
  rcases (bind_eq_ok _ _ _).1 h with ⟨⟨sizecode, o5⟩, h5, h⟩
  obtain ⟨l5, f5⟩ := readLEB128_frame d d' _ _ _ h5
  dsimp only at h
  rcases (bind_eq_ok _ _ _).1 h with ⟨⟨sizek, o6⟩, h6, h⟩
  rw [readCode_offset] at h6
  obtain ⟨l6, f6⟩ := readLEB128_frame d d' _ _ _ h6
  dsimp only at h
  rcases (bind_eq_ok _ _ _).1 h with ⟨⟨k, o7⟩, h7, h⟩
  obtain ⟨l7, f7⟩ := readConstants_frame d d' stringTable _ _ _ _ _ h7
  dsimp only at h
  rcases (bind_eq_ok _ _ _).1 h with ⟨⟨sizep, o8⟩, h8, h⟩
  obtain ⟨l8, f8⟩ := readLEB128_frame d d' _ _ _ h8
  dsimp only at h
  rcases (bind_eq_ok _ _ _).1 h with ⟨⟨children, o9⟩, h9, h⟩
  obtain ⟨l9, f9⟩ := readChildren_frame d d' _ _ _ _ _ h9
  dsimp only at h
  rcases (bind_eq_ok _ _ _).1 h with ⟨⟨linedefined, o10⟩, h10, h⟩
  obtain ⟨l10, f10⟩ := readLEB128_frame d d' _ _ _ h10
  dsimp only at h
  rcases (bind_eq_ok _ _ _).1 h with ⟨⟨debugname_id, o11⟩, h11, h⟩
  obtain ⟨l11, f11⟩ := readLEB128_frame d d' _ _ _ h11
  dsimp only at h
  rcases (bind_eq_ok _ _ _).1 h with ⟨p1, h12, h⟩
  rcases (bind_eq_ok _ _ _).1 h with ⟨⟨p2, o13⟩, h13, h⟩
  obtain ⟨l13, f13⟩ := readLineInfoFlag_frame d d' _ _ _ _ _ h13
  dsimp only at h
  obtain ⟨l14, f14⟩ := readDebugInfo_frame d d' _ _ _ _ h
  refine ⟨by omega, fun ha => ?_⟩
  rw [read_one]
  dsimp only
  rw [read_one]
  dsimp only
  rw [read_one]
  dsimp only
  rw [read_one]
  dsimp only
  rw [ha o (by omega), ha (o + 1) (by omega), ha (o + 1 + 1) (by omega),
    ha (o + 1 + 1 + 1) (by omega), f5 (agree_mono (by omega) ha)]
  simp only [bind, Except.bind]
  rw [readCode_agree d d' _ _ _ (agree_mono (by omega) ha), readCode_offset,
    f6 (agree_mono (by omega) ha)]
  dsimp only
  rw [f7 (agree_mono (by omega) ha)]
  dsimp only
  rw [f8 (agree_mono (by omega) ha)]
  dsimp only
  rw [f9 (agree_mono (by omega) ha)]
  dsimp only
  rw [f10 (agree_mono (by omega) ha)]
  dsimp only
  rw [f11 (agree_mono (by omega) ha)]
  dsimp only
  rw [h12]
  dsimp only
  rw [f13 (agree_mono (by omega) ha)]
  dsimp only
  exact f14 ha

theorem readProtos_frame (d d' : Nat → Nat) (stringTable : List String) :
    ∀ (n o : Nat) (acc r : List Proto) (o' : Nat),
      readProtos d stringTable n o acc = .ok (r, o') →
      o ≤ o' ∧ (Agree o' d d' → readProtos d' stringTable n o acc = .ok (r, o')) := by
  intro n
  induction n with
  | zero =>
    intro o acc r o' h
    unfold readProtos at h ⊢
    cases h
    exact ⟨Nat.le_refl _, fun _ => rfl⟩
  | succ n ih =>
    intro o acc r o' h
    unfold readProtos at h ⊢
    rcases (bind_eq_ok _ _ _).1 h with ⟨⟨p, o1⟩, h1, h⟩
    obtain ⟨l1, f1⟩ := readProto_frame d d' _ _ _ _ h1
    dsimp only at h
    obtain ⟨l2, f2⟩ := ih _ _ _ _ h
    refine ⟨by omega, fun ha => ?_⟩
    rw [f1 (agree_mono (by omega) ha)]
    exact f2 ha

theorem deserialize_bytecode_at_frame (d d' : Nat → Nat) (r : List Proto) (off : Nat)
    (h : deserialize_bytecode_at d = .ok (r, off)) (ha : Agree off d d') :
    deserialize_bytecode_at d' = .ok (r, off) := by
  unfold deserialize_bytecode_at at h ⊢
  dsimp only at h ⊢
  rw [read_one] at h
  rw [read_one]
  dsimp only at h ⊢
  by_cases hv : d 0 % 256 = 0 ∨ d 0 % 256 ≠ 2
  · rw [if_pos hv] at h
    cases h
  · rw [if_neg hv] at h
    rcases (bind_eq_ok _ _ _).1 h with ⟨⟨stringCount, o1⟩, h1, h⟩
    obtain ⟨l1, f1⟩ := readLEB128_frame d d' _ _ _ h1
    dsimp only at h
    rcases (bind_eq_ok _ _ _).1 h with ⟨⟨stringTable, o2⟩, h2, h⟩
    obtain ⟨l2, f2⟩ := readStringTable_frame d d' _ _ _ _ _ h2
    dsimp only at h
    rcases (bind_eq_ok _ _ _).1 h with ⟨⟨protoCount, o3⟩, h3, h⟩
    obtain ⟨l3, f3⟩ := readLEB128_frame d d' _ _ _ h3
    dsimp only at h
    rcases (bind_eq_ok _ _ _).1 h with ⟨⟨protoTable, o4⟩, h4, h⟩
    obtain ⟨l4, f4⟩ := readProtos_frame d d' _ _ _ _ _ _ h4
    dsimp only at h
    rcases (bind_eq_ok _ _ _).1 h with ⟨⟨mainid, o5⟩, h5, h⟩
    obtain ⟨l5, f5⟩ := readLEB128_frame d d' _ _ _ h5
    simp only [pure, Except.pure, Except.ok.injEq, Prod.mk.injEq] at h
    obtain ⟨hp, ho⟩ := h
    subst hp
    subst ho
    rw [ha 0 (by omega), if_neg hv, f1 (agree_mono (by omega) ha)]
    simp only [bind, Except.bind]
    rw [f2 (agree_mono (by omega) ha)]
    dsimp only
    rw [f3 (agree_mono (by omega) ha)]
    dsimp only
    rw [f4 (agree_mono (by omega) ha)]
    dsimp only
    rw [f5 ha]
    rfl

theorem agree_memoryOf (buffer : List Nat) (after after' : Nat → Nat) (n : Nat)
    (hn : n ≤ buffer.length) : Agree n (memoryOf buffer after) (memoryOf buffer after') := by
  intro i hi
  have hlt : i < buffer.length := by omega
  simp only [memoryOf, if_pos hlt]

/-- **C1 (counterexample).** The three-byte buffer `02 01 80` ends in the middle of
the string-length LEB128.  Followed in memory by zero bytes it decodes successfully to
an empty prototype table, the final offset being 6, three bytes past the end of the
buffer; followed by `0x80` bytes the same buffer has a different outcome.  No
truncation error is raised and the bytes after the buffer are read. -/
theorem truncated_string_length_is_not_rejected :
    [2, 1, 0x80].length = 3 ∧
    deserialize_bytecode_at (memoryOf [2, 1, 0x80] (fun _ => 0)) = .ok ([], 6) ∧
    deserialize_bytecode (memoryOf [2, 1, 0x80] (fun _ => 0)) = .ok [] ∧
    deserialize_bytecode (memoryOf [2, 1, 0x80] (fun _ => 0x80))
      = .error Fault.undefinedBehaviour :=
  ⟨rfl, by rfl, by rfl, by rfl⟩

/-- **C1 (amended).** `deserialize_bytecode` receives no length and checks no bound:
a successful decoding is determined by the bytes below its final offset, wherever they
lie.  Any memory that agrees with those bytes decodes to the same prototype table with
the same final offset; hence a decoding that ends inside the buffer does not depend on
what follows the buffer, while the buffer `02 01 80`, which ends in the middle of a
string-length LEB128, is decoded with the three bytes that follow it in memory and
succeeds whenever those are zero. -/
theorem decoding_is_determined_by_the_bytes_read :
    (∀ (d d' : Nat → Nat) (r : List Proto) (off : Nat),
      deserialize_bytecode_at d = .ok (r, off) → Agree off d d' →
      deserialize_bytecode_at d' = .ok (r, off)) ∧
    (∀ (buffer : List Nat) (after after' : Nat → Nat) (r : List Proto) (off : Nat),
      deserialize_bytecode_at (memoryOf buffer after) = .ok (r, off) →
      off ≤ buffer.length →
      deserialize_bytecode (memoryOf buffer after') = .ok r) ∧
    (∀ (after : Nat → Nat), after 0 % 256 = 0 → after 1 % 256 = 0 → after 2 % 256 = 0 →
      deserialize_bytecode_at (memoryOf [2, 1, 0x80] after) = .ok ([], 6)) := by
  refine ⟨deserialize_bytecode_at_frame, ?_, ?_⟩
  · intro buffer after after' r off h hle
    have h' := deserialize_bytecode_at_frame _ _ r off h
      (agree_memoryOf buffer after after' off hle)
    simp only [deserialize_bytecode, h', Except.map]
  · intro after h0 h1 h2
    have he : deserialize_bytecode_at (memoryOf [2, 1, 0x80] (fun _ => 0)) = .ok ([], 6) := by
      rfl
    refine deserialize_bytecode_at_frame _ _ [] 6 he ?_
    intro i hi
    match i, hi with
    | 0, _ => rfl
    | 1, _ => rfl
    | 2, _ => rfl
    | 3, _ => exact h0
    | 4, _ => exact h1
    | 5, _ => exact h2
    | n + 6, h => exact absurd h (by omega)

/-- Witness for C1: the buffer `02 00 00 00` decodes within its four bytes whatever
follows it, and `02 01 80` followed by `00 00 00 FF …` decodes past its end. -/
theorem decoding_is_determined_by_the_bytes_read_witness :
    deserialize_bytecode_at (memoryOf [2, 0, 0, 0] (fun _ => 0)) = .ok ([], 4) ∧
    4 ≤ [2, 0, 0, 0].length ∧
    deserialize_bytecode (memoryOf [2, 0, 0, 0] (fun _ => 255)) = .ok [] ∧
    deserialize_bytecode_at (memoryOf [2, 1, 0x80] (fun i => if i < 3 then 0 else 255))
      = .ok ([], 6) :=
  ⟨by rfl, by decide,
   decoding_is_determined_by_the_bytes_read.2.1 [2, 0, 0, 0] (fun _ => 0) (fun _ => 255) [] 4
     (by rfl) (by decide),
   decoding_is_determined_by_the_bytes_read.2.2 (fun i => if i < 3 then 0 else 255)
     (by rfl) (by rfl) (by rfl)⟩

/-! ## C12: String constants -/

theorem readLEB128Loop_lt (d : Nat → Nat) :
    ∀ (n o result shift r o' : Nat), readLEB128Loop d n o result shift = .ok (r, o') →
      result < 4294967296 → r < 4294967296 := by
  intro n
  induction n with
  | zero =>
    intro o result shift r o' h
    simp [readLEB128Loop] at h
  | succ n ih =>
    intro o result shift r o' h hres
    unfold readLEB128Loop at h
    rw [read_one] at h
    dsimp only at h
    have hor : result ||| ((d o % 256 &&& 127) <<< shift) % 4294967296 < 4294967296 := by
      have h2 : ((d o % 256 &&& 127) <<< shift) % 4294967296 < 2 ^ 32 := by
        have : (0 : Nat) < 4294967296 := by decide
        exact Nat.mod_lt _ this
      have h1 : result < 2 ^ 32 := hres
      exact Nat.or_lt_two_pow h1 h2
    split at h
    · exact ih _ _ _ _ _ h hor
    · cases h
      exact hor

theorem readLEB128_lt (d : Nat → Nat) (o r o' : Nat) (h : readLEB128 d o = .ok (r, o')) :
    r < 4294967296 :=
  readLEB128Loop_lt d 5 o 0 0 r o' h (by decide)

theorem dec32_pos (x : Nat) (h1 : 1 ≤ x) (h2 : x < 4294967296) : dec32 x = x - 1 := by
  rw [dec32_def]; omega

/-- **C12 (failing input).** The entry `03 02` over the pool
`["game", "Players"]` has an index within `1 ..` pool size, and the pool entry
`Players` is found, but no String constant is produced: the pushed entry
holds the union member `import`, and case 3 assigns through the member
`str`, a `std::string` that was never constructed, which is undefined
behaviour.  The module with the pool `["a"]` and one prototype whose single
constant is `03 01` runs into that assignment.  The sibling cases 1 and 2
store into their members, and the debug name, a constructed `std::string`,
takes the pool entry. -/
theorem string_constant_assigns_unconstructed_member :
    readLEB128 (fun i => [3, 2].getD i 0) 1 = .ok (2, 2) ∧
    index ["game", "Players"] ((dec32 2 : Nat) : Int) = .ok "Players" ∧
    ({} : LuaValue).value = LuaValueUnion.imp {} ∧
    readConstant (fun i => [3, 2].getD i 0) ["game", "Players"] [] 0
      = .error Fault.undefinedBehaviour ∧
    deserialize_bytecode
        (memoryOf [2, 1, 1, 97, 1, 0, 0, 0, 0, 0, 1, 3, 1, 0, 0, 0, 0, 0, 0] (fun _ => 0))
      = .error Fault.undefinedBehaviour ∧
    readConstant (fun i => [1, 1].getD i 0) ["game", "Players"] [] 0
      = .ok ([{ value := LuaValueUnion.boolean true, type := LUA_TBOOLEAN }], 2) ∧
    deserialize_bytecode
        (memoryOf [2, 1, 1, 97, 1, 0, 0, 0, 0, 0, 1, 1, 1, 0, 0, 0, 0, 0, 0] (fun _ => 0))
      = .ok [{ k := [{ value := LuaValueUnion.boolean true, type := LUA_TBOOLEAN }] }] ∧
    readDebugName ["a"] {} 1 = .ok { debugname := "a" } :=
  ⟨by rfl, by rfl, by rfl, by rfl, by rfl, by rfl, by rfl, by rfl⟩

/-! ## C13: the index 0 of a string reference -/

/-- **C13.** The debug-name index 0 leaves the name untouched, but the tag-3
constant entry with index 0 is not treated as absent: `id - 1` wraps to
`0xFFFFFFFF` and `stringTable[0xFFFFFFFF]` is evaluated.  The module
`02 00 01 00 00 00 00 00 01 03 00` (no strings, one prototype, one constant
`03 00`) runs into that access, also when the pool holds a string. -/
theorem string_constant_index_zero_is_indexed :
    readDebugName ["a"] {} 0 = .ok {} ∧
    dec32 0 = 4294967295 ∧
    readConstant (fun i => [3, 0].getD i 0) ["a"] [] 0 = .error Fault.undefinedBehaviour ∧
    deserialize_bytecode (memoryOf [2, 0, 1, 0, 0, 0, 0, 0, 1, 3, 0] (fun _ => 0))
      = .error Fault.undefinedBehaviour ∧
    deserialize_bytecode (memoryOf [2, 1, 1, 97, 1, 0, 0, 0, 0, 0, 1, 3, 0] (fun _ => 0))
      = .error Fault.undefinedBehaviour :=
  ⟨by rfl, by rfl, by rfl, by rfl, by rfl⟩

/-! ## The line table: what the two loops store -/

theorem byteSum_shift (d : Nat → Nat) (o : Nat) :
    ∀ m, byteSum d o (m + 1) = d o % 256 + byteSum d (o + 1) m := by
  intro m
  induction m with
  | zero => simp [byteSum]
  | succ m ih =>
    rw [byteSum, ih, byteSum]
    have : o + (m + 1) = o + 1 + m := by omega
    rw [this]
    omega

theorem deltaSum_shift (d : Nat → Nat) (o : Nat) :
    ∀ m, deltaSum d o (m + 1) = leValue d o 4 + deltaSum d (o + 4) m := by
  intro m
  induction m with
  | zero => simp [deltaSum]
  | succ m ih =>
    rw [deltaSum, ih, deltaSum]
    have : o + 4 * (m + 1) = o + 4 + 4 * m := by omega
    rw [this]
    omega

theorem toInt32_congr (x y : Int) (h : x % 4294967296 = y % 4294967296) :
    toInt32 x = toInt32 y := by
  rw [toInt32_def, toInt32_def]; omega

theorem toInt32_add_left (x y : Int) : toInt32 (toInt32 x + y) = toInt32 (x + y) := by
  apply toInt32_congr
  rw [toInt32_def]; omega

theorem readLineOffsets_eq (d : Nat → Nat) :
    ∀ (n o last : Nat) (acc : List Nat),
      (readLineOffsets d n o last acc).1
        = acc ++ (List.range n).map (fun i => (last + byteSum d o (i + 1)) % 256) := by
  intro n
  induction n with
  | zero => intro o last acc; simp [readLineOffsets]
  | succ n ih =>
    intro o last acc
    rw [readLineOffsets, read_one]
    dsimp only
    rw [ih, List.range_succ_eq_map, List.map_cons, List.map_map, List.append_assoc]
    congr 1
    simp only [List.singleton_append]
    congr 1
    · simp [byteSum]
    · apply List.map_congr_left
      intro i _
      simp only [Function.comp, Nat.succ_eq_add_one]
      rw [byteSum_shift d o (i + 1)]
      omega

theorem readAbsLines_eq (d : Nat → Nat) :
    ∀ (n o : Nat) (last : Int) (acc : List Int),
      (readAbsLines d n o last acc).1
        = acc ++ (List.range n).map (fun j => toInt32 (last + (deltaSum d o (j + 1) : Nat))) := by
  intro n
  induction n with
  | zero => intro o last acc; simp [readAbsLines]
  | succ n ih =>
    intro o last acc
    rw [readAbsLines]
    dsimp only [read]
    rw [ih, List.range_succ_eq_map, List.map_cons, List.map_map, List.append_assoc]
    congr 1
    simp only [List.singleton_append]
    congr 1
    · simp [deltaSum]
    · apply List.map_congr_left
      intro j _
      simp only [Function.comp, Nat.succ_eq_add_one]
      rw [deltaSum_shift d o (j + 1), toInt32_add_left]
      congr 1
      push_cast
      omega

theorem readLineInfo_ok_inv (d : Nat → Nat) (sizecode : Nat) (p p' : Proto) (o o' : Nat)
    (h : readLineInfo d sizecode p o = .ok (p', o')) :
    d o % 256 < 32 ∧
    ¬ (toInt32 ((((sizecode + 3) % 4294967296) &&& 0xFFFFFFFC : Nat) : Int) < 0) ∧
    ¬ (((toInt32 ((((sizecode + 3) % 4294967296) &&& 0xFFFFFFFC : Nat) : Int)
          + toInt32 ((dec32 sizecode >>> (d o % 256) + 1 : Nat) : Int) * 4) % 4294967296).toNat
        < p.code.length) ∧
    p' = { p with
      linegaplog2 := d o % 256,
      sizelineinfo :=
        ((toInt32 ((((sizecode + 3) % 4294967296) &&& 0xFFFFFFFC : Nat) : Int)
          + toInt32 ((dec32 sizecode >>> (d o % 256) + 1 : Nat) : Int) * 4) % 4294967296).toNat,
      lineinfo := some (readLineOffsets d p.code.length (o + 1) 0 []).1,
      abslineinfo :=
        (readAbsLines d (toInt32 ((dec32 sizecode >>> (d o % 256) + 1 : Nat) : Int)).toNat
          (o + 1 + p.code.length) 0 []).1 } := by
  unfold readLineInfo at h
  rw [read_one] at h
  dsimp only at h
  generalize hb : d o % 256 = g at h ⊢
  rcases hLO : readLineOffsets d p.code.length (o + 1) 0 [] with ⟨lineinfo, off⟩
  have hoff : off = o + 1 + p.code.length := by
    have := readLineOffsets_offset d p.code.length (o + 1) 0 []
    rw [hLO] at this
    exact this
  generalize hcnt : (toInt32 ((dec32 sizecode >>> g + 1 : Nat) : Int)).toNat = cnt at h ⊢
  generalize hA : toInt32 ((((sizecode + 3) % 4294967296) &&& 0xFFFFFFFC : Nat) : Int) = A at h ⊢
  generalize hI : toInt32 ((dec32 sizecode >>> g + 1 : Nat) : Int) = I at h ⊢
  rcases hAB : readAbsLines d cnt off 0 [] with ⟨abslineinfo, off2⟩
  simp only [hLO, hAB] at h
  split at h
  · cases h
  · rename_i hg
    split at h
    · cases h
    · rename_i h1
      split at h
      · cases h
      · rename_i h2
        split at h
        · cases h
        · simp only [Except.ok.injEq, Prod.mk.injEq] at h
          refine ⟨by omega, fun hneg => h1 (Or.inl hneg), h2, ?_⟩
          rw [← hoff, hAB]
          exact h.1.symm

theorem and_mask_zero (x : Nat) (h : x ≤ 2) : x &&& 0xFFFFFFFC = 0 := by
  interval_cases x <;> rfl

theorem and_mask_ge (x : Nat) (h1 : 2147483648 ≤ x) (h2 : x < 4294967296) :
    2147483648 ≤ x &&& 0xFFFFFFFC := by
  have hx : x.testBit 31 = true := by
    rw [Nat.testBit_to_div_mod]
    simp only [decide_eq_true_eq]
    omega
  have hm : (0xFFFFFFFC : Nat).testBit 31 = true := by decide
  have : (x &&& 0xFFFFFFFC).testBit 31 = true := by
    rw [Nat.testBit_and, hx, hm]; rfl
  exact Nat.testBit_implies_ge this

theorem and_mask_lt (x : Nat) (h2 : x < 4294967296) : x &&& 0xFFFFFFFC < 4294967296 :=
  Nat.lt_of_le_of_lt Nat.and_le_left h2

theorem toInt32_neg_of_ge (m : Nat) (h1 : 2147483648 ≤ m) (h2 : m < 4294967296) :
    toInt32 (m : Int) < 0 := by
  rw [toInt32_def]; omega

theorem toInt32_natCast_small (u : Nat) (h : u < 2147483648) : toInt32 (u : Int) = (u : Int) := by
  rw [toInt32_def]; omega

theorem times_four_toNat (a : Int) : ((a * 4) % 4294967296).toNat ≤ 4294967292 := by
  omega

/-- A line-table block that is decoded for at least one instruction reads
`((sizecode - 1) >> linegaplog2) + 1` interval lines: the `int` that holds the
count is positive. -/
theorem readLineInfo_intervals (d : Nat → Nat) (sizecode : Nat) (p p' : Proto) (o o' : Nat)
    (h : readLineInfo d sizecode p o = .ok (p', o')) (hlen : p.code.length = sizecode)
    (h1 : 1 ≤ sizecode) (h2 : sizecode < 4294967296) :
    toInt32 ((dec32 sizecode >>> (d o % 256) + 1 : Nat) : Int)
      = (((sizecode - 1) >>> (d o % 256) + 1 : Nat) : Int) := by
  obtain ⟨hg, hA, hS, _⟩ := readLineInfo_ok_inv d sizecode p p' o o' h
  rw [dec32_pos sizecode h1 h2] at hS ⊢
  clear h
  generalize d o % 256 = g at *
  have hu : (sizecode - 1) >>> g + 1 ≤ sizecode := by
    rw [Nat.shiftRight_eq_div_pow]
    have := Nat.div_le_self (sizecode - 1) (2 ^ g)
    omega
  generalize (sizecode - 1) >>> g + 1 = u at *
  by_cases hsmall : u < 2147483648
  · exact toInt32_natCast_small u hsmall
  · exfalso
    by_cases hwrap : sizecode + 3 < 4294967296
    · have hx1 : 2147483648 ≤ (sizecode + 3) % 4294967296 := by
        clear hA hS; omega
      have hx2 : (sizecode + 3) % 4294967296 < 4294967296 := by
        clear hA hS; omega
      exact hA (toInt32_neg_of_ge _ (and_mask_ge _ hx1 hx2) (and_mask_lt _ hx2))
    · have hx : (sizecode + 3) % 4294967296 ≤ 2 := by
        clear hA hS; omega
      rw [and_mask_zero _ hx, hlen] at hS
      have hz : toInt32 ((0 : Nat) : Int) = 0 := by rfl
      rw [hz, Int.zero_add] at hS
      have := times_four_toNat (toInt32 (u : Int))
      clear hA
      omega

/-! ## What a decoded prototype records -/

theorem readCode_length (d : Nat → Nat) :
    ∀ (n o : Nat) (code : List Nat), (readCode d n o code).1.length = code.length + n := by
  intro n
  induction n with
  | zero => intro o code; simp [readCode]
  | succ n ih =>
    intro o code
    rw [readCode]
    dsimp only [read]
    rw [ih, List.length_append, List.length_singleton]
    omega

theorem readDebugName_fields (stringTable : List String) (p p' : Proto) (id : Nat)
    (h : readDebugName stringTable p id = .ok p') :
    p' = { p with debugname := p'.debugname } := by
  unfold readDebugName at h
  split at h
  · rcases (bind_eq_ok _ _ _).1 h with ⟨s, _, h⟩
    cases h
    rfl
  · cases h
    rfl

theorem readDebugInfo_fields (d : Nat → Nat) (p p' : Proto) (o o' : Nat)
    (h : readDebugInfo d p o = .ok (p', o')) :
    p' = { p with sizelocvars := p'.sizelocvars, sizeupvalues := p'.sizeupvalues } := by
  unfold readDebugInfo at h
  rw [read_one] at h
  dsimp only at h
  split at h
  · rcases (bind_eq_ok _ _ _).1 h with ⟨⟨n1, o1⟩, h1, h⟩
    rcases (bind_eq_ok _ _ _).1 h with ⟨o2, h2, h⟩
    rcases (bind_eq_ok _ _ _).1 h with ⟨⟨n3, o3⟩, h3, h⟩
    rcases (bind_eq_ok _ _ _).1 h with ⟨o4, h4, h⟩
    cases h
    rfl
  · cases h
    rfl

theorem readLineInfoFlag_inv (d : Nat → Nat) (sizecode : Nat) (p p' : Proto) (o o' : Nat)
    (h : readLineInfoFlag d sizecode p o = .ok (p', o')) :
    (d o % 256 = 0 ∧ p' = p) ∨
    (d o % 256 ≠ 0 ∧ readLineInfo d sizecode p (o + 1) = .ok (p', o')) := by
  unfold readLineInfoFlag at h
  rw [read_one] at h
  dsimp only at h
  by_cases hf : d o % 256 ≠ 0
  · rw [if_pos hf] at h
    exact Or.inr ⟨hf, h⟩
  · rw [if_neg hf] at h
    cases h
    exact Or.inl ⟨by omega, rfl⟩

theorem readProto_ok_inv (d : Nat → Nat) (stringTable : List String) (p' : Proto)
    (o o' : Nat) (h : readProto d stringTable o = .ok (p', o')) :
    ∃ (sizecode sizek o6 o7 o11 o13 : Nat) (k : List LuaValue) (p1 p2 : Proto),
      sizecode < 4294967296 ∧
      readConstants d stringTable sizek o6 [] = .ok (k, o7) ∧
      p1.code.length = sizecode ∧ p1.k = k ∧ p1.lineinfo = none ∧
      readLineInfoFlag d sizecode p1 o11 = .ok (p2, o13) ∧
      readDebugInfo d p2 o13 = .ok (p', o') := by
  unfold readProto at h
  rw [read_one] at h
  dsimp only at h
  rw [read_one] at h
  dsimp only at h
  rw [read_one] at h
  dsimp only at h
  rw [read_one] at h
  dsimp only at h
  rcases (bind_eq_ok _ _ _).1 h with ⟨⟨sizecode, o5⟩, h5, h⟩
  dsimp only at h
  rcases (bind_eq_ok _ _ _).1 h with ⟨⟨sizek, o6⟩, h6, h⟩
  dsimp only at h
  rcases (bind_eq_ok _ _ _).1 h with ⟨⟨k, o7⟩, h7, h⟩
  dsimp only at h
  rcases (bind_eq_ok _ _ _).1 h with ⟨⟨sizep, o8⟩, h8, h⟩
  dsimp only at h
  rcases (bind_eq_ok _ _ _).1 h with ⟨⟨children, o9⟩, h9, h⟩
  dsimp only at h
  rcases (bind_eq_ok _ _ _).1 h with ⟨⟨linedefined, o10⟩, h10, h⟩
  dsimp only at h
  rcases (bind_eq_ok _ _ _).1 h with ⟨⟨debugname_id, o11⟩, h11, h⟩
  dsimp only at h
  rcases (bind_eq_ok _ _ _).1 h with ⟨p1, h12, h⟩
  rcases (bind_eq_ok _ _ _).1 h with ⟨⟨p2, o13⟩, h13, h⟩
  dsimp only at h
  have hf := readDebugName_fields _ _ _ _ h12
  refine ⟨sizecode, sizek, o6, o7, o11, o13, k, p1, p2, readLEB128_lt d _ _ _ h5, h7,
    ?_, ?_, ?_, h13, h⟩
  · rw [hf]
    simp only [readCode_length, List.length_nil, Nat.zero_add]
  · rw [hf]
  · rw [hf]

theorem readProtos_forall (P : Proto → Prop) (d : Nat → Nat) (stringTable : List String)
    (hP : ∀ o p o', readProto d stringTable o = .ok (p, o') → P p) :
    ∀ (n o : Nat) (acc r : List Proto) (o' : Nat),
      readProtos d stringTable n o acc = .ok (r, o') → (∀ p ∈ acc, P p) → ∀ p ∈ r, P p := by
  intro n
  induction n with
  | zero =>
    intro o acc r o' h hacc
    unfold readProtos at h
    cases h
    exact hacc
  | succ n ih =>
    intro o acc r o' h hacc
    unfold readProtos at h
    rcases (bind_eq_ok _ _ _).1 h with ⟨⟨p, o1⟩, h1, h⟩
    dsimp only at h
    refine ih _ _ _ _ h ?_
    intro q hq
    rcases List.mem_append.1 hq with hq | hq
    · exact hacc q hq
    · rw [List.mem_singleton.1 hq]
      exact hP _ _ _ h1

/-- A property that every successful `readProto` establishes holds of every
prototype that `deserialize_bytecode` returns. -/
theorem deserialize_bytecode_forall (P : Proto → Prop) (d : Nat → Nat)
    (hP : ∀ stringTable o p o', readProto d stringTable o = .ok (p, o') → P p)
    (protos : List Proto) (h : deserialize_bytecode d = .ok protos) :
    ∀ p ∈ protos, P p := by
  unfold deserialize_bytecode at h
  cases hd : deserialize_bytecode_at d with
  | error e => rw [hd] at h; cases h
  | ok r =>
    obtain ⟨r, off⟩ := r
    rw [hd] at h
    cases h
    unfold deserialize_bytecode_at at hd
    dsimp only at hd
    rw [read_one] at hd
    dsimp only at hd
    split at hd
    · cases hd
    · rcases (bind_eq_ok _ _ _).1 hd with ⟨⟨stringCount, o1⟩, h1, hd⟩
      dsimp only at hd
      rcases (bind_eq_ok _ _ _).1 hd with ⟨⟨stringTable, o2⟩, h2, hd⟩
      dsimp only at hd
      rcases (bind_eq_ok _ _ _).1 hd with ⟨⟨protoCount, o3⟩, h3, hd⟩
      dsimp only at hd
      rcases (bind_eq_ok _ _ _).1 hd with ⟨⟨protoTable, o4⟩, h4, hd⟩
      dsimp only at hd
      rcases (bind_eq_ok _ _ _).1 hd with ⟨⟨mainid, o5⟩, h5, hd⟩
      cases hd
      exact readProtos_forall P d stringTable (hP stringTable) _ _ _ _ _ h4
        (fun p hp => absurd hp (List.not_mem_nil p))

/-- The line table of a decoded prototype that has one: the block was read by
`readLineInfo` at some offset `t`, for the prototype's own instruction
count. -/
theorem readProto_lineinfo (d : Nat → Nat) (stringTable : List String) (p : Proto)
    (o o' : Nat) (h : readProto d stringTable o = .ok (p, o')) (hl : p.lineinfo ≠ none) :
    ∃ (t o2 : Nat) (p1 p2 : Proto),
      readLineInfo d p.code.length p1 t = .ok (p2, o2) ∧
      p1.code.length = p.code.length ∧ p.code.length < 4294967296 ∧
      p2.lineinfo = p.lineinfo ∧ p2.abslineinfo = p.abslineinfo ∧
      p2.linegaplog2 = p.linegaplog2 := by
  obtain ⟨sizecode, sizek, o6, o7, o11, o13, k, p1, p2, hsz, _, hc, _, hn, hflag, hdbg⟩ :=
    readProto_ok_inv d stringTable p o o' h
  have hf := readDebugInfo_fields d p2 p o13 o' hdbg
  rcases readLineInfoFlag_inv d sizecode p1 p2 o11 o13 hflag with ⟨_, he⟩ | ⟨_, hli⟩
  · exfalso
    apply hl
    rw [hf, he]
    exact hn
  · obtain ⟨_, _, _, hp2⟩ := readLineInfo_ok_inv d sizecode p1 p2 (o11 + 1) o13 hli
    have hcode : p.code = p1.code := by rw [hf, hp2]
    have hlen : p.code.length = sizecode := by rw [hcode]; exact hc
    refine ⟨o11 + 1, o13, p1, p2, ?_, ?_, ?_, ?_, ?_, ?_⟩
    · rw [hlen]; exact hli
    · rw [hcode]
    · rw [hlen]; exact hsz
    · rw [hf]
    · rw [hf]
    · rw [hf]

/-! ## C17: the per-instruction offsets -/

theorem perInstructionOffset_succ (d : Nat → Nat) (t i : Nat) :
    perInstructionOffset d t (i + 1)
      = (perInstructionOffset d t i + d (t + 1 + (i + 1)) % 256) % 256 := by
  unfold perInstructionOffset
  rw [byteSum]
  omega

theorem readLineInfo_lineinfo (d : Nat → Nat) (sizecode : Nat) (p p' : Proto) (o o' : Nat)
    (h : readLineInfo d sizecode p o = .ok (p', o')) :
    ∃ l, p'.lineinfo = some l ∧ l.length = p.code.length ∧
      ∀ i, i < p.code.length → l[i]? = some (perInstructionOffset d o i) := by
  obtain ⟨_, _, _, hp'⟩ := readLineInfo_ok_inv d sizecode p p' o o' h
  refine ⟨(readLineOffsets d p.code.length (o + 1) 0 []).1, by rw [hp'], ?_, ?_⟩
  · rw [readLineOffsets_eq]
    simp
  · intro i hi
    rw [readLineOffsets_eq]
    simp [hi, perInstructionOffset]

/-- **C17.** The line-table block stores, for every instruction index `i`, the
sum of the first `i + 1` raw offset bytes reduced modulo 256:
`offset[0] = byte[0]` and `offset[i + 1] = (offset[i] + byte[i + 1]) mod 256`.
This holds of the block itself and of every prototype with line info that
`deserialize_bytecode` returns. -/
theorem lineinfo_is_running_byte_sum :
    (∀ (d : Nat → Nat) (t : Nat), perInstructionOffset d t 0 = d (t + 1) % 256) ∧
    (∀ (d : Nat → Nat) (t i : Nat), perInstructionOffset d t (i + 1)
      = (perInstructionOffset d t i + d (t + 1 + (i + 1)) % 256) % 256) ∧
    (∀ (d : Nat → Nat) (sizecode : Nat) (p p' : Proto) (o o' : Nat),
      readLineInfo d sizecode p o = .ok (p', o') →
      ∃ l, p'.lineinfo = some l ∧ l.length = p.code.length ∧
        ∀ i, i < p.code.length → l[i]? = some (perInstructionOffset d o i)) ∧
    (∀ (d : Nat → Nat) (protos : List Proto), deserialize_bytecode d = .ok protos →
      ∀ p ∈ protos, ∀ l, p.lineinfo = some l →
        ∃ t, l.length = p.code.length ∧
          ∀ i, i < p.code.length → l[i]? = some (perInstructionOffset d t i)) := by
  refine ⟨?_, perInstructionOffset_succ, readLineInfo_lineinfo, ?_⟩
  · intro d t
    simp [perInstructionOffset, byteSum]
  · intro d protos h
    refine deserialize_bytecode_forall
      (fun p => ∀ l, p.lineinfo = some l →
        ∃ t, l.length = p.code.length ∧
          ∀ i, i < p.code.length → l[i]? = some (perInstructionOffset d t i)) d ?_ protos h
    intro stringTable o p o' hp l hl
    obtain ⟨t, o2, p1, p2, hli, hc, _, hl2, _, _⟩ :=
      readProto_lineinfo d stringTable p o o' hp (by rw [hl]; exact Option.some_ne_none l)
    obtain ⟨l', hl', hlen, hget⟩ := readLineInfo_lineinfo d _ p1 p2 t o2 hli
    rw [hl2, hl] at hl'
    cases hl'
    rw [hc] at hlen hget
    exact ⟨t, hlen, hget⟩

/-- Witness for C17: the block `00 | FF 02 | …` of a two-instruction prototype
stores the offsets `255` and `1`. -/
theorem lineinfo_is_running_byte_sum_witness :
    ∃ l, (some l = some [255, 1]) ∧ l.length = 2 ∧
      ∀ i, i < 2 → l[i]? = some (perInstructionOffset
        (fun i => [0, 255, 2, 7, 0, 0, 0, 0, 0, 0, 0].getD i 0) 0 i) := by
  obtain ⟨l, h1, h2, h3⟩ := lineinfo_is_running_byte_sum.2.2.1
    (fun i => [0, 255, 2, 7, 0, 0, 0, 0, 0, 0, 0].getD i 0) 2 { code := [0, 0] }
    { code := [0, 0], lineinfo := some [255, 1], abslineinfo := [7, 7], sizelineinfo := 12 }
    0 11 (by rfl)
  exact ⟨l, h1.symm, h2, h3⟩

/-! ## C15: the line of an instruction -/

theorem readLineInfo_abslineinfo (d : Nat → Nat) (sizecode : Nat) (p p' : Proto) (o o' : Nat)
    (h : readLineInfo d sizecode p o = .ok (p', o')) (hlen : p.code.length = sizecode)
    (h1 : 1 ≤ sizecode) (h2 : sizecode < 4294967296) :
    p'.linegaplog2 = d o % 256 ∧ d o % 256 < 32 ∧
    p'.abslineinfo.length = (sizecode - 1) >>> (d o % 256) + 1 ∧
    ∀ j, j < (sizecode - 1) >>> (d o % 256) + 1 →
      p'.abslineinfo[j]? = some (intervalBase d o sizecode j) := by
  obtain ⟨hg, _, _, hp'⟩ := readLineInfo_ok_inv d sizecode p p' o o' h
  have hI := readLineInfo_intervals d sizecode p p' o o' h hlen h1 h2
  rw [hI, Int.toNat_ofNat, hlen] at hp'
  refine ⟨by rw [hp'], hg, ?_, ?_⟩
  · rw [hp']
    simp only [readAbsLines_eq]
    simp
  · intro j hj
    rw [hp']
    simp only [readAbsLines_eq]
    simp [hj, intervalBase]

theorem shiftRight_lt_intervals (sizecode pc g : Nat) (hpc : pc < sizecode) :
    pc >>> g < (sizecode - 1) >>> g + 1 := by
  rw [Nat.shiftRight_eq_div_pow, Nat.shiftRight_eq_div_pow]
  have : pc / 2 ^ g ≤ (sizecode - 1) / 2 ^ g := Nat.div_le_div_right (by omega)
  omega

theorem getLineNumberFromPc_eq (p : Proto) (l : List Nat) (pc : Nat) (abs : Int) (rel : Nat)
    (hl : p.lineinfo = some l) (hg : p.linegaplog2 < 32)
    (habs : p.abslineinfo[pc >>> p.linegaplog2]? = some abs) (hrel : l[pc]? = some rel) :
    getLineNumberFromPc p (pc : Int) = .ok (toInt32 (abs + (rel : Int))) := by
  unfold getLineNumberFromPc
  rw [hl]
  dsimp only
  rw [if_neg (by omega)]
  have hs : ((pc : Int) >>> p.linegaplog2) = ((pc >>> p.linegaplog2 : Nat) : Int) := by
    rw [Int.shiftRight_eq_div_pow, Nat.shiftRight_eq_div_pow]
    push_cast
    rfl
  rw [hs, index_ofNat _ _ _ habs, index_ofNat _ _ _ hrel]
  rfl

theorem readLineInfo_line (d : Nat → Nat) (sizecode : Nat) (p p' : Proto) (o o' : Nat)
    (h : readLineInfo d sizecode p o = .ok (p', o')) (hlen : p.code.length = sizecode)
    (h2 : sizecode < 4294967296) (pc : Nat) (hpc : pc < sizecode) :
    getLineNumberFromPc p' (pc : Int)
      = .ok (toInt32 (intervalBase d o sizecode (pc >>> (d o % 256))
          + (perInstructionOffset d o pc : Nat))) := by
  obtain ⟨l, hl, _, hget⟩ := readLineInfo_lineinfo d sizecode p p' o o' h
  obtain ⟨hg, hg32, _, habs⟩ :=
    readLineInfo_abslineinfo d sizecode p p' o o' h hlen (by omega) h2
  have hlt := shiftRight_lt_intervals sizecode pc (d o % 256) hpc
  refine getLineNumberFromPc_eq p' l pc _ _ hl (by rw [hg]; exact hg32) ?_
    (hget pc (by rw [hlen]; exact hpc))
  rw [hg]
  exact habs _ hlt

/-- **C15.** For a prototype decoded with line info and every `pc` below its
instruction count, `getLineNumberFromPc` returns
`intervalBase[pc >> linegaplog2] + perInstructionOffset[pc]` as an `int`, where
`intervalBase[j]` is the 32-bit running total of the first `j + 1` interval
deltas and `perInstructionOffset[pc]` the stored 8-bit cumulative offset; the
`int` sum is the exact sum whenever that is below `2^31`.  This holds of the
line-table block and of every prototype that `deserialize_bytecode` returns. -/
theorem line_is_interval_base_plus_offset :
    (∀ (d : Nat → Nat) (sizecode : Nat) (p p' : Proto) (o o' : Nat),
      readLineInfo d sizecode p o = .ok (p', o') → p.code.length = sizecode →
      sizecode < 4294967296 → ∀ pc : Nat, pc < sizecode →
      getLineNumberFromPc p' (pc : Int)
        = .ok (toInt32 (intervalBase d o sizecode (pc >>> (d o % 256))
            + (perInstructionOffset d o pc : Nat)))) ∧
    (∀ (d : Nat → Nat) (protos : List Proto), deserialize_bytecode d = .ok protos →
      ∀ p ∈ protos, p.lineinfo ≠ none →
        ∃ t, ∀ pc : Nat, pc < p.code.length →
          getLineNumberFromPc p (pc : Int)
            = .ok (toInt32 (intervalBase d t p.code.length (pc >>> p.linegaplog2)
                + (perInstructionOffset d t pc : Nat)))) ∧
    (∀ (d : Nat → Nat) (t sizecode j pc : Nat),
      intervalBase d t sizecode j + (perInstructionOffset d t pc : Nat) < 2147483648 →
      toInt32 (intervalBase d t sizecode j + (perInstructionOffset d t pc : Nat))
        = intervalBase d t sizecode j + (perInstructionOffset d t pc : Nat)) := by
  refine ⟨readLineInfo_line, ?_, ?_⟩
  · intro d protos h
    refine deserialize_bytecode_forall
      (fun p => p.lineinfo ≠ none →
        ∃ t, ∀ pc : Nat, pc < p.code.length →
          getLineNumberFromPc p (pc : Int)
            = .ok (toInt32 (intervalBase d t p.code.length (pc >>> p.linegaplog2)
                + (perInstructionOffset d t pc : Nat)))) d ?_ protos h
    intro stringTable o p o' hp hl
    obtain ⟨t, o2, p1, p2, hli, hc, hsz, hl2, ha2, hg2⟩ :=
      readProto_lineinfo d stringTable p o o' hp hl
    refine ⟨t, fun pc hpc => ?_⟩
    have hline := readLineInfo_line d _ p1 p2 t o2 hli hc hsz pc hpc
    obtain ⟨hg, _, _, _⟩ :=
      readLineInfo_abslineinfo d _ p1 p2 t o2 hli hc (by omega) hsz
    rw [← hg2, hg, ← hline]
    unfold getLineNumberFromPc
    rw [hl2, ha2, hg2]
  · intro d t sizecode j pc hlt
    have := (toInt32_range ((deltaSum d (t + 1 + sizecode) (j + 1) : Nat) : Int)).1
    unfold intervalBase at hlt ⊢
    exact toInt32_of_range _ (by omega) hlt

/-- Witness for C15: a two-instruction block with granularity 0, offsets
`FF 02` and deltas 7 and 0. -/
theorem line_is_interval_base_plus_offset_witness :
    getLineNumberFromPc
        { code := [0, 0], lineinfo := some [255, 1], abslineinfo := [7, 7], sizelineinfo := 12 }
        ((1 : Nat) : Int)
      = .ok (toInt32 (intervalBase (fun i => [0, 255, 2, 7, 0, 0, 0, 0, 0, 0, 0].getD i 0) 0 2
            (1 >>> ((fun i => [0, 255, 2, 7, 0, 0, 0, 0, 0, 0, 0].getD i 0) 0 % 256))
          + (perInstructionOffset
              (fun i => [0, 255, 2, 7, 0, 0, 0, 0, 0, 0, 0].getD i 0) 0 1 : Nat))) :=
  line_is_interval_base_plus_offset.1
    (fun i => [0, 255, 2, 7, 0, 0, 0, 0, 0, 0, 0].getD i 0) 2 { code := [0, 0] }
    { code := [0, 0], lineinfo := some [255, 1], abslineinfo := [7, 7], sizelineinfo := 12 }
    0 11 (by rfl) (by rfl) (by decide) 1 (by decide)

/-! ## C16: the number of interval lines -/

theorem ceilDiv_le_iff (n m q : Nat) (hm : 0 < m) : ceilDiv n m ≤ q ↔ n ≤ q * m := by
  unfold ceilDiv
  rw [Nat.div_le_iff_le_mul_add_pred hm, Nat.mul_comm m q]
  omega

theorem intervals_eq_ceilDiv (n g : Nat) (h1 : 1 ≤ n) :
    (n - 1) >>> g + 1 = ceilDiv n (2 ^ g) := by
  unfold ceilDiv
  have hm : 0 < 2 ^ g := Nat.two_pow_pos g
  rw [Nat.shiftRight_eq_div_pow]
  have : n + 2 ^ g - 1 = n - 1 + 2 ^ g := by omega
  rw [this, Nat.add_div_right _ hm]

/-- **C16 (counterexample).** For zero instructions and `linegaplog2 = 31` the
32-bit expression `((0 - 1) >> 31) + 1` is 2, not `ceil(0 / 2^31) = 0`, and the
line-table block `1F` followed by eight bytes is decoded with two interval
lines for a prototype without instructions. -/
theorem zero_instructions_read_two_intervals :
    (dec32 0 >>> 31 + 1) % 4294967296 = 2 ∧
    ceilDiv 0 (2 ^ 31) = 0 ∧
    readLineInfo (fun i => [31, 5, 0, 0, 0, 1, 0, 0, 0].getD i 0) 0 {} 0
      = .ok ({ linegaplog2 := 31, sizelineinfo := 8, lineinfo := some [],
               abslineinfo := [5, 6] }, 9) :=
  ⟨by rfl, by rfl, by rfl⟩

/-- **C16 (amended).** For every instruction count `1 ≤ n < 2^32` and every
`g < 32`, the 32-bit unsigned value `((n - 1) >> g) + 1` equals
`ceil(n / 2^g)`, the least `q` with `n ≤ q * 2^g`; and a line-table block that
is decoded for `n ≥ 1` instructions reads exactly that many interval lines,
in the block itself and in every prototype that `deserialize_bytecode`
returns. -/
theorem interval_count_is_ceiling_for_nonempty_code :
    (∀ n g : Nat, 1 ≤ n → n < 4294967296 → g < 32 →
      (dec32 n >>> g + 1) % 4294967296 = ceilDiv n (2 ^ g)) ∧
    (∀ n g q : Nat, ceilDiv n (2 ^ g) ≤ q ↔ n ≤ q * 2 ^ g) ∧
    (∀ (d : Nat → Nat) (sizecode : Nat) (p p' : Proto) (o o' : Nat),
      readLineInfo d sizecode p o = .ok (p', o') → p.code.length = sizecode →
      1 ≤ sizecode → sizecode < 4294967296 →
      p'.abslineinfo.length = ceilDiv sizecode (2 ^ (d o % 256))) ∧
    (∀ (d : Nat → Nat) (protos : List Proto), deserialize_bytecode d = .ok protos →
      ∀ p ∈ protos, p.lineinfo ≠ none → 1 ≤ p.code.length →
        p.abslineinfo.length = ceilDiv p.code.length (2 ^ p.linegaplog2)) := by
  refine ⟨?_, fun n g q => ceilDiv_le_iff n (2 ^ g) q (Nat.two_pow_pos g), ?_, ?_⟩
  · intro n g h1 h2 _
    rw [dec32_pos n h1 h2, ← intervals_eq_ceilDiv n g h1]
    apply Nat.mod_eq_of_lt
    rw [Nat.shiftRight_eq_div_pow]
    have := Nat.div_le_self (n - 1) (2 ^ g)
    omega
  · intro d sizecode p p' o o' h hlen h1 h2
    obtain ⟨_, _, hlen', _⟩ := readLineInfo_abslineinfo d sizecode p p' o o' h hlen h1 h2
    rw [hlen', intervals_eq_ceilDiv sizecode _ h1]
  · intro d protos h
    refine deserialize_bytecode_forall
      (fun p => p.lineinfo ≠ none → 1 ≤ p.code.length →
        p.abslineinfo.length = ceilDiv p.code.length (2 ^ p.linegaplog2)) d ?_ protos h
    intro stringTable o p o' hp hl h1
    obtain ⟨t, o2, p1, p2, hli, hc, hsz, _, ha2, hg2⟩ :=
      readProto_lineinfo d stringTable p o o' hp hl
    obtain ⟨hg, _, hlen', _⟩ := readLineInfo_abslineinfo d _ p1 p2 t o2 hli hc h1 hsz
    rw [← ha2, ← hg2, hg, hlen', intervals_eq_ceilDiv _ _ h1]

/-- Witness for C16: five instructions at granularity 1 need three interval
lines. -/
theorem interval_count_is_ceiling_for_nonempty_code_witness :
    (dec32 5 >>> 1 + 1) % 4294967296 = ceilDiv 5 (2 ^ 1) ∧ ceilDiv 5 (2 ^ 1) = 3 :=
  ⟨interval_count_is_ceiling_for_nonempty_code.1 5 1 (by decide) (by decide) (by decide),
   by rfl⟩

/-! ## C14: the line-table example -/

/-- **C14 (counterexample).** The module with one prototype of four
instructions, granularity 0, raw offset bytes `00 01 01 01` (stored offsets
`[0, 1, 2, 3]`) and the delta sequence `[10, 10, 10, 10]` decodes to the
interval bases `[10, 20, 30, 40]`; `getLineNumberFromPc` gives 21 at `pc = 1`,
not 11. -/
theorem delta_sequence_of_tens_gives_line_21 :
    ∃ p : Proto,
      deserialize_bytecode (memoryOf
        [2, 0, 1, 0, 0, 0, 0, 4, 0, 0, 0, 0, 0, 0, 0, 0, 0, 0, 0, 0, 0, 0, 0, 0, 0, 0, 0, 0,
         1, 0, 0, 1, 1, 1, 10, 0, 0, 0, 10, 0, 0, 0, 10, 0, 0, 0, 10, 0, 0, 0, 0, 0]
        (fun _ => 0)) = .ok [p] ∧
      p.code.length = 4 ∧ p.linegaplog2 = 0 ∧ p.lineinfo = some [0, 1, 2, 3] ∧
      p.abslineinfo = [10, 20, 30, 40] ∧
      getLineNumberFromPc p 1 = .ok 21 ∧ getLineNumberFromPc p 1 ≠ .ok 11 :=
  ⟨{ code := [0, 0, 0, 0], lineinfo := some [0, 1, 2, 3], abslineinfo := [10, 20, 30, 40],
     sizelineinfo := 20 },
   by rfl, by rfl, by rfl, by rfl, by rfl, by rfl,
   fun h => absurd (Except.ok.inj (h : (Except.ok 21 : Except Fault Int) = .ok 11)) (by decide)⟩

/-- **C14 (amended).** For a prototype with four instructions whose line table
is decoded from granularity 0 and stored offsets `[0, 1, 2, 3]`: with the
interval bases `[10, 10, 10, 10]`, that is the delta sequence `[10, 0, 0, 0]`,
`getLineNumberFromPc` returns 10, 11, 12 and 13 for `pc = 0, 1, 2, 3`; with
the delta sequence `[10, 10, 10, 10]` the bases are `[10, 20, 30, 40]` and it
returns 10, 21, 32 and 43. -/
theorem line_table_example :
    readLineInfo (fun i => [0, 0, 1, 1, 1, 10, 0, 0, 0, 0, 0, 0, 0, 0, 0, 0, 0, 0, 0, 0, 0].getD i 0)
        4 { code := [0, 0, 0, 0] } 0
      = .ok ({ code := [0, 0, 0, 0], lineinfo := some [0, 1, 2, 3],
               abslineinfo := [10, 10, 10, 10], sizelineinfo := 20 }, 21) ∧
    [0, 1, 2, 3].map (getLineNumberFromPc
        { code := [0, 0, 0, 0], lineinfo := some [0, 1, 2, 3],
          abslineinfo := [10, 10, 10, 10], sizelineinfo := 20 })
      = [.ok 10, .ok 11, .ok 12, .ok 13] ∧
    readLineInfo (fun i => [0, 0, 1, 1, 1, 10, 0, 0, 0, 10, 0, 0, 0, 10, 0, 0, 0, 10, 0, 0, 0].getD i 0)
        4 { code := [0, 0, 0, 0] } 0
      = .ok ({ code := [0, 0, 0, 0], lineinfo := some [0, 1, 2, 3],
               abslineinfo := [10, 20, 30, 40], sizelineinfo := 20 }, 21) ∧
    [0, 1, 2, 3].map (getLineNumberFromPc
        { code := [0, 0, 0, 0], lineinfo := some [0, 1, 2, 3],
          abslineinfo := [10, 20, 30, 40], sizelineinfo := 20 })
      = [.ok 10, .ok 21, .ok 32, .ok 43] :=
  ⟨by rfl, by rfl, by rfl, by rfl⟩

/-! ## C18: a module with one `NOP` -/

theorem textNop_zero : textNop 0 = .ok "NOP (0000000000)" := by rfl

theorem instructionIndexText_zero (proto : Proto) :
    instructionIndexText proto 0 false = .ok "[000] " := by
  rw [instructionIndexText_plain]
  rfl

theorem getStringForInstruction_nop (fmt_4_3f : Nat → String) (p : Proto)
    (hcode : p.code = [0]) :
    getStringForInstruction fmt_4_3f p 0 false = .ok ("[000] NOP (0000000000)", 0) := by
  unfold getStringForInstruction
  have hw : p.code[0]? = some 0 := by rw [hcode]; rfl
  rw [index_ofNat _ _ _ hw, instructionIndexText_zero]
  simp only [bind, Except.bind]
  rw [instructionText_NOP fmt_4_3f p 0 0 (by rfl), textNop_zero]
  rfl

theorem instructionLines_nop (fmt_4_3f : Nat → String) (p : Proto) (hcode : p.code = [0]) :
    instructionLines fmt_4_3f p false p.code.length 0 = .ok ["[000] NOP (0000000000)\n"] := by
  have hlen : p.code.length = 1 := by rw [hcode]; rfl
  rw [hlen]
  show instructionLines fmt_4_3f p false (0 + 1) 0 = _
  rw [instructionLines, if_pos (by rw [hlen]; decide), getStringForInstruction_nop _ _ hcode]
  simp only [bind, Except.bind, instructionLines, pure, Except.pure]
  rfl

theorem disassembleProtos_nop (fmt_4_3f : Nat → String) (p : Proto) (hcode : p.code = [0])
    (protoId : Nat) :
    disassembleProtos fmt_4_3f false [p] protoId
      = .ok (protoHeader protoId p ++ "[000] NOP (0000000000)\n") := by
  rw [disassembleProtos, instructionLines_nop fmt_4_3f p hcode, disassembleProtos]
  simp only [bind, Except.bind, pure, Except.pure]
  have hj : String.join ["[000] NOP (0000000000)\n"] = "[000] NOP (0000000000)\n" := by rfl
  rw [hj, String.append_empty]

/-- **C18 (counterexample).** The module `02 00 01 | 00 00 00 00 | 01
00000000 | 00 00 00 00 | 00 00 | 00` (one prototype, the single word
`0x00000000`, nothing else) is rendered with the instruction line
`[000] NOP (0000000000)`: the conversion `%#010X` adds no `0X` to a zero, and
never a lower-case `0x`. -/
theorem nop_module_renders_ten_zeros :
    disassemble (fun _ => "")
        (memoryOf [2, 0, 1, 0, 0, 0, 0, 1, 0, 0, 0, 0, 0, 0, 0, 0, 0, 0, 0] (fun _ => 0)) 19 false
      = .ok ("; global id: 0\n; proto name: UNNAMED\n; linedefined: 0\n\n; maxstacksize: 0\n"
          ++ "; numparams: 0\n; nups: 0\n; is_vararg: 00\n\n; sizecode: 1\n; sizek: 0\n"
          ++ "[000] NOP (0000000000)\n") ∧
    "[000] NOP (0000000000)" ≠ "[000] NOP (0x00000000)" :=
  ⟨by rfl, by decide⟩

/-- **C18 (amended).** For a module whose single prototype has the one
instruction word `0x00000000` (NOP), `disassemble` with
`displayLineInfo = false` returns the prototype's header block followed by
exactly one instruction line, whose text is `[000] NOP (0000000000)`. -/
theorem nop_module_renders_header_and_one_line :
    ∀ (fmt_4_3f : Nat → String) (bytecode : Nat → Nat) (bytecode_size : Nat) (p : Proto),
      deserialize_bytecode bytecode = .ok [p] → p.code = [0] →
      disassemble fmt_4_3f bytecode bytecode_size false
        = .ok (protoHeader 0 p ++ "[000] NOP (0000000000)\n") := by
  intro fmt_4_3f bytecode bytecode_size p hd hcode
  unfold disassemble
  rw [hd]
  exact disassembleProtos_nop fmt_4_3f p hcode 0

/-- Witness for C18: the module of nineteen bytes with one `NOP`. -/
theorem nop_module_renders_header_and_one_line_witness :
    disassemble (fun _ => "")
        (memoryOf [2, 0, 1, 0, 0, 0, 0, 1, 0, 0, 0, 0, 0, 0, 0, 0, 0, 0, 0] (fun _ => 0)) 19 false
      = .ok (protoHeader 0 { code := [0] } ++ "[000] NOP (0000000000)\n") :=
  nop_module_renders_header_and_one_line (fun _ => "")
    (memoryOf [2, 0, 1, 0, 0, 0, 0, 1, 0, 0, 0, 0, 0, 0, 0, 0, 0, 0, 0] (fun _ => 0)) 19
    { code := [0] } (by rfl) (by rfl)

/-! ## C19: the index text of a line -/

theorem getLineNumberFromPc_range (p : Proto) (pc line : Int)
    (h : getLineNumberFromPc p pc = .ok line) : -2147483648 ≤ line ∧ line < 2147483648 := by
  unfold getLineNumberFromPc at h
  split at h
  · cases h
    exact ⟨by decide, by decide⟩
  · split at h
    · cases h
    · rcases (bind_eq_ok _ _ _).1 h with ⟨abs, _, h⟩
      rcases (bind_eq_ok _ _ _).1 h with ⟨rel, _, h⟩
      cases h
      exact toInt32_range _

theorem fmt_03i_nat (pc : Nat) (h : pc < 2147483648) :
    fmt_03i pc = zeroPad 3 (toString pc) := by
  unfold fmt_03i
  rw [toInt32_of_range _ (by omega) (by omega)]
  rfl

/-- **C19.** The line rendered for the instruction that starts at word index
`pc` is the index text followed by the instruction text: `[ppp] ` without line
info and `L<line> [ppp] ` with it, where `ppp` is the `%03i` rendering of the
starting index `pc` itself (the decimal of `pc` padded with zeros to three
digits), also when the instruction consumes the word at `pc + 1`, and `<line>`
is the decimal of `getLineNumberFromPc` at that same index. -/
theorem line_prefix_is_starting_index :
    (∀ (fmt_4_3f : Nat → String) (proto : Proto) (pc w : Nat),
      proto.code[pc]? = some w →
      getStringForInstruction fmt_4_3f proto pc false
        = (instructionText fmt_4_3f proto pc w).map
            (fun r => ("[" ++ fmt_03i pc ++ "] " ++ r.1, r.2))) ∧
    (∀ (fmt_4_3f : Nat → String) (proto : Proto) (pc w : Nat) (line : Int),
      proto.code[pc]? = some w → pc < 2147483648 →
      getLineNumberFromPc proto (pc : Int) = .ok line →
      getStringForInstruction fmt_4_3f proto pc true
        = (instructionText fmt_4_3f proto pc w).map
            (fun r => ("L" ++ toString line ++ " [" ++ fmt_03i pc ++ "] " ++ r.1, r.2))) ∧
    (∀ pc : Nat, pc < 2147483648 →
      fmt_03i pc = String.mk (List.replicate (3 - (toString pc).length) '0') ++ toString pc) ∧
    getStringForInstruction (fun _ => "")
        { code := [0, 0, 0, 0, 0, 0, 0, 0x00000035, 0],
          k := [{ value := LuaValueUnion.str "print", type := LUA_TSTRING }] } 7 false
      = .ok ("[007] GETGLOBAL 0 0 ; K(0) = 'print'", 8) ∧
    getStringForInstruction (fun _ => "")
        { code := [0x00000035, 0],
          k := [{ value := LuaValueUnion.str "print", type := LUA_TSTRING }],
          lineinfo := some [3, 3], abslineinfo := [40] } 0 true
      = .ok ("L43 [000] GETGLOBAL 0 0 ; K(0) = 'print'", 1) ∧
    getStringForInstruction (fun _ => "")
        { code := List.replicate 100 0x82 ++ [0] } 100 false
      = .ok ("[100] NOP (0000000000)", 100) := by
  refine ⟨getStringForInstruction_plain, ?_, ?_, by rfl, by rfl, by rfl⟩
  · intro fmt_4_3f proto pc w line hw hpc hl
    have hr := getLineNumberFromPc_range proto pc line hl
    rw [← fmt_i_eq_toString line hr.1 hr.2]
    apply getStringForInstruction_line fmt_4_3f proto pc w line hw
    rw [toInt32_of_range _ (by omega) (by omega)]
    exact hl
  · intro pc hpc
    rw [fmt_03i_nat pc hpc]
    rfl

/-- Witness for C19: `SETGLOBAL` at index 2 of a four-word stream. -/
theorem line_prefix_is_starting_index_witness :
    getStringForInstruction (fun _ => "")
        { code := [0, 0, 0x00000118, 0],
          k := [{ value := LuaValueUnion.str "x", type := LUA_TSTRING }] } 2 false
      = (instructionText (fun _ => "")
          { code := [0, 0, 0x00000118, 0],
            k := [{ value := LuaValueUnion.str "x", type := LUA_TSTRING }] } 2 0x00000118).map
          (fun r => ("[" ++ fmt_03i 2 ++ "] " ++ r.1, r.2)) :=
  line_prefix_is_starting_index.1 (fun _ => "")
    { code := [0, 0, 0x00000118, 0],
      k := [{ value := LuaValueUnion.str "x", type := LUA_TSTRING }] } 2 0x00000118 (by rfl)

/-! ## C20: counts in the `N + 1` convention -/

/-- **C20.** The instruction `RETURN 100 0` (word `0x00006482`) is not
rendered: its text `RETURN 100 0 ; values start at 100, num returned values =
MULTRET` has 65 characters and `formattedInstruction` has 64 bytes, so
`sprintf_s` fails.  With the register 99 the text has 63 characters and is
rendered with the raw count 0 and the annotation `MULTRET`. -/
theorem return_with_three_digit_register_overflows_buffer :
    textReturn 0x00006482 = .error Fault.bufferTooSmall ∧
    ("RETURN 100 0 ; values start at 100, num returned values = MULTRET").length = 65 ∧
    getStringForInstruction (fun _ => "") { code := [0x00006482] } 0 false
      = .error Fault.bufferTooSmall ∧
    disassemble (fun _ => "")
        (memoryOf [2, 0, 1, 0, 0, 0, 0, 1, 0x82, 0x64, 0, 0, 0, 0, 0, 0, 0, 0, 0] (fun _ => 0))
        19 false
      = .error Fault.bufferTooSmall ∧
    textReturn 0x00006382
      = .ok "RETURN 99 0 ; values start at 99, num returned values = MULTRET" ∧
    textReturn 0x00056482
      = .ok "RETURN 100 5 ; values start at 100, num returned values = 4" :=
  ⟨by rfl, by rfl, by rfl, by rfl, by rfl, by rfl⟩

/-! ## C11: the segments of an import constant -/

theorem and_255 (x : Nat) : x &&& 0xff = x % 256 :=
  Nat.and_pow_two_sub_one_eq_mod x 8

theorem LUAU_INSN_OP_eq (w : Nat) : LUAU_INSN_OP w = w % 256 := by
  unfold LUAU_INSN_OP
  exact and_255 w

theorem LUAU_INSN_A_eq (w : Nat) : LUAU_INSN_A w = w / 256 % 256 := by
  unfold LUAU_INSN_A
  rw [and_255, Nat.shiftRight_eq_div_pow]

theorem LUAU_INSN_B_eq (w : Nat) : LUAU_INSN_B w = w / 65536 % 256 := by
  unfold LUAU_INSN_B
  rw [and_255, Nat.shiftRight_eq_div_pow]

theorem LUAU_INSN_C_eq (w : Nat) : LUAU_INSN_C w = w / 16777216 % 256 := by
  unfold LUAU_INSN_C
  rw [and_255, Nat.shiftRight_eq_div_pow]

theorem LUAU_INSN_D_eq (w : Nat) : LUAU_INSN_D w = toInt32 w / 65536 := by
  unfold LUAU_INSN_D
  rw [Int.shiftRight_eq_div_pow]
  rfl

theorem LUAU_INSN_E_eq (w : Nat) : LUAU_INSN_E w = toInt32 w / 256 := by
  unfold LUAU_INSN_E
  rw [Int.shiftRight_eq_div_pow]
  rfl

/-- **C29.** For every 32-bit instruction word `w` the fields OP, A, B and C
lie in `0..255` and `w = OP + 2^8 A + 2^16 B + 2^24 C`; the field D is the
sign-extended upper 16 bits (`-32768 ≤ D ≤ 32767` and
`D mod 2^16 = w div 2^16`) and the field E the sign-extended upper 24 bits
(`-2^23 ≤ E < 2^23` and `E mod 2^24 = w div 2^8`). -/
theorem instruction_fields_decompose (w : Nat) (hw : w < 4294967296) :
    LUAU_INSN_OP w < 256 ∧ LUAU_INSN_A w < 256 ∧ LUAU_INSN_B w < 256 ∧ LUAU_INSN_C w < 256 ∧
    w = LUAU_INSN_OP w + 2 ^ 8 * LUAU_INSN_A w + 2 ^ 16 * LUAU_INSN_B w
          + 2 ^ 24 * LUAU_INSN_C w ∧
    -32768 ≤ LUAU_INSN_D w ∧ LUAU_INSN_D w ≤ 32767 ∧
    LUAU_INSN_D w % 2 ^ 16 = ((w / 2 ^ 16 : Nat) : Int) ∧
    -(2 ^ 23) ≤ LUAU_INSN_E w ∧ LUAU_INSN_E w < 2 ^ 23 ∧
    LUAU_INSN_E w % 2 ^ 24 = ((w / 2 ^ 8 : Nat) : Int) := by
  rw [LUAU_INSN_OP_eq, LUAU_INSN_A_eq, LUAU_INSN_B_eq, LUAU_INSN_C_eq, LUAU_INSN_D_eq,
    LUAU_INSN_E_eq, toInt32_def]
  norm_num
  omega

/-- Witness for C29: the word `0xFFFB0065` (`JUMP -5`). -/
theorem instruction_fields_decompose_witness :
    LUAU_INSN_OP 0xFFFB0065 = 0x65 ∧ LUAU_INSN_D 0xFFFB0065 = -5 ∧
    LUAU_INSN_D 0xFFFB0065 % 2 ^ 16 = ((0xFFFB0065 / 2 ^ 16 : Nat) : Int) :=
  ⟨by rfl, by rfl,
   (instruction_fields_decompose 0xFFFB0065 (by decide)).2.2.2.2.2.2.2.1⟩

/-! ## C28: the index of `GETTABLEN` and `SETTABLEN` -/

theorem fmt_i_natCast (n : Nat) (h : n < 2147483648) : fmt_i (n : Int) = toString n := by
  unfold fmt_i
  rw [toInt32_of_range _ (by omega) (by omega)]
  rfl

theorem toString_length_le (n e : Nat) (he : 0 < e) (h : n < 10 ^ e) :
    (toString n).length ≤ e :=
  Nat.repr_length n e he h

theorem field_lt (x : Nat) : x &&& 0xff < 256 := by
  rw [and_255]; omega

theorem LUAU_INSN_A_lt (w : Nat) : LUAU_INSN_A w < 256 := field_lt _

theorem LUAU_INSN_B_lt (w : Nat) : LUAU_INSN_B w < 256 := field_lt _

theorem LUAU_INSN_C_lt (w : Nat) : LUAU_INSN_C w < 256 := field_lt _

theorem textTableN_eq (name : String) (w : Nat) (hn : name.length ≤ 9) :
    textTableN name w
      = .ok (name ++ " " ++ toString (LUAU_INSN_A w) ++ " " ++ toString (LUAU_INSN_B w)
          ++ " " ++ toString (LUAU_INSN_C w) ++ " ; index = "
          ++ toString (LUAU_INSN_C w + 1)) := by
  unfold textTableN
  dsimp only
  have ha := LUAU_INSN_A_lt w
  have hb := LUAU_INSN_B_lt w
  have hc := LUAU_INSN_C_lt w
  have hc1 : ((LUAU_INSN_C w : Int) + 1) = ((LUAU_INSN_C w + 1 : Nat) : Int) := by push_cast; rfl
  rw [hc1, fmt_i_natCast _ (by omega), fmt_i_natCast _ (by omega), fmt_i_natCast _ (by omega),
    fmt_i_natCast _ (by omega)]
  apply sprintf_s_fits
  have la := toString_length_le (LUAU_INSN_A w) 3 (by decide) (by omega)
  have lb := toString_length_le (LUAU_INSN_B w) 3 (by decide) (by omega)
  have lc := toString_length_le (LUAU_INSN_C w) 3 (by decide) (by omega)
  have lc1 := toString_length_le (LUAU_INSN_C w + 1) 3 (by decide) (by omega)
  simp only [String.length_append]
  have h1 : (" " : String).length = 1 := rfl
  have h2 : (" ; index = " : String).length = 11 := rfl
  omega

/-- **C28.** For every `GETTABLEN` and `SETTABLEN` word with C field `c`, the
line is `<NAME> A B c ; index = <c + 1>` with `c + 1` computed as an `int`, a
value in `1..256`: the field 255 shows the index 256. -/
theorem tablen_index_is_c_plus_one :
    (∀ (fmt_4_3f : Nat → String) (proto : Proto) (pc w : Nat),
      LUAU_INSN_OP w = LOP_GETTABLEN →
      instructionText fmt_4_3f proto pc w
        = .ok ("GETTABLEN" ++ " " ++ toString (LUAU_INSN_A w) ++ " "
            ++ toString (LUAU_INSN_B w) ++ " " ++ toString (LUAU_INSN_C w) ++ " ; index = "
            ++ toString (LUAU_INSN_C w + 1), pc)) ∧
    (∀ (fmt_4_3f : Nat → String) (proto : Proto) (pc w : Nat),
      LUAU_INSN_OP w = LOP_SETTABLEN →
      instructionText fmt_4_3f proto pc w
        = .ok ("SETTABLEN" ++ " " ++ toString (LUAU_INSN_A w) ++ " "
            ++ toString (LUAU_INSN_B w) ++ " " ++ toString (LUAU_INSN_C w) ++ " ; index = "
            ++ toString (LUAU_INSN_C w + 1), pc)) ∧
    (∀ w : Nat, 1 ≤ LUAU_INSN_C w + 1 ∧ LUAU_INSN_C w + 1 ≤ 256) ∧
    getStringForInstruction (fun _ => "") { code := [0xFF020113] } 0 false
      = .ok ("[000] GETTABLEN 1 2 255 ; index = 256", 0) ∧
    getStringForInstruction (fun _ => "") { code := [0xFF0201F6] } 0 false
      = .ok ("[000] SETTABLEN 1 2 255 ; index = 256", 0) := by
  refine ⟨?_, ?_, ?_, by rfl, by rfl⟩
  · intro fmt_4_3f proto pc w h
    rw [instructionText_GETTABLEN _ _ _ _ h, textTableN_eq _ _ (by decide)]
    rfl
  · intro fmt_4_3f proto pc w h
    rw [instructionText_SETTABLEN _ _ _ _ h, textTableN_eq _ _ (by decide)]
    rfl
  · intro w
    have := LUAU_INSN_C_lt w
    omega

/-- Witness for C28: `GETTABLEN 0 0 0`, whose index is 1. -/
theorem tablen_index_is_c_plus_one_witness :
    instructionText (fun _ => "") {} 7 0x00000013
      = .ok ("GETTABLEN" ++ " " ++ toString (LUAU_INSN_A 0x00000013) ++ " "
          ++ toString (LUAU_INSN_B 0x00000013) ++ " " ++ toString (LUAU_INSN_C 0x00000013)
          ++ " ; index = " ++ toString (LUAU_INSN_C 0x00000013 + 1), 7) :=
  tablen_index_is_c_plus_one.1 (fun _ => "") {} 7 0x00000013 (by rfl)

/-! ## C21: the capture kinds -/

/-- **C21 (counterexample).** The word `0x00000312` is `CAPTURE` with the type
field 3: the lookup `CAPTURE_TYPES[3]` lies outside the three-entry table,
which is undefined behaviour. -/
theorem capture_type_three_is_out_of_range :
    LUAU_INSN_OP 0x00000312 = LOP_CAPTURE ∧ LUAU_INSN_A 0x00000312 = 3 ∧
    CAPTURE_TYPES.length = 3 ∧
    textCapture 0x00000312 = .error Fault.undefinedBehaviour ∧
    getStringForInstruction (fun _ => "") { code := [0x00000312] } 0 false
      = .error Fault.undefinedBehaviour :=
  ⟨by rfl, by rfl, by rfl, by rfl, by rfl⟩

theorem textCapture_eq (w : Nat) (kind : String) (hk : CAPTURE_TYPES[LUAU_INSN_A w]? = some kind) :
    textCapture w
      = .ok ("CAPTURE " ++ toString (LUAU_INSN_A w) ++ " " ++ toString (LUAU_INSN_B w)
          ++ " ; " ++ kind ++ " capture") := by
  unfold textCapture
  dsimp only
  rw [index_ofNat _ _ _ hk]
  simp only [bind, Except.bind]
  have hb := LUAU_INSN_B_lt w
  have ha : LUAU_INSN_A w < 3 := by
    by_contra hge
    rw [List.getElem?_eq_none (by simp [CAPTURE_TYPES]; omega)] at hk
    cases hk
  rw [fmt_i_natCast _ (by omega), fmt_i_natCast _ (by omega)]
  apply sprintf_s_fits
  have la := toString_length_le (LUAU_INSN_A w) 1 (by decide) (by omega)
  have lb := toString_length_le (LUAU_INSN_B w) 3 (by decide) (by omega)
  have lk : kind.length ≤ 5 := by
    generalize LUAU_INSN_A w = a at hk ha
    match a, ha, hk with
    | 0, _, hk => cases hk; decide
    | 1, _, hk => cases hk; decide
    | 2, _, hk => cases hk; decide
  simp only [String.length_append]
  have h1 : ("CAPTURE " : String).length = 8 := rfl
  have h2 : (" " : String).length = 1 := rfl
  have h3 : (" ; " : String).length = 3 := rfl
  have h4 : (" capture" : String).length = 8 := rfl
  omega

/-- **C21 (amended).** For every `CAPTURE` word whose type field A is 0, 1 or 2
the line is `CAPTURE A B ; <kind> capture` with `<kind>` the entry `A` of the
three-entry table (`VAL`, `REF`, `UPVAL`).  The table is indexed with the
field A without a check, and for a type field of 3 or more the index lies
outside the table. -/
theorem capture_renders_kind_for_types_below_three :
    (∀ (fmt_4_3f : Nat → String) (proto : Proto) (pc w : Nat),
      LUAU_INSN_OP w = LOP_CAPTURE → LUAU_INSN_A w < 3 →
      ∃ kind, ["VAL", "REF", "UPVAL"][LUAU_INSN_A w]? = some kind ∧
        instructionText fmt_4_3f proto pc w
          = .ok ("CAPTURE " ++ toString (LUAU_INSN_A w) ++ " " ++ toString (LUAU_INSN_B w)
              ++ " ; " ++ kind ++ " capture", pc)) ∧
    (∀ w : Nat, 3 ≤ LUAU_INSN_A w → CAPTURE_TYPES[LUAU_INSN_A w]? = none) ∧
    getStringForInstruction (fun _ => "") { code := [0x00050012] } 0 false
      = .ok ("[000] CAPTURE 0 5 ; VAL capture", 0) ∧
    getStringForInstruction (fun _ => "") { code := [0x00050112] } 0 false
      = .ok ("[000] CAPTURE 1 5 ; REF capture", 0) ∧
    getStringForInstruction (fun _ => "") { code := [0x00050212] } 0 false
      = .ok ("[000] CAPTURE 2 5 ; UPVAL capture", 0) := by
  refine ⟨?_, ?_, by rfl, by rfl, by rfl⟩
  · intro fmt_4_3f proto pc w h ha
    have hlt : LUAU_INSN_A w < CAPTURE_TYPES.length := ha
    refine ⟨CAPTURE_TYPES[LUAU_INSN_A w], List.getElem?_eq_getElem hlt, ?_⟩
    rw [instructionText_CAPTURE _ _ _ _ h, textCapture_eq w _ (List.getElem?_eq_getElem hlt)]
    rfl
  · intro w ha
    exact List.getElem?_eq_none (by simp [CAPTURE_TYPES]; omega)

/-- Witness for C21: the word `0x00070212` (`CAPTURE 2 7`). -/
theorem capture_renders_kind_for_types_below_three_witness :
    ∃ kind, ["VAL", "REF", "UPVAL"][LUAU_INSN_A 0x00070212]? = some kind ∧
      instructionText (fun _ => "") {} 4 0x00070212
        = .ok ("CAPTURE " ++ toString (LUAU_INSN_A 0x00070212) ++ " "
            ++ toString (LUAU_INSN_B 0x00070212) ++ " ; " ++ kind ++ " capture", 4) :=
  capture_renders_kind_for_types_below_three.1 (fun _ => "") {} 4 0x00070212
    (by rfl) (by decide)

/-! ## C27: table and closure constants -/

/-- **C27 (counterexample).** The entries `05 00` (a table without keys) and
`06 05` (the closure 5) both decode to the default constant, whose tag is
`LUA_TNIL`; `getConstantString` reports it as `nil`, and so does `LOADK`. -/
theorem table_and_closure_constants_are_nil :
    readConstant (fun i => [5, 0].getD i 0) [] [] 0 = .ok ([{}], 2) ∧
    readConstant (fun i => [6, 5].getD i 0) [] [] 0 = .ok ([{}], 2) ∧
    ({} : LuaValue).type = LUA_TNIL ∧
    getConstantString (fun _ => "") {} = .ok "nil" ∧
    getStringForInstruction (fun _ => "") { code := [0x0000006F], k := [{}] } 0 false
      = .ok ("[000] LOADK 0 0 ; K(0) = nil", 0) :=
  ⟨by rfl, by rfl, by rfl, by rfl, by rfl⟩

/-- **C27 (amended).** An entry with tag 5 consumes its key count and keys and
an entry with tag 6 its closure id; each appends the default constant, whose
tag is `LUA_TNIL` over the default `import` member (the enumeration `LuaType`
has no table or closure variant), so a later lookup of that constant reports
it as `nil`. -/
theorem table_and_closure_entries_decode_to_default :
    (∀ (d : Nat → Nat) (stringTable : List String) (k : List LuaValue) (o : Nat),
      d o % 256 = 5 →
      readConstant d stringTable k o
        = (readLEB128 d (o + 1) >>= fun r =>
            (readTableKeys d r.1 r.2).map (fun o' => (k ++ [({} : LuaValue)], o')))) ∧
    (∀ (d : Nat → Nat) (stringTable : List String) (k : List LuaValue) (o : Nat),
      d o % 256 = 6 →
      readConstant d stringTable k o
        = (readLEB128 d (o + 1)).map (fun r => (k ++ [({} : LuaValue)], r.2))) ∧
    ({} : LuaValue) = { value := LuaValueUnion.imp { count := 0, displayString := "" },
                        type := LUA_TNIL } ∧
    (∀ fmt_4_3f : Nat → String, getConstantString fmt_4_3f {} = .ok "nil") := by
  refine ⟨?_, ?_, rfl, fun _ => rfl⟩
  · intro d stringTable k o h
    unfold readConstant
    rw [read_one]
    dsimp only
    rw [h]
    dsimp only
    cases h1 : readLEB128 d (o + 1) with
    | error e => rfl
    | ok r =>
      obtain ⟨keys, o1⟩ := r
      simp only [bind, Except.bind]
      cases readTableKeys d keys o1 <;> rfl
  · intro d stringTable k o h
    unfold readConstant
    rw [read_one]
    dsimp only
    rw [h]
    dsimp only
    cases h1 : readLEB128 d (o + 1) <;> rfl

/-- Witness for C27: the table entry `05 02 01 01` with two keys. -/
theorem table_and_closure_entries_decode_to_default_witness :
    readConstant (fun i => [5, 2, 1, 1].getD i 0) [] [] 0 = .ok ([{}], 4) := by
  rw [table_and_closure_entries_decode_to_default.1 (fun i => [5, 2, 1, 1].getD i 0) [] [] 0
    (by rfl)]
  rfl

/-! ## C22: `NEWCLOSURE` and `DUPCLOSURE` -/

/-- **C22 (counterexample).** The line of `DUPCLOSURE 0 0` is the same text
`DUPCLOSURE 0 0` whatever the prototype's child list and whatever closure the
constant 0 was decoded from: the closure entries `06 05` and `06 09` both
leave the default constant, and the line shows no prototype index. -/
theorem dupclosure_line_shows_no_prototype_index :
    LUAU_INSN_OP 0x000000C0 = LOP_DUPCLOSURE ∧
    getStringForInstruction (fun _ => "") { code := [0x000000C0], k := [{}], p := [5] } 0 false
      = .ok ("[000] DUPCLOSURE 0 0", 0) ∧
    getStringForInstruction (fun _ => "") { code := [0x000000C0], k := [{}], p := [9] } 0 false
      = .ok ("[000] DUPCLOSURE 0 0", 0) ∧
    readConstant (fun i => [6, 5].getD i 0) [] [] 0 = .ok ([{}], 2) ∧
    readConstant (fun i => [6, 9].getD i 0) [] [] 0 = .ok ([{}], 2) :=
  ⟨by rfl, by rfl, by rfl, by rfl, by rfl⟩

theorem LUAU_INSN_D_natCast_lt (w d : Nat) (h : LUAU_INSN_D w = (d : Int)) : d < 32768 := by
  have := (LUAU_INSN_D_range w).2
  omega

/-- **C22 (amended).** For every `NEWCLOSURE` whose D field `d` is a valid index
of the prototype's child list, the line is
`NEWCLOSURE A d ; global id = <children[d]>`, the module-level prototype index
(shown in full for an index below 100000).  For every `DUPCLOSURE` with a
non-negative D field the line is `DUPCLOSURE A D`, the raw fields only: D is
not resolved, and the text does not depend on the prototype. -/
theorem closure_lines :
    (∀ (fmt_4_3f : Nat → String) (proto : Proto) (pc w d g : Nat),
      LUAU_INSN_OP w = LOP_NEWCLOSURE → LUAU_INSN_D w = (d : Int) →
      proto.p[d]? = some g → g < 100000 →
      instructionText fmt_4_3f proto pc w
        = .ok ("NEWCLOSURE " ++ toString (LUAU_INSN_A w) ++ " " ++ toString d
            ++ " ; global id = " ++ toString g, pc)) ∧
    (∀ (fmt_4_3f : Nat → String) (proto : Proto) (pc w d : Nat),
      LUAU_INSN_OP w = LOP_DUPCLOSURE → LUAU_INSN_D w = (d : Int) →
      instructionText fmt_4_3f proto pc w
        = .ok ("DUPCLOSURE" ++ " " ++ toString (LUAU_INSN_A w) ++ " " ++ toString d, pc)) ∧
    getStringForInstruction (fun _ => "") { code := [0x000100D9], p := [4, 7] } 0 false
      = .ok ("[000] NEWCLOSURE 0 1 ; global id = 7", 0) := by
  refine ⟨?_, ?_, by rfl⟩
  · intro fmt_4_3f proto pc w d g hop hd hg hlt
    rw [instructionText_NEWCLOSURE _ _ _ _ hop]
    unfold textNewClosure
    dsimp only
    rw [hd, index_ofNat _ _ _ hg]
    simp only [bind, Except.bind]
    have ha := LUAU_INSN_A_lt w
    have hd' := LUAU_INSN_D_natCast_lt w d hd
    rw [fmt_i_natCast _ (by omega), fmt_i_natCast _ (by omega), fmt_i_natCast _ (by omega),
      sprintf_s_fits]
    · rfl
    · have la := toString_length_le (LUAU_INSN_A w) 3 (by decide) (by omega)
      have ld := toString_length_le d 5 (by decide) (by omega)
      have lg := toString_length_le g 5 (by decide) (by omega)
      simp only [String.length_append]
      have h1 : ("NEWCLOSURE " : String).length = 11 := rfl
      have h2 : (" " : String).length = 1 := rfl
      have h3 : (" ; global id = " : String).length = 15 := rfl
      omega
  · intro fmt_4_3f proto pc w d hop hd
    rw [instructionText_DUPCLOSURE _ _ _ _ hop]
    unfold textAD
    have ha := LUAU_INSN_A_lt w
    have hd' := LUAU_INSN_D_natCast_lt w d hd
    rw [hd, fmt_i_natCast _ (by omega), fmt_i_natCast _ (by omega), sprintf_s_fits]
    · rfl
    · have la := toString_length_le (LUAU_INSN_A w) 3 (by decide) (by omega)
      have ld := toString_length_le d 5 (by decide) (by omega)
      simp only [String.length_append]
      have h1 : ("DUPCLOSURE" : String).length = 10 := rfl
      have h2 : (" " : String).length = 1 := rfl
      omega

/-- Witness for C22: `NEWCLOSURE 2 0` over the child list `[3]`. -/
theorem closure_lines_witness :
    instructionText (fun _ => "") { p := [3] } 0 0x000002D9
      = .ok ("NEWCLOSURE " ++ toString (LUAU_INSN_A 0x000002D9) ++ " " ++ toString 0
          ++ " ; global id = " ++ toString 3, 0) :=
  closure_lines.1 (fun _ => "") { p := [3] } 0 0x000002D9 0 3 (by rfl) (by rfl) (by rfl)
    (by decide)

/-! ## C30: the targets of the jumps with an auxiliary word -/

/-- **C30 (failing input).** `JUMPIFNOTEQ 255 255 10000` displays no target, at
index 10 and as the first instruction of a decoded module: the text
`JUMPIFNOTEQ 255 255 10000 ; to 10011` has 36 characters and the case declares
36 bytes, the size of the `JUMPIFEQ` case, whose text for the same fields
fits and displays `(pc + 1) + D`.  Where a text is produced, `JUMPIFEQK` and
`JUMPIFNOTEQK` display `pc + D` and the register-compare jumps display
`(pc + 1) + D`: at index 10 with `D = 5` the targets are 15 and 16. -/
theorem register_jump_text_overflows_its_buffer :
    LOP_JUMPIFNOTEQ ∈ registerJumpOpcodes ∧ LOP_JUMPIFEQK ∈ constantJumpOpcodes ∧
    LUAU_INSN_OP 0x2710FF9A = LOP_JUMPIFNOTEQ ∧ LUAU_INSN_A 0x2710FF9A = 255 ∧
    LUAU_INSN_D 0x2710FF9A = 10000 ∧
    getStringForInstruction (fun _ => "")
        { code := List.replicate 10 0 ++ [0x2710FF9A, 255] } 10 false
      = .error Fault.bufferTooSmall ∧
    ("JUMPIFNOTEQ 255 255 10000 ; to 10011").length = 36 ∧
    deserialize_bytecode
        (memoryOf [2, 0, 1, 0, 0, 0, 0, 2, 0x9A, 0xFF, 0x10, 0x27, 0xFF, 0, 0, 0, 0, 0, 0, 0,
          0, 0, 0] (fun _ => 0))
      = .ok [{ code := [0x2710FF9A, 255] }] ∧
    disassemble (fun _ => "")
        (memoryOf [2, 0, 1, 0, 0, 0, 0, 2, 0x9A, 0xFF, 0x10, 0x27, 0xFF, 0, 0, 0, 0, 0, 0, 0,
          0, 0, 0] (fun _ => 0)) 23 false
      = .error Fault.bufferTooSmall ∧
    LUAU_INSN_OP 0x2710FFF1 = LOP_JUMPIFEQ ∧
    getStringForInstruction (fun _ => "")
        { code := List.replicate 10 0 ++ [0x2710FFF1, 255] } 10 false
      = .ok ("[010] JUMPIFEQ 255 255 10000 ; to 10011", 11) ∧
    getStringForInstruction (fun _ => "")
        { code := List.replicate 10 0 ++ [0x000500F5, 0], k := [{}] } 10 false
      = .ok ("[010] JUMPIFEQK 0 0 5 ; K(0) = nil, to 15", 11) ∧
    getStringForInstruction (fun _ => "")
        { code := List.replicate 10 0 ++ [0x000500D8, 0], k := [{}] } 10 false
      = .ok ("[010] JUMPIFNOTEQK 0 0 5 ; K(0) = nil, to 15", 11) ∧
    getStringForInstruction (fun _ => "")
        { code := List.replicate 10 0 ++ [0x000500F1, 0], k := [{}] } 10 false
      = .ok ("[010] JUMPIFEQ 0 0 5 ; to 16", 11) ∧
    getStringForInstruction (fun _ => "")
        { code := List.replicate 10 0 ++ [0x0005007D, 0], k := [{}] } 10 false
      = .ok ("[010] JUMPIFNOTLE 0 0 5 ; to 16", 11) :=
  ⟨by decide, by decide, by rfl, by rfl, by rfl, by rfl, by rfl, by rfl, by rfl, by rfl,
   by rfl, by rfl, by rfl, by rfl, by rfl⟩


/-! ## C25: `LOADK` -/

set_option maxRecDepth 100000 in
theorem loadk_long_string_eval :
    getStringForInstruction (fun _ => "")
        { code := [0x0000006F],
          k := [{ value := LuaValueUnion.str (String.mk (List.replicate 250 'a')),
                  type := LUA_TSTRING }] } 0 false
      = .error Fault.bufferTooSmall := by
  rfl

/-- **C25 (counterexample).** `LOADK 0 0` over a String constant of 250
characters renders nothing: the line needs 270 characters and
`formattedInstruction` has 255 bytes.  Over the String constant `a`, NUL, `b`
the line stops at the NUL byte: `LOADK 0 0 ; K(0) = 'a`. -/
theorem loadk_long_or_nul_string_is_not_quoted :
    LUAU_INSN_OP 0x0000006F = LOP_LOADK ∧
    getStringForInstruction (fun _ => "")
        { code := [0x0000006F],
          k := [{ value := LuaValueUnion.str (String.mk (List.replicate 250 'a')),
                  type := LUA_TSTRING }] } 0 false
      = .error Fault.bufferTooSmall ∧
    getStringForInstruction (fun _ => "")
        { code := [0x0000006F],
          k := [{ value := LuaValueUnion.str (String.mk ['a', Char.ofNat 0, 'b']),
                  type := LUA_TSTRING }] } 0 false
      = .ok ("[000] LOADK 0 0 ; K(0) = 'a", 0) :=
  ⟨by rfl, loadk_long_string_eval, by rfl⟩

theorem c_str_of_no_nul (s : String) (h : ∀ c ∈ s.data, c ≠ Char.ofNat 0) : c_str s = s := by
  unfold c_str
  have : s.data.takeWhile (fun c => c != Char.ofNat 0) = s.data := by
    rw [List.takeWhile_eq_self_iff]
    intro c hc
    simp only [bne_iff_ne, ne_eq]
    exact h c hc
  rw [this]

theorem textLoadK_eq (fmt_4_3f : Nat → String) (k : List LuaValue) (w d : Nat) (v : LuaValue)
    (cs : String) (hd : LUAU_INSN_D w = (d : Int)) (hv : k[d]? = some v)
    (hcs : getConstantString fmt_4_3f v = .ok cs) (hnul : ∀ c ∈ cs.data, c ≠ Char.ofNat 0)
    (hlen : cs.length ≤ 225) :
    textLoadK fmt_4_3f k w
      = .ok ("LOADK " ++ toString (LUAU_INSN_A w) ++ " " ++ toString d ++ " ; K("
          ++ toString d ++ ") = " ++ cs) := by
  unfold textLoadK
  dsimp only
  rw [hd, index_ofNat _ _ _ hv]
  simp only [bind, Except.bind, hcs]
  have ha := LUAU_INSN_A_lt w
  have hd' := LUAU_INSN_D_natCast_lt w d hd
  rw [fmt_i_natCast _ (by omega), fmt_i_natCast _ (by omega), c_str_of_no_nul cs hnul]
  apply sprintf_s_fits
  have la := toString_length_le (LUAU_INSN_A w) 3 (by decide) (by omega)
  have ld := toString_length_le d 5 (by decide) (by omega)
  simp only [String.length_append]
  have h1 : ("LOADK " : String).length = 6 := rfl
  have h2 : (" " : String).length = 1 := rfl
  have h3 : (" ; K(" : String).length = 5 := rfl
  have h4 : (") = " : String).length = 4 := rfl
  omega

/-- **C25 (amended).** For every `LOADK` whose D field `d` indexes a constant of
the prototype, the line is `LOADK A d ; K(d) = <text>` where `<text>` is `nil`
for a Nil constant, `true` or `false` for a Boolean constant, and, for a
String constant of at most 223 characters without a NUL byte, the string's
text between single quotes. -/
theorem loadk_line :
    (∀ (fmt_4_3f : Nat → String) (proto : Proto) (pc w d : Nat) (v : LuaValue),
      LUAU_INSN_OP w = LOP_LOADK → LUAU_INSN_D w = (d : Int) → proto.k[d]? = some v →
      v.type = LUA_TNIL →
      instructionText fmt_4_3f proto pc w
        = .ok ("LOADK " ++ toString (LUAU_INSN_A w) ++ " " ++ toString d ++ " ; K("
            ++ toString d ++ ") = " ++ "nil", pc)) ∧
    (∀ (fmt_4_3f : Nat → String) (proto : Proto) (pc w d : Nat) (b : Bool),
      LUAU_INSN_OP w = LOP_LOADK → LUAU_INSN_D w = (d : Int) →
      proto.k[d]? = some { value := LuaValueUnion.boolean b, type := LUA_TBOOLEAN } →
      instructionText fmt_4_3f proto pc w
        = .ok ("LOADK " ++ toString (LUAU_INSN_A w) ++ " " ++ toString d ++ " ; K("
            ++ toString d ++ ") = " ++ (if b then "true" else "false"), pc)) ∧
    (∀ (fmt_4_3f : Nat → String) (proto : Proto) (pc w d : Nat) (s : String),
      LUAU_INSN_OP w = LOP_LOADK → LUAU_INSN_D w = (d : Int) →
      proto.k[d]? = some { value := LuaValueUnion.str s, type := LUA_TSTRING } →
      (∀ c ∈ s.data, c ≠ Char.ofNat 0) → s.length ≤ 223 →
      instructionText fmt_4_3f proto pc w
        = .ok ("LOADK " ++ toString (LUAU_INSN_A w) ++ " " ++ toString d ++ " ; K("
            ++ toString d ++ ") = " ++ ("'" ++ s ++ "'"), pc)) := by
  refine ⟨?_, ?_, ?_⟩
  · intro fmt_4_3f proto pc w d v hop hd hv hty
    rw [instructionText_LOADK _ _ _ _ hop,
      textLoadK_eq fmt_4_3f proto.k w d v "nil" hd hv (by simp [getConstantString, hty])
        (by decide) (by decide)]
    rfl
  · intro fmt_4_3f proto pc w d b hop hd hv
    rw [instructionText_LOADK _ _ _ _ hop,
      textLoadK_eq fmt_4_3f proto.k w d _ (if b then "true" else "false") hd hv
        (by cases b <;> rfl) (by cases b <;> decide) (by cases b <;> decide)]
    rfl
  · intro fmt_4_3f proto pc w d s hop hd hv hnul hlen
    rw [instructionText_LOADK _ _ _ _ hop,
      textLoadK_eq fmt_4_3f proto.k w d _ ("'" ++ s ++ "'") hd hv (by rfl) ?_ ?_]
    · rfl
    · intro c hc
      simp only [String.data_append, List.mem_append] at hc
      rcases hc with (hc | hc) | hc
      · have : c = Char.ofNat 39 := by simpa using hc
        rw [this]; decide
      · exact hnul c hc
      · have : c = Char.ofNat 39 := by simpa using hc
        rw [this]; decide
    · simp only [String.length_append]
      have h1 : ("'" : String).length = 1 := rfl
      omega

/-- Witness for C25: `LOADK 1 0` over the String constant `print`. -/
theorem loadk_line_witness :
    instructionText (fun _ => "")
        { k := [{ value := LuaValueUnion.str "print", type := LUA_TSTRING }] } 0 0x0000016F
      = .ok ("LOADK " ++ toString (LUAU_INSN_A 0x0000016F) ++ " " ++ toString 0 ++ " ; K("
          ++ toString 0 ++ ") = " ++ ("'" ++ "print" ++ "'"), 0) :=
  loadk_line.2.2 (fun _ => "")
    { k := [{ value := LuaValueUnion.str "print", type := LUA_TSTRING }] } 0 0x0000016F 0
    "print" (by rfl) (by rfl) (by rfl) (by decide) (by decide)

/-! ## The fields of a decoded prototype -/

theorem readCode_eq (d : Nat → Nat) :
    ∀ (n o : Nat) (acc : List Nat),
      (readCode d n o acc).1 = acc ++ (List.range n).map (fun i => leValue d (o + 4 * i) 4) := by
  intro n
  induction n with
  | zero => intro o acc; simp [readCode]
  | succ n ih =>
    intro o acc
    rw [readCode]
    dsimp only [read]
    rw [ih, List.range_succ_eq_map, List.map_cons, List.map_map, List.append_assoc]
    congr 1
    simp only [List.singleton_append]
    congr 1
    apply List.map_congr_left
    intro i _
    simp only [Function.comp, Nat.succ_eq_add_one]
    congr 1
    omega

theorem leValue_four (d : Nat → Nat) (o : Nat) :
    leValue d o 4
      = d o % 256 + 2 ^ 8 * (d (o + 1) % 256) + 2 ^ 16 * (d (o + 2) % 256)
          + 2 ^ 24 * (d (o + 3) % 256) := by
  have e2 : o + 1 + 1 = o + 2 := rfl
  have e3 : o + 2 + 1 = o + 3 := rfl
  simp only [leValue, e2, e3]
  omega

theorem readDebugName_zero (stringTable : List String) (p : Proto) :
    readDebugName stringTable p 0 = .ok p := by
  rfl

theorem readDebugName_pos (stringTable : List String) (p : Proto) (i : Nat) (h1 : 1 ≤ i)
    (h2 : i ≤ stringTable.length) (h3 : i < 4294967296) :
    ∃ s, stringTable[i - 1]? = some s ∧
      readDebugName stringTable p i = .ok { p with debugname := s } := by
  have hi : i - 1 < stringTable.length := by omega
  refine ⟨stringTable[i - 1], List.getElem?_eq_getElem hi, ?_⟩
  unfold readDebugName
  rw [if_pos (by omega), dec32_pos i h1 h3,
    index_ofNat stringTable (i - 1) _ (List.getElem?_eq_getElem hi)]
  rfl

theorem readLineInfoFlag_fields (d : Nat → Nat) (sizecode : Nat) (p p' : Proto) (o o' : Nat)
    (h : readLineInfoFlag d sizecode p o = .ok (p', o')) :
    p' = { p with linegaplog2 := p'.linegaplog2, sizelineinfo := p'.sizelineinfo,
                  lineinfo := p'.lineinfo, abslineinfo := p'.abslineinfo } := by
  rcases readLineInfoFlag_inv d sizecode p p' o o' h with ⟨_, he⟩ | ⟨_, hli⟩
  · rw [he]
  · obtain ⟨_, _, _, hp'⟩ := readLineInfo_ok_inv d sizecode p p' (o + 1) o' hli
    rw [hp']

theorem readProto_fields (d : Nat → Nat) (stringTable : List String) (p : Proto)
    (o o' : Nat) (h : readProto d stringTable o = .ok (p, o')) :
    ∃ (sizecode codeStart debugnameId next : Nat) (p0 p1 : Proto),
      ProtoFieldsAt d stringTable o sizecode codeStart debugnameId next ∧
      sizecode < 4294967296 ∧ debugnameId < 4294967296 ∧
      p.code = (readCode d sizecode codeStart []).1 ∧
      p0.debugname = "UNNAMED" ∧ readDebugName stringTable p0 debugnameId = .ok p1 ∧
      p.debugname = p1.debugname ∧
      p.maxstacksize = d o % 256 ∧ p.numparams = d (o + 1) % 256 ∧
      p.nups = d (o + 2) % 256 ∧ p.is_vararg = d (o + 3) % 256 := by
  unfold readProto at h
  rw [read_one] at h
  dsimp only at h
  rw [read_one] at h
  dsimp only at h
  rw [read_one] at h
  dsimp only at h
  rw [read_one] at h
  dsimp only at h
  rcases (bind_eq_ok _ _ _).1 h with ⟨⟨sizecode, o5⟩, h5, h⟩
  dsimp only at h
  rcases (bind_eq_ok _ _ _).1 h with ⟨⟨sizek, o6⟩, h6, h⟩
  dsimp only at h
  rcases (bind_eq_ok _ _ _).1 h with ⟨⟨k, o7⟩, h7, h⟩
  dsimp only at h
  rcases (bind_eq_ok _ _ _).1 h with ⟨⟨sizep, o8⟩, h8, h⟩
  dsimp only at h
  rcases (bind_eq_ok _ _ _).1 h with ⟨⟨children, o9⟩, h9, h⟩
  dsimp only at h
  rcases (bind_eq_ok _ _ _).1 h with ⟨⟨linedefined, o10⟩, h10, h⟩
  dsimp only at h
  rcases (bind_eq_ok _ _ _).1 h with ⟨⟨debugname_id, o11⟩, h11, h⟩
  dsimp only at h
  rcases (bind_eq_ok _ _ _).1 h with ⟨p1, h12, h⟩
  rcases (bind_eq_ok _ _ _).1 h with ⟨⟨p2, o13⟩, h13, h⟩
  dsimp only at h
  have hf1 := readDebugName_fields _ _ _ _ h12
  have hf2 := readLineInfoFlag_fields _ _ _ _ _ _ h13
  have hf3 := readDebugInfo_fields _ _ _ _ _ h
  rw [readCode_offset] at h6
  refine ⟨sizecode, o5, debugname_id, o11, _, p1,
    ⟨sizek, o6, o7, sizep, o8, o9, linedefined, o10, k, children, h5, h6, h7, h8, h9, h10, h11⟩,
    readLEB128_lt d _ _ _ h5, readLEB128_lt d _ _ _ h11, ?_, rfl, h12, ?_, ?_, ?_, ?_, ?_⟩
  all_goals
    rw [hf3]
    dsimp only
    rw [hf2]
    try (dsimp only; try rw [hf1])

theorem deserialize_bytecode_inv (d : Nat → Nat) (protos : List Proto)
    (h : deserialize_bytecode d = .ok protos) :
    ∃ (stringCount o1 o2 : Nat) (pool : List String),
      d 0 % 256 = 2 ∧ readLEB128 d 1 = .ok (stringCount, o1) ∧
      readStringTable d stringCount o1 [] = .ok (pool, o2) ∧
      ∀ p ∈ protos, ∃ o o', readProto d pool o = .ok (p, o') := by
  unfold deserialize_bytecode at h
  cases hd : deserialize_bytecode_at d with
  | error e => rw [hd] at h; cases h
  | ok r =>
    obtain ⟨r, off⟩ := r
    rw [hd] at h
    cases h
    unfold deserialize_bytecode_at at hd
    dsimp only at hd
    rw [read_one] at hd
    dsimp only at hd
    split at hd
    · cases hd
    · rename_i hv
      rcases (bind_eq_ok _ _ _).1 hd with ⟨⟨stringCount, o1⟩, h1, hd⟩
      dsimp only at hd
      rcases (bind_eq_ok _ _ _).1 hd with ⟨⟨stringTable, o2⟩, h2, hd⟩
      dsimp only at hd
      rcases (bind_eq_ok _ _ _).1 hd with ⟨⟨protoCount, o3⟩, h3, hd⟩
      dsimp only at hd
      rcases (bind_eq_ok _ _ _).1 hd with ⟨⟨protoTable, o4⟩, h4, hd⟩
      dsimp only at hd
      rcases (bind_eq_ok _ _ _).1 hd with ⟨⟨mainid, o5⟩, h5, hd⟩
      cases hd
      refine ⟨stringCount, o1, o2, stringTable, by omega, h1, h2, ?_⟩
      exact readProtos_forall (fun p => ∃ o o', readProto d stringTable o = .ok (p, o')) d
        stringTable (fun o p o' hp => ⟨o, o', hp⟩) _ _ _ _ _ h4
        (fun p hp => absurd hp (List.not_mem_nil p))

/-! ## C24: the instruction words -/

theorem readCode_words (d : Nat → Nat) (n o : Nat) :
    (readCode d n o []).1.length = n ∧
    ∀ i, i < n →
      (readCode d n o []).1[i]?
        = some (d (o + 4 * i) % 256 + 2 ^ 8 * (d (o + 4 * i + 1) % 256)
            + 2 ^ 16 * (d (o + 4 * i + 2) % 256) + 2 ^ 24 * (d (o + 4 * i + 3) % 256)) := by
  rw [readCode_eq]
  refine ⟨by simp, fun i hi => ?_⟩
  simp [hi, leValue_four]

/-- **C24.** The instruction sequence of a decoded prototype has exactly as many
words as the encoded instruction count `n`, and word `i` is the little-endian
32-bit value of the `i`-th group of four bytes after the count; nothing is
dropped, merged or reordered.  This holds of the code loop and of every
prototype that `deserialize_bytecode` returns. -/
theorem code_words_are_little_endian_groups :
    (∀ (d : Nat → Nat) (n o : Nat),
      (readCode d n o []).1.length = n ∧
      ∀ i, i < n →
        (readCode d n o []).1[i]?
          = some (d (o + 4 * i) % 256 + 2 ^ 8 * (d (o + 4 * i + 1) % 256)
              + 2 ^ 16 * (d (o + 4 * i + 2) % 256)
              + 2 ^ 24 * (d (o + 4 * i + 3) % 256))) ∧
    (∀ (d : Nat → Nat) (protos : List Proto), deserialize_bytecode d = .ok protos →
      ∃ pool : List String, ∀ p ∈ protos,
        ∃ o n codeStart debugnameId next,
          ProtoFieldsAt d pool o n codeStart debugnameId next ∧
          p.code.length = n ∧
          ∀ i, i < n →
            p.code[i]?
              = some (d (codeStart + 4 * i) % 256
                  + 2 ^ 8 * (d (codeStart + 4 * i + 1) % 256)
                  + 2 ^ 16 * (d (codeStart + 4 * i + 2) % 256)
                  + 2 ^ 24 * (d (codeStart + 4 * i + 3) % 256))) := by
  refine ⟨readCode_words, ?_⟩
  intro d protos h
  obtain ⟨stringCount, o1, o2, pool, _, _, _, hall⟩ := deserialize_bytecode_inv d protos h
  refine ⟨pool, fun p hp => ?_⟩
  obtain ⟨o, o', hproto⟩ := hall p hp
  obtain ⟨n, codeStart, id, next, p0, p1, hlay, _, _, hcode, _⟩ :=
    readProto_fields d pool p o o' hproto
  refine ⟨o, n, codeStart, id, next, hlay, ?_, ?_⟩
  · rw [hcode]; exact (readCode_words d n codeStart).1
  · rw [hcode]; exact (readCode_words d n codeStart).2

/-- Witness for C24: the module of nineteen bytes with the one word
`0x04030201`. -/
theorem code_words_are_little_endian_groups_witness :
    ∃ pool : List String, ∀ p ∈ [({ code := [0x04030201] } : Proto)],
      ∃ o n codeStart debugnameId next,
        ProtoFieldsAt
          (memoryOf [2, 0, 1, 0, 0, 0, 0, 1, 1, 2, 3, 4, 0, 0, 0, 0, 0, 0, 0] (fun _ => 0))
          pool o n codeStart debugnameId next ∧
        p.code.length = n ∧
        ∀ i, i < n →
          p.code[i]?
            = some (memoryOf [2, 0, 1, 0, 0, 0, 0, 1, 1, 2, 3, 4, 0, 0, 0, 0, 0, 0, 0]
                      (fun _ => 0) (codeStart + 4 * i) % 256
                + 2 ^ 8 * (memoryOf [2, 0, 1, 0, 0, 0, 0, 1, 1, 2, 3, 4, 0, 0, 0, 0, 0, 0, 0]
                      (fun _ => 0) (codeStart + 4 * i + 1) % 256)
                + 2 ^ 16 * (memoryOf [2, 0, 1, 0, 0, 0, 0, 1, 1, 2, 3, 4, 0, 0, 0, 0, 0, 0, 0]
                      (fun _ => 0) (codeStart + 4 * i + 2) % 256)
                + 2 ^ 24 * (memoryOf [2, 0, 1, 0, 0, 0, 0, 1, 1, 2, 3, 4, 0, 0, 0, 0, 0, 0, 0]
                      (fun _ => 0) (codeStart + 4 * i + 3) % 256)) :=
  code_words_are_little_endian_groups.2
    (memoryOf [2, 0, 1, 0, 0, 0, 0, 1, 1, 2, 3, 4, 0, 0, 0, 0, 0, 0, 0] (fun _ => 0))
    [{ code := [0x04030201] }] (by rfl)

/-! ## C26: the debug name -/

/-- **C26.** A decoded prototype keeps the default debug name `UNNAMED` when the
encoded debug-name index is 0, and its debug name is entry `i - 1` of the
string pool when the encoded index `i` satisfies `1 ≤ i ≤` pool size.  This
holds of the statement that sets the name and of every prototype that
`deserialize_bytecode` returns, the index being the one stored in the
prototype's layout and the pool the string table of the module. -/
theorem debug_name_is_default_or_pool_entry :
    ({} : Proto).debugname = "UNNAMED" ∧
    (∀ (stringTable : List String) (p : Proto), readDebugName stringTable p 0 = .ok p) ∧
    (∀ (stringTable : List String) (p : Proto) (i : Nat),
      1 ≤ i → i ≤ stringTable.length → i < 4294967296 →
      ∃ s, stringTable[i - 1]? = some s ∧
        readDebugName stringTable p i = .ok { p with debugname := s }) ∧
    (∀ (d : Nat → Nat) (protos : List Proto), deserialize_bytecode d = .ok protos →
      ∃ (stringCount o1 o2 : Nat) (pool : List String),
        readLEB128 d 1 = .ok (stringCount, o1) ∧
        readStringTable d stringCount o1 [] = .ok (pool, o2) ∧
        ∀ p ∈ protos, ∃ o n codeStart i next,
          ProtoFieldsAt d pool o n codeStart i next ∧
          (i = 0 → p.debugname = "UNNAMED") ∧
          (1 ≤ i → i ≤ pool.length → pool[i - 1]? = some p.debugname)) := by
  refine ⟨rfl, readDebugName_zero, readDebugName_pos, ?_⟩
  intro d protos h
  obtain ⟨stringCount, o1, o2, pool, _, h1, h2, hall⟩ := deserialize_bytecode_inv d protos h
  refine ⟨stringCount, o1, o2, pool, h1, h2, fun p hp => ?_⟩
  obtain ⟨o, o', hproto⟩ := hall p hp
  obtain ⟨n, codeStart, id, next, p0, p1, hlay, _, hid, _, hdef, hname, hpn, _⟩ :=
    readProto_fields d pool p o o' hproto
  refine ⟨o, n, codeStart, id, next, hlay, ?_, ?_⟩
  · intro h0
    rw [h0, readDebugName_zero] at hname
    cases hname
    rw [hpn, hdef]
  · intro hge hle
    obtain ⟨s, hs, hr⟩ := readDebugName_pos pool p0 id hge hle hid
    rw [hr] at hname
    cases hname
    rw [hpn]
    exact hs

/-- Witness for C26: the debug-name index 2 over the pool `["main", "f"]`. -/
theorem debug_name_is_default_or_pool_entry_witness :
    ∃ s, ["main", "f"][2 - 1]? = some s ∧
      readDebugName ["main", "f"] {} 2 = .ok { ({} : Proto) with debugname := s } :=
  debug_name_is_default_or_pool_entry.2.2.1 ["main", "f"] {} 2 (by decide) (by decide)
    (by decide)

/-! ## C23: the header of a prototype -/

set_option maxRecDepth 100000 in
theorem fmt_0_2X_byte :
    ∀ v, v < 256 → fmt_0_2X v = String.mk [hexDigitUpper (v / 16), hexDigitUpper (v % 16)] := by
  decide

theorem protoHeader_eq (i : Nat) (p : Proto) :
    protoHeader i p
      = "; global id: " ++ toString i ++ "\n" ++
        "; proto name: " ++ p.debugname ++ "\n" ++
        "; linedefined: " ++ toString p.linedefined ++ "\n" ++
        "\n" ++
        "; maxstacksize: " ++ toString p.maxstacksize ++ "\n" ++
        "; numparams: " ++ toString p.numparams ++ "\n" ++
        "; nups: " ++ toString p.nups ++ "\n" ++
        "; is_vararg: " ++ fmt_0_2X p.is_vararg ++ "\n" ++
        (if p.p = [] then ""
         else "\n; child protos: " ++ ", ".intercalate (p.p.map toString) ++ "\n") ++ "\n" ++
        "; sizecode: " ++ toString p.code.length ++ "\n" ++
        "; sizek: " ++ toString p.k.length ++ "\n" := by
  unfold protoHeader
  by_cases hp : p.p = []
  · rw [if_pos hp, if_neg (by rw [hp]; decide)]
    rfl
  · rw [if_neg hp, if_pos (List.length_pos.2 hp)]
    rfl

theorem disassembleProtos_cons (fmt_4_3f : Nat → String) (displayLineInfo : Bool)
    (p : Proto) (rest : List Proto) (i : Nat) :
    disassembleProtos fmt_4_3f displayLineInfo (p :: rest) i
      = (instructionLines fmt_4_3f p displayLineInfo p.code.length 0 >>= fun lines =>
          disassembleProtos fmt_4_3f displayLineInfo rest (i + 1) >>= fun tail =>
            Except.ok (protoHeader i p ++ String.join lines ++ tail)) := by
  rw [disassembleProtos]
  rfl

theorem disassembleProtos_iff (fmt_4_3f : Nat → String) (displayLineInfo : Bool) :
    ∀ (protos : List Proto) (i : Nat) (out : String),
      disassembleProtos fmt_4_3f displayLineInfo protos i = .ok out ↔
      ∃ bodies : List String,
        List.Forall₂
          (fun p body =>
            (instructionLines fmt_4_3f p displayLineInfo p.code.length 0).map String.join
              = .ok body) protos bodies ∧
        out = sectionsText i (protos.zip bodies) := by
  intro protos
  induction protos with
  | nil =>
    intro i out
    rw [disassembleProtos]
    constructor
    · intro h
      refine ⟨[], List.Forall₂.nil, ?_⟩
      simp only [Except.ok.injEq] at h
      rw [← h]
      simp only [List.zip, List.zipWith, sectionsText]
    · rintro ⟨bodies, hf, hout⟩
      cases hf
      rw [hout]
      simp only [List.zip, List.zipWith, sectionsText]
  | cons p rest ih =>
    intro i out
    rw [disassembleProtos_cons]
    constructor
    · intro h
      rcases (bind_eq_ok _ _ _).1 h with ⟨lines, hl, h⟩
      rcases (bind_eq_ok _ _ _).1 h with ⟨tail, ht, h⟩
      simp only [Except.ok.injEq] at h
      obtain ⟨bodies, hf, htail⟩ := (ih (i + 1) tail).1 ht
      refine ⟨String.join lines :: bodies, List.Forall₂.cons ?_ hf, ?_⟩
      · rw [hl]
        simp only [Except.map]
      · rw [← h, htail]
        simp only [List.zip, List.zipWith, sectionsText]
    · rintro ⟨bodies, hf, hout⟩
      match bodies, hf with
      | body :: bodies', List.Forall₂.cons hb hrest =>
        dsimp only at hb
        cases hl : instructionLines fmt_4_3f p displayLineInfo p.code.length 0 with
        | error e =>
          rw [hl] at hb
          simp only [Except.map] at hb
          cases hb
        | ok lines =>
          rw [hl] at hb
          simp only [Except.map, Except.ok.injEq] at hb
          have ht := (ih (i + 1) (sectionsText (i + 1) (rest.zip bodies'))).2
            ⟨bodies', hrest, rfl⟩
          simp only [bind, Except.bind]
          rw [ht, hout, hb]
          simp only [List.zip, List.zipWith, sectionsText]

theorem readProto_is_vararg_lt (d : Nat → Nat) (stringTable : List String) (p : Proto)
    (o o' : Nat) (h : readProto d stringTable o = .ok (p, o')) : p.is_vararg < 256 := by
  obtain ⟨sizecode, codeStart, id, next, p0, p1, _, _, _, _, _, _, _, _, _, _, hv⟩ :=
    readProto_fields d stringTable p o o' h
  rw [hv]
  omega

set_option maxRecDepth 100000 in
theorem two_prototype_module_eval :
    disassemble (fun _ => "")
        (memoryOf [2, 0, 2,
                   1, 2, 3, 1, 1, 0, 0, 0, 0, 0, 2, 1, 0, 7, 0, 0, 0,
                   0, 0, 0, 0, 0, 0, 0, 0, 0, 0, 0, 0] (fun _ => 0)) 32 false
      = .ok ("; global id: 0\n; proto name: UNNAMED\n; linedefined: 7\n\n; maxstacksize: 1\n"
          ++ "; numparams: 2\n; nups: 3\n; is_vararg: 01\n\n; child protos: 1, 0\n\n"
          ++ "; sizecode: 1\n; sizek: 0\n[000] NOP (0000000000)\n"
          ++ "; global id: 1\n; proto name: UNNAMED\n; linedefined: 0\n\n; maxstacksize: 0\n"
          ++ "; numparams: 0\n; nups: 0\n; is_vararg: 00\n\n"
          ++ "; sizecode: 0\n; sizek: 0\n") := by
  rfl

/-- **C23.** The text that `disassemble` emits is, for each decoded prototype in
module order and numbered from 0, a header followed by the prototype's
instruction lines.  The header holds, in this order, the prototype index, the
debug name, `linedefined`, `maxstacksize`, `numparams`, `nups`, `is_vararg`
as exactly two upper-case hexadecimal digits, a `; child protos: ` line that
lists the child indices in stored order separated by `, ` if and only if the
child list is not empty, the instruction-word count and the constant count. -/
theorem header_lists_prototype_fields_in_order :
    (∀ (i : Nat) (p : Proto),
      protoHeader i p
        = "; global id: " ++ toString i ++ "\n" ++
          "; proto name: " ++ p.debugname ++ "\n" ++
          "; linedefined: " ++ toString p.linedefined ++ "\n" ++
          "\n" ++
          "; maxstacksize: " ++ toString p.maxstacksize ++ "\n" ++
          "; numparams: " ++ toString p.numparams ++ "\n" ++
          "; nups: " ++ toString p.nups ++ "\n" ++
          "; is_vararg: " ++ fmt_0_2X p.is_vararg ++ "\n" ++
          (if p.p = [] then ""
           else "\n; child protos: " ++ ", ".intercalate (p.p.map toString) ++ "\n") ++ "\n" ++
          "; sizecode: " ++ toString p.code.length ++ "\n" ++
          "; sizek: " ++ toString p.k.length ++ "\n") ∧
    (∀ v, v < 256 →
      fmt_0_2X v = String.mk [hexDigitUpper (v / 16), hexDigitUpper (v % 16)]) ∧
    (∀ (d : Nat → Nat) (protos : List Proto), deserialize_bytecode d = .ok protos →
      ∀ p ∈ protos, p.is_vararg < 256) ∧
    (∀ (fmt_4_3f : Nat → String) (d : Nat → Nat) (bytecode_size : Nat)
        (displayLineInfo : Bool) (out : String),
      disassemble fmt_4_3f d bytecode_size displayLineInfo = .ok out ↔
      ∃ (protos : List Proto) (bodies : List String),
        deserialize_bytecode d = .ok protos ∧
        List.Forall₂
          (fun p body =>
            (instructionLines fmt_4_3f p displayLineInfo p.code.length 0).map String.join
              = .ok body) protos bodies ∧
        out = sectionsText 0 (protos.zip bodies)) ∧
    (∀ (i : Nat) (p : Proto) (body : String) (rest : List (Proto × String)),
      sectionsText i ((p, body) :: rest)
        = protoHeader i p ++ body ++ sectionsText (i + 1) rest) ∧
    disassemble (fun _ => "")
        (memoryOf [2, 0, 2,
                   1, 2, 3, 1, 1, 0, 0, 0, 0, 0, 2, 1, 0, 7, 0, 0, 0,
                   0, 0, 0, 0, 0, 0, 0, 0, 0, 0, 0, 0] (fun _ => 0)) 32 false
      = .ok ("; global id: 0\n; proto name: UNNAMED\n; linedefined: 7\n\n; maxstacksize: 1\n"
          ++ "; numparams: 2\n; nups: 3\n; is_vararg: 01\n\n; child protos: 1, 0\n\n"
          ++ "; sizecode: 1\n; sizek: 0\n[000] NOP (0000000000)\n"
          ++ "; global id: 1\n; proto name: UNNAMED\n; linedefined: 0\n\n; maxstacksize: 0\n"
          ++ "; numparams: 0\n; nups: 0\n; is_vararg: 00\n\n"
          ++ "; sizecode: 0\n; sizek: 0\n") := by
  refine ⟨protoHeader_eq, fmt_0_2X_byte, ?_, ?_, fun _ _ _ _ => rfl, two_prototype_module_eval⟩
  · intro d protos h
    exact deserialize_bytecode_forall (fun p => p.is_vararg < 256) d
      (fun st o p o' hp => readProto_is_vararg_lt d st p o o' hp) protos h
  · intro fmt_4_3f d bytecode_size displayLineInfo out
    unfold disassemble
    constructor
    · intro h
      rcases (bind_eq_ok _ _ _).1 h with ⟨protos, hd, h⟩
      obtain ⟨bodies, hf, hout⟩ := (disassembleProtos_iff fmt_4_3f displayLineInfo protos 0 out).1 h
      exact ⟨protos, bodies, hd, hf, hout⟩
    · rintro ⟨protos, bodies, hd, hf, hout⟩
      rw [hd]
      exact (disassembleProtos_iff fmt_4_3f displayLineInfo protos 0 out).2 ⟨bodies, hf, hout⟩

/-- Witness for C23: the vararg byte `0xAB`. -/
theorem header_lists_prototype_fields_in_order_witness :
    fmt_0_2X 0xAB = String.mk [hexDigitUpper (0xAB / 16), hexDigitUpper (0xAB % 16)] ∧
    fmt_0_2X 0xAB = "AB" :=
  ⟨header_lists_prototype_fields_in_order.2.1 0xAB (by decide), by rfl⟩

/-! ## C31: texts built from the fields of the word alone -/

theorem fmt_i_length_of_range (x : Int) (e : Nat) (he : 0 < e) (h1 : -(10 ^ e : Nat) < x)
    (h2 : x < (10 ^ e : Nat)) (h3 : -2147483648 ≤ x) (h4 : x < 2147483648) :
    (fmt_i x).length ≤ e + 1 := by
  unfold fmt_i
  rw [toInt32_of_range x h3 h4]
  cases x with
  | ofNat n =>
    have hn : n < 10 ^ e := by
      have : ((n : Nat) : Int) < (10 ^ e : Nat) := h2
      omega
    have := Nat.repr_length n e he hn
    show (Nat.repr n).length ≤ e + 1
    omega
  | negSucc n =>
    have hn : n + 1 < 10 ^ e := by
      rw [Int.negSucc_eq] at h1
      omega
    have := Nat.repr_length (n + 1) e he hn
    show ("-" ++ Nat.repr (n + 1)).length ≤ e + 1
    rw [String.length_append]
    have : "-".length = 1 := rfl
    omega

theorem fmt_i_D_length (w : Nat) : (fmt_i (LUAU_INSN_D w)).length ≤ 6 := by
  have hr := LUAU_INSN_D_range w
  exact fmt_i_length_of_range _ 5 (by decide) (by norm_num; omega) (by norm_num; omega)
    (by omega) (by omega)

theorem fmt_i_field_length (n : Nat) (h : n < 256) : (fmt_i (n : Int)).length ≤ 3 := by
  rw [fmt_i_natCast n (by omega)]
  exact toString_length_le n 3 (by decide) (by omega)

theorem textAB_fits (cap : Nat) (name : String) (w : Nat) (h : name.length + 8 < cap) :
    ∃ t, textAB cap name w = .ok t ∧ t.length < cap := by
  refine ⟨_, sprintf_s_fits cap _ ?_, ?_⟩
  all_goals
    have la := fmt_i_field_length _ (LUAU_INSN_A_lt w)
    have lb := fmt_i_field_length _ (LUAU_INSN_B_lt w)
    simp only [String.length_append]
    have h1 : (" " : String).length = 1 := rfl
    omega

theorem textABC_fits (cap : Nat) (name : String) (w : Nat) (h : name.length + 12 < cap) :
    ∃ t, textABC cap name w = .ok t ∧ t.length < cap := by
  refine ⟨_, sprintf_s_fits cap _ ?_, ?_⟩
  all_goals
    have la := fmt_i_field_length _ (LUAU_INSN_A_lt w)
    have lb := fmt_i_field_length _ (LUAU_INSN_B_lt w)
    have lc := fmt_i_field_length _ (LUAU_INSN_C_lt w)
    simp only [String.length_append]
    have h1 : (" " : String).length = 1 := rfl
    omega

theorem textAD_fits (cap : Nat) (name : String) (w : Nat) (h : name.length + 11 < cap) :
    ∃ t, textAD cap name w = .ok t ∧ t.length < cap := by
  refine ⟨_, sprintf_s_fits cap _ ?_, ?_⟩
  all_goals
    have la := fmt_i_field_length _ (LUAU_INSN_A_lt w)
    have ld := fmt_i_D_length w
    simp only [String.length_append]
    have h1 : (" " : String).length = 1 := rfl
    omega

theorem textTableN_fits (name : String) (w : Nat) (hn : name.length ≤ 9) :
    ∃ t, textTableN name w = .ok t ∧ t.length < 36 := by
  have h := textTableN_eq name w hn
  refine ⟨_, h, ?_⟩
  unfold textTableN at h
  dsimp only at h
  unfold sprintf_s at h
  split at h
  · rename_i hlt
    simp only [Except.ok.injEq] at h
    rw [← h]
    exact hlt
  · cases h

theorem count_annotation_length (n : Nat) (h : n < 256) :
    (fmt_i (n : Int)).length + (multretOrCount n).length ≤ 8 := by
  unfold multretOrCount
  by_cases h0 : n = 0
  · subst h0
    decide
  · rw [if_neg h0]
    have l1 := fmt_i_field_length n h
    have hc : ((n : Int) - 1) = ((n - 1 : Nat) : Int) := by omega
    have l2 := fmt_i_field_length (n - 1) (by omega)
    rw [hc]
    omega

theorem textCall_fits (w : Nat) : ∃ t, textCall w = .ok t ∧ t.length < 54 := by
  refine ⟨_, sprintf_s_fits 54 _ ?_, ?_⟩
  all_goals
    have la := fmt_i_field_length _ (LUAU_INSN_A_lt w)
    have lb := count_annotation_length _ (LUAU_INSN_B_lt w)
    have lc := count_annotation_length _ (LUAU_INSN_C_lt w)
    simp only [String.length_append]
    have h1 : (" " : String).length = 1 := rfl
    have h2 : ("CALL " : String).length = 5 := rfl
    have h3 : (" ; " : String).length = 3 := rfl
    have h4 : (" arguments, " : String).length = 12 := rfl
    have h5 : (" results" : String).length = 8 := rfl
    omega

theorem keepPc_fits (pc cap : Nat) (x : Except Fault String)
    (h : ∃ t, x = .ok t ∧ t.length < cap) :
    ∃ t, keepPc pc x = .ok (t, pc) ∧ t.length < cap := by
  obtain ⟨t, ht, hl⟩ := h
  exact ⟨t, by rw [ht]; rfl, hl⟩

/-- The nineteen opcodes of `fittingFieldTexts` render every word: their text is
strictly shorter than the buffer of their case. -/
theorem field_texts_fit_their_buffers (fmt_4_3f : Nat → String) (proto : Proto)
    (pc w cap : Nat) (h : (LUAU_INSN_OP w, cap) ∈ fittingFieldTexts) :
    ∃ t, instructionText fmt_4_3f proto pc w = .ok (t, pc) ∧ t.length < cap := by
  simp only [fittingFieldTexts, List.mem_cons, List.mem_singleton, Prod.mk.injEq,
    List.not_mem_nil, or_false] at h
  rcases h with ⟨h, rfl⟩ | ⟨h, rfl⟩ | ⟨h, rfl⟩ | ⟨h, rfl⟩ | ⟨h, rfl⟩ | ⟨h, rfl⟩ | ⟨h, rfl⟩
    | ⟨h, rfl⟩ | ⟨h, rfl⟩ | ⟨h, rfl⟩ | ⟨h, rfl⟩ | ⟨h, rfl⟩ | ⟨h, rfl⟩ | ⟨h, rfl⟩ | ⟨h, rfl⟩
    | ⟨h, rfl⟩ | ⟨h, rfl⟩ | ⟨h, rfl⟩ | ⟨h, rfl⟩
  · rw [instructionText_LOADN _ _ _ _ h]
    exact keepPc_fits _ _ _ (textAD_fits _ _ _ (by decide))
  · rw [instructionText_MOVE _ _ _ _ h]
    exact keepPc_fits _ _ _ (textAB_fits _ _ _ (by decide))
  · rw [instructionText_GETUPVAL _ _ _ _ h]
    exact keepPc_fits _ _ _ (textAB_fits _ _ _ (by decide))
  · rw [instructionText_SETUPVAL _ _ _ _ h]
    exact keepPc_fits _ _ _ (textAB_fits _ _ _ (by decide))
  · rw [instructionText_GETTABLE _ _ _ _ h]
    exact keepPc_fits _ _ _ (textABC_fits _ _ _ (by decide))
  · rw [instructionText_SETTABLE _ _ _ _ h]
    exact keepPc_fits _ _ _ (textABC_fits _ _ _ (by decide))
  · rw [instructionText_GETTABLEN _ _ _ _ h]
    exact keepPc_fits _ _ _ (textTableN_fits _ _ (by decide))
  · rw [instructionText_SETTABLEN _ _ _ _ h]
    exact keepPc_fits _ _ _ (textTableN_fits _ _ (by decide))
  · rw [instructionText_CALL _ _ _ _ h]
    exact keepPc_fits _ _ _ (textCall_fits _)
  · rw [instructionText_ADD _ _ _ _ h]
    exact keepPc_fits _ _ _ (textABC_fits _ _ _ (by decide))
  · rw [instructionText_SUB _ _ _ _ h]
    exact keepPc_fits _ _ _ (textABC_fits _ _ _ (by decide))
  · rw [instructionText_MUL _ _ _ _ h]
    exact keepPc_fits _ _ _ (textABC_fits _ _ _ (by decide))
  · rw [instructionText_DIV _ _ _ _ h]
    exact keepPc_fits _ _ _ (textABC_fits _ _ _ (by decide))
  · rw [instructionText_MOD _ _ _ _ h]
    exact keepPc_fits _ _ _ (textABC_fits _ _ _ (by decide))
  · rw [instructionText_POW _ _ _ _ h]
    exact keepPc_fits _ _ _ (textABC_fits _ _ _ (by decide))
  · rw [instructionText_CONCAT _ _ _ _ h]
    exact keepPc_fits _ _ _ (textABC_fits _ _ _ (by decide))
  · rw [instructionText_NOT _ _ _ _ h]
    exact keepPc_fits _ _ _ (textAB_fits _ _ _ (by decide))
  · rw [instructionText_MINUS _ _ _ _ h]
    exact keepPc_fits _ _ _ (textAB_fits _ _ _ (by decide))
  · rw [instructionText_LENGTH _ _ _ _ h]
    exact keepPc_fits _ _ _ (textAB_fits _ _ _ (by decide))

/-- **C31.** Three of the listed opcodes have a word whose text does not fit the
buffer of its case, so that `sprintf_s` fails: `RETURN 100 0` needs 65
characters and has 64 bytes, `DUPTABLE 100 -10000` needs 19 characters and
has 19 bytes, `DUPCLOSURE 100 -10000` needs 21 characters and has 21 bytes. -/
theorem field_text_overflows_its_buffer :
    LUAU_INSN_OP 0x00006482 = LOP_RETURN ∧
    getStringForInstruction (fun _ => "") { code := [0x00006482] } 0 false
      = .error Fault.bufferTooSmall ∧
    ("RETURN 100 0 ; values start at 100, num returned values = MULTRET").length = 65 ∧
    LUAU_INSN_OP 0xD8F064E2 = LOP_DUPTABLE ∧
    getStringForInstruction (fun _ => "") { code := [0xD8F064E2] } 0 false
      = .error Fault.bufferTooSmall ∧
    ("DUPTABLE 100 -10000").length = 19 ∧
    LUAU_INSN_OP 0xD8F064C0 = LOP_DUPCLOSURE ∧
    getStringForInstruction (fun _ => "") { code := [0xD8F064C0] } 0 false
      = .error Fault.bufferTooSmall ∧
    ("DUPCLOSURE 100 -10000").length = 21 ∧
    getStringForInstruction (fun _ => "") { code := [0xD8F063E2] } 0 false
      = .ok ("[000] DUPTABLE 99 -10000", 0) :=
  ⟨by rfl, by rfl, by rfl, by rfl, by rfl, by rfl, by rfl, by rfl, by rfl, by rfl⟩

/-! ## C32: reads of the instruction vector -/

theorem index_congr {α : Type} (xs ys : List α) (n : Nat) (h : xs[n]? = ys[n]?) :
    index xs (n : Int) = index ys (n : Int) := by
  show index xs (Int.ofNat n) = index ys (Int.ofNat n)
  simp only [index, h]

theorem textGlobal_code_congr (name : String) (code code' : List Nat) (k : List LuaValue) (w pc : Nat)
    (h : code[pc + 1]? = code'[pc + 1]?) :
    textGlobal name code k w pc = textGlobal name code' k w pc := by
  unfold textGlobal
  dsimp only
  rw [index_congr code code' (pc + 1) h]

theorem textKS_code_congr (name : String) (code code' : List Nat) (k : List LuaValue) (w pc : Nat)
    (h : code[pc + 1]? = code'[pc + 1]?) :
    textKS name code k w pc = textKS name code' k w pc := by
  unfold textKS
  dsimp only
  rw [index_congr code code' (pc + 1) h]

theorem textJumpAux_code_congr (name : String) (code code' : List Nat)  (w pc : Nat)
    (h : code[pc + 1]? = code'[pc + 1]?) :
    textJumpAux name code w pc = textJumpAux name code' w pc := by
  unfold textJumpAux
  dsimp only
  rw [index_congr code code' (pc + 1) h]

theorem textJumpK_code_congr (fmt_4_3f : Nat → String) (name : String) (code code' : List Nat) (k : List LuaValue) (w pc : Nat)
    (h : code[pc + 1]? = code'[pc + 1]?) :
    textJumpK fmt_4_3f name code k w pc = textJumpK fmt_4_3f name code' k w pc := by
  unfold textJumpK
  dsimp only
  rw [index_congr code code' (pc + 1) h]

theorem textImport_code_congr  (code code' : List Nat) (k : List LuaValue) (w pc : Nat)
    (h : code[pc + 1]? = code'[pc + 1]?) :
    textImport code k w pc = textImport code' k w pc := by
  unfold textImport
  dsimp only
  rw [index_congr code code' (pc + 1) h]

theorem textNewTable_code_congr  (code code' : List Nat)  (w pc : Nat)
    (h : code[pc + 1]? = code'[pc + 1]?) :
    textNewTable code w pc = textNewTable code' w pc := by
  unfold textNewTable
  dsimp only
  rw [index_congr code code' (pc + 1) h]

theorem textSetList_code_congr  (code code' : List Nat)  (w pc : Nat)
    (h : code[pc + 1]? = code'[pc + 1]?) :
    textSetList code w pc = textSetList code' w pc := by
  unfold textSetList
  dsimp only
  rw [index_congr code code' (pc + 1) h]

theorem textFastcall2_code_congr  (code code' : List Nat)  (w pc : Nat)
    (h : code[pc + 1]? = code'[pc + 1]?) :
    textFastcall2 code w pc = textFastcall2 code' w pc := by
  unfold textFastcall2
  dsimp only
  rw [index_congr code code' (pc + 1) h]

theorem textFastcall2K_code_congr (fmt_4_3f : Nat → String) (code code' : List Nat) (k : List LuaValue) (w pc : Nat)
    (h : code[pc + 1]? = code'[pc + 1]?) :
    textFastcall2K fmt_4_3f code k w pc = textFastcall2K fmt_4_3f code' k w pc := by
  unfold textFastcall2K
  dsimp only
  rw [index_congr code code' (pc + 1) h]

theorem instructionText_code_congr (fmt_4_3f : Nat → String) (proto : Proto) (pc w : Nat)
    (code' : List Nat)
    (h : LUAU_INSN_OP w ∈ auxOpcodes → proto.code[pc + 1]? = code'[pc + 1]?) :
    instructionText fmt_4_3f proto pc w
      = instructionText fmt_4_3f { proto with code := code' } pc w := by
  by_cases hmem : LUAU_INSN_OP w ∈ switchOpcodes
  · simp only [switchOpcodes, List.mem_cons, List.mem_singleton, List.not_mem_nil,
      or_false] at hmem
    rcases hmem with ho | ho | ho | ho | ho | ho | ho | ho | ho | ho | ho | ho | ho | ho | ho | ho | ho
      | ho | ho | ho | ho | ho | ho | ho | ho | ho | ho | ho | ho | ho | ho | ho | ho | ho
      | ho | ho | ho | ho | ho | ho | ho | ho | ho | ho | ho | ho | ho | ho | ho | ho | ho
      | ho | ho | ho | ho | ho | ho | ho | ho | ho | ho | ho | ho | ho | ho | ho | ho | ho
    · rw [instructionText_NOP fmt_4_3f proto pc w ho, instructionText_NOP fmt_4_3f _ pc w ho]
    · rw [instructionText_LOADNIL fmt_4_3f proto pc w ho, instructionText_LOADNIL fmt_4_3f _ pc w ho]
    · rw [instructionText_LOADB fmt_4_3f proto pc w ho, instructionText_LOADB fmt_4_3f _ pc w ho]
    · rw [instructionText_LOADN fmt_4_3f proto pc w ho, instructionText_LOADN fmt_4_3f _ pc w ho]
    · rw [instructionText_LOADK fmt_4_3f proto pc w ho, instructionText_LOADK fmt_4_3f _ pc w ho]
    · rw [instructionText_MOVE fmt_4_3f proto pc w ho, instructionText_MOVE fmt_4_3f _ pc w ho]
    · rw [instructionText_GETGLOBAL fmt_4_3f proto pc w ho, instructionText_GETGLOBAL fmt_4_3f _ pc w ho]
      apply textGlobal_code_congr
      exact h (by rw [ho]; decide)
    · rw [instructionText_SETGLOBAL fmt_4_3f proto pc w ho, instructionText_SETGLOBAL fmt_4_3f _ pc w ho]
      apply textGlobal_code_congr
      exact h (by rw [ho]; decide)
    · rw [instructionText_GETUPVAL fmt_4_3f proto pc w ho, instructionText_GETUPVAL fmt_4_3f _ pc w ho]
    · rw [instructionText_SETUPVAL fmt_4_3f proto pc w ho, instructionText_SETUPVAL fmt_4_3f _ pc w ho]
    · rw [instructionText_CLOSEUPVALS fmt_4_3f proto pc w ho, instructionText_CLOSEUPVALS fmt_4_3f _ pc w ho]
    · rw [instructionText_GETIMPORT fmt_4_3f proto pc w ho, instructionText_GETIMPORT fmt_4_3f _ pc w ho]
      apply textImport_code_congr
      exact h (by rw [ho]; decide)
    · rw [instructionText_GETTABLE fmt_4_3f proto pc w ho, instructionText_GETTABLE fmt_4_3f _ pc w ho]
    · rw [instructionText_SETTABLE fmt_4_3f proto pc w ho, instructionText_SETTABLE fmt_4_3f _ pc w ho]
    · rw [instructionText_GETTABLEKS fmt_4_3f proto pc w ho, instructionText_GETTABLEKS fmt_4_3f _ pc w ho]
      apply textKS_code_congr
      exact h (by rw [ho]; decide)
    · rw [instructionText_SETTABLEKS fmt_4_3f proto pc w ho, instructionText_SETTABLEKS fmt_4_3f _ pc w ho]
      apply textKS_code_congr
      exact h (by rw [ho]; decide)
    · rw [instructionText_GETTABLEN fmt_4_3f proto pc w ho, instructionText_GETTABLEN fmt_4_3f _ pc w ho]
    · rw [instructionText_SETTABLEN fmt_4_3f proto pc w ho, instructionText_SETTABLEN fmt_4_3f _ pc w ho]
    · rw [instructionText_NEWCLOSURE fmt_4_3f proto pc w ho, instructionText_NEWCLOSURE fmt_4_3f _ pc w ho]
    · rw [instructionText_NAMECALL fmt_4_3f proto pc w ho, instructionText_NAMECALL fmt_4_3f _ pc w ho]
      apply textKS_code_congr
      exact h (by rw [ho]; decide)
    · rw [instructionText_CALL fmt_4_3f proto pc w ho, instructionText_CALL fmt_4_3f _ pc w ho]
    · rw [instructionText_RETURN fmt_4_3f proto pc w ho, instructionText_RETURN fmt_4_3f _ pc w ho]
    · rw [instructionText_JUMP fmt_4_3f proto pc w ho, instructionText_JUMP fmt_4_3f _ pc w ho]
    · rw [instructionText_JUMPBACK fmt_4_3f proto pc w ho, instructionText_JUMPBACK fmt_4_3f _ pc w ho]
    · rw [instructionText_JUMPIF fmt_4_3f proto pc w ho, instructionText_JUMPIF fmt_4_3f _ pc w ho]
    · rw [instructionText_JUMPIFNOT fmt_4_3f proto pc w ho, instructionText_JUMPIFNOT fmt_4_3f _ pc w ho]
    · rw [instructionText_JUMPIFEQ fmt_4_3f proto pc w ho, instructionText_JUMPIFEQ fmt_4_3f _ pc w ho]
      apply textJumpAux_code_congr
      exact h (by rw [ho]; decide)
    · rw [instructionText_JUMPIFLE fmt_4_3f proto pc w ho, instructionText_JUMPIFLE fmt_4_3f _ pc w ho]
      apply textJumpAux_code_congr
      exact h (by rw [ho]; decide)
    · rw [instructionText_JUMPIFLT fmt_4_3f proto pc w ho, instructionText_JUMPIFLT fmt_4_3f _ pc w ho]
      apply textJumpAux_code_congr
      exact h (by rw [ho]; decide)
    · rw [instructionText_JUMPIFNOTEQ fmt_4_3f proto pc w ho, instructionText_JUMPIFNOTEQ fmt_4_3f _ pc w ho]
      apply textJumpAux_code_congr
      exact h (by rw [ho]; decide)
    · rw [instructionText_JUMPIFNOTLE fmt_4_3f proto pc w ho, instructionText_JUMPIFNOTLE fmt_4_3f _ pc w ho]
      apply textJumpAux_code_congr
      exact h (by rw [ho]; decide)
    · rw [instructionText_JUMPIFNOTLT fmt_4_3f proto pc w ho, instructionText_JUMPIFNOTLT fmt_4_3f _ pc w ho]
      apply textJumpAux_code_congr
      exact h (by rw [ho]; decide)
    · rw [instructionText_ADD fmt_4_3f proto pc w ho, instructionText_ADD fmt_4_3f _ pc w ho]
    · rw [instructionText_SUB fmt_4_3f proto pc w ho, instructionText_SUB fmt_4_3f _ pc w ho]
    · rw [instructionText_MUL fmt_4_3f proto pc w ho, instructionText_MUL fmt_4_3f _ pc w ho]
    · rw [instructionText_DIV fmt_4_3f proto pc w ho, instructionText_DIV fmt_4_3f _ pc w ho]
    · rw [instructionText_MOD fmt_4_3f proto pc w ho, instructionText_MOD fmt_4_3f _ pc w ho]
    · rw [instructionText_POW fmt_4_3f proto pc w ho, instructionText_POW fmt_4_3f _ pc w ho]
    · rw [instructionText_ADDK fmt_4_3f proto pc w ho, instructionText_ADDK fmt_4_3f _ pc w ho]
    · rw [instructionText_SUBK fmt_4_3f proto pc w ho, instructionText_SUBK fmt_4_3f _ pc w ho]
    · rw [instructionText_MULK fmt_4_3f proto pc w ho, instructionText_MULK fmt_4_3f _ pc w ho]
    · rw [instructionText_DIVK fmt_4_3f proto pc w ho, instructionText_DIVK fmt_4_3f _ pc w ho]
    · rw [instructionText_MODK fmt_4_3f proto pc w ho, instructionText_MODK fmt_4_3f _ pc w ho]
    · rw [instructionText_POWK fmt_4_3f proto pc w ho, instructionText_POWK fmt_4_3f _ pc w ho]
    · rw [instructionText_ANDK fmt_4_3f proto pc w ho, instructionText_ANDK fmt_4_3f _ pc w ho]
    · rw [instructionText_ORK fmt_4_3f proto pc w ho, instructionText_ORK fmt_4_3f _ pc w ho]
    · rw [instructionText_CONCAT fmt_4_3f proto pc w ho, instructionText_CONCAT fmt_4_3f _ pc w ho]
    · rw [instructionText_NOT fmt_4_3f proto pc w ho, instructionText_NOT fmt_4_3f _ pc w ho]
    · rw [instructionText_MINUS fmt_4_3f proto pc w ho, instructionText_MINUS fmt_4_3f _ pc w ho]
    · rw [instructionText_LENGTH fmt_4_3f proto pc w ho, instructionText_LENGTH fmt_4_3f _ pc w ho]
    · rw [instructionText_NEWTABLE fmt_4_3f proto pc w ho, instructionText_NEWTABLE fmt_4_3f _ pc w ho]
      apply textNewTable_code_congr
      exact h (by rw [ho]; decide)
    · rw [instructionText_DUPTABLE fmt_4_3f proto pc w ho, instructionText_DUPTABLE fmt_4_3f _ pc w ho]
    · rw [instructionText_SETLIST fmt_4_3f proto pc w ho, instructionText_SETLIST fmt_4_3f _ pc w ho]
      apply textSetList_code_congr
      exact h (by rw [ho]; decide)
    · rw [instructionText_FORNPREP fmt_4_3f proto pc w ho, instructionText_FORNPREP fmt_4_3f _ pc w ho]
    · rw [instructionText_FORNLOOP fmt_4_3f proto pc w ho, instructionText_FORNLOOP fmt_4_3f _ pc w ho]
    · rw [instructionText_FORGPREP_INEXT fmt_4_3f proto pc w ho, instructionText_FORGPREP_INEXT fmt_4_3f _ pc w ho]
    · rw [instructionText_FORGLOOP_INEXT fmt_4_3f proto pc w ho, instructionText_FORGLOOP_INEXT fmt_4_3f _ pc w ho]
    · rw [instructionText_FORGPREP_NEXT fmt_4_3f proto pc w ho, instructionText_FORGPREP_NEXT fmt_4_3f _ pc w ho]
    · rw [instructionText_FORGLOOP_NEXT fmt_4_3f proto pc w ho, instructionText_FORGLOOP_NEXT fmt_4_3f _ pc w ho]
    · rw [instructionText_DUPCLOSURE fmt_4_3f proto pc w ho, instructionText_DUPCLOSURE fmt_4_3f _ pc w ho]
    · rw [instructionText_PREPVARARGS fmt_4_3f proto pc w ho, instructionText_PREPVARARGS fmt_4_3f _ pc w ho]
    · rw [instructionText_FASTCALL fmt_4_3f proto pc w ho, instructionText_FASTCALL fmt_4_3f _ pc w ho]
    · rw [instructionText_CAPTURE fmt_4_3f proto pc w ho, instructionText_CAPTURE fmt_4_3f _ pc w ho]
    · rw [instructionText_JUMPIFEQK fmt_4_3f proto pc w ho, instructionText_JUMPIFEQK fmt_4_3f _ pc w ho]
      apply textJumpK_code_congr
      exact h (by rw [ho]; decide)
    · rw [instructionText_JUMPIFNOTEQK fmt_4_3f proto pc w ho, instructionText_JUMPIFNOTEQK fmt_4_3f _ pc w ho]
      apply textJumpK_code_congr
      exact h (by rw [ho]; decide)
    · rw [instructionText_FASTCALL1 fmt_4_3f proto pc w ho, instructionText_FASTCALL1 fmt_4_3f _ pc w ho]
    · rw [instructionText_FASTCALL2 fmt_4_3f proto pc w ho, instructionText_FASTCALL2 fmt_4_3f _ pc w ho]
      apply textFastcall2_code_congr
      exact h (by rw [ho]; decide)
    · rw [instructionText_FASTCALL2K fmt_4_3f proto pc w ho, instructionText_FASTCALL2K fmt_4_3f _ pc w ho]
      apply textFastcall2K_code_congr
      exact h (by rw [ho]; decide)
  · rw [instructionText_default _ _ _ _ hmem, instructionText_default _ _ _ _ hmem]

theorem primaryPositions_range :
    ∀ (n : Nat) (code : List Nat) (i pc : Nat), code.length ≤ n →
      pc ∈ primaryPositions code i → i ≤ pc ∧ pc < i + code.length := by
  intro n
  induction n with
  | zero =>
    intro code i pc hn hpc
    match code, hn with
    | [], _ => simp [primaryPositions] at hpc
  | succ n ih =>
    intro code i pc hn hpc
    match code, hn with
    | [], _ => simp [primaryPositions] at hpc
    | [x], _ =>
      simp only [primaryPositions, List.mem_singleton] at hpc
      simp only [List.length_singleton]
      omega
    | x :: a :: rest, hn =>
      simp only [primaryPositions] at hpc
      simp only [List.length_cons] at hn ⊢
      split at hpc
      · rcases List.mem_cons.1 hpc with h | h
        · omega
        · have := ih rest (i + 2) pc (by omega) h
          omega
      · rcases List.mem_cons.1 hpc with h | h
        · omega
        · have := ih (a :: rest) (i + 1) pc (by simp only [List.length_cons]; omega) h
          simp only [List.length_cons] at this
          omega

/-- **C32 (counterexample).** In the prototype whose only word is `GETGLOBAL`
(`0x00000035`) the walk calls `getStringForInstruction` at index 0, and the
case reads `code[1]`: the index equals the instruction count, so the read is
outside the vector, which is undefined behaviour.  The module with that
prototype decodes. -/
theorem aux_word_of_last_instruction_is_read_past_the_end :
    LUAU_INSN_OP 0x00000035 ∈ auxOpcodes ∧
    primaryPositions [0x00000035] 0 = [0] ∧
    ([0x00000035] : List Nat).length = 1 ∧
    index ([0x00000035] : List Nat) ((0 + 1 : Nat) : Int) = .error Fault.undefinedBehaviour ∧
    getStringForInstruction (fun _ => "")
        { code := [0x00000035],
          k := [{ value := LuaValueUnion.str "print", type := LUA_TSTRING }] } 0 false
      = .error Fault.undefinedBehaviour ∧
    deserialize_bytecode
        (memoryOf [2, 0, 1, 0, 0, 0, 0, 1, 0x35, 0, 0, 0, 0, 0, 0, 0, 0, 0, 0] (fun _ => 0))
      = .ok [{ code := [0x00000035] }] ∧
    disassemble (fun _ => "")
        (memoryOf [2, 0, 1, 0, 0, 0, 0, 1, 0x35, 0, 0, 0, 0, 0, 0, 0, 0, 0, 0] (fun _ => 0))
        19 false
      = .error Fault.undefinedBehaviour :=
  ⟨by decide, by rfl, by rfl, by rfl, by rfl, by rfl, by rfl⟩

/-- **C32 (amended).** The walk of `disassemble` calls `getStringForInstruction`
at the primary positions only, each below the instruction count, so the read
of the primary word is in range.  The switch reads the instruction vector
only in the cases with an auxiliary word, and there only at `pc + 1`, without
a check: that index is below the instruction count unless the instruction is
the last word of the stream, where it equals the count.  `NEWTABLE` followed
by the word 7 or 8 shows that word and leaves `pc` on it, and the stream
`[GETGLOBAL, aux, RETURN]` is walked at the indices 0 and 2. -/
theorem instruction_vector_reads :
    (∀ (code : List Nat) (i pc : Nat),
      pc ∈ primaryPositions code i → i ≤ pc ∧ pc < i + code.length) ∧
    (∀ (fmt_4_3f : Nat → String) (p : Proto) (displayLineInfo : Bool),
      instructionLines fmt_4_3f p displayLineInfo p.code.length 0
        = linesAt fmt_4_3f p displayLineInfo (primaryPositions p.code 0)) ∧
    (∀ (fmt_4_3f : Nat → String) (proto : Proto) (pc w : Nat) (code' : List Nat),
      (LUAU_INSN_OP w ∈ auxOpcodes → proto.code[pc + 1]? = code'[pc + 1]?) →
      instructionText fmt_4_3f proto pc w
        = instructionText fmt_4_3f { proto with code := code' } pc w) ∧
    getStringForInstruction (fun _ => "") { code := [0x000000FF, 7] } 0 false
      = .ok ("[000] NEWTABLE 0 0 7", 1) ∧
    getStringForInstruction (fun _ => "") { code := [0x000000FF, 8] } 0 false
      = .ok ("[000] NEWTABLE 0 0 8", 1) ∧
    primaryPositions [0x00000035, 0, 0x00010082] 0 = [0, 2] ∧
    instructionLines (fun _ => "")
        { code := [0x00000035, 0, 0x00010082],
          k := [{ value := LuaValueUnion.str "print", type := LUA_TSTRING }] }
        false 3 0
      = .ok ["[000] GETGLOBAL 0 0 ; K(0) = 'print'\n",
             "[002] RETURN 0 1 ; values start at 0, num returned values = 0\n"] := by
  refine ⟨fun code i pc h => primaryPositions_range code.length code i pc (Nat.le_refl _) h,
    ?_, instructionText_code_congr, by rfl, by rfl, by decide, by rfl⟩
  intro fmt_4_3f p displayLineInfo
  have := instructionLines_eq_linesAt fmt_4_3f p displayLineInfo p.code.length 0 (by omega)
  rw [List.drop_zero] at this
  exact this

/-- Witness for C32: `GETGLOBAL` followed by its auxiliary word reads that word
and nothing else. -/
theorem instruction_vector_reads_witness :
    instructionText (fun _ => "")
        { code := [0x00000035, 0],
          k := [{ value := LuaValueUnion.str "print", type := LUA_TSTRING }] } 0 0x00000035
      = instructionText (fun _ => "")
          { ({ code := [0x00000035, 0],
               k := [{ value := LuaValueUnion.str "print", type := LUA_TSTRING }] } : Proto)
            with code := [7, 0] } 0 0x00000035 :=
  instruction_vector_reads.2.2.1 (fun _ => "")
    { code := [0x00000035, 0],
      k := [{ value := LuaValueUnion.str "print", type := LUA_TSTRING }] } 0 0x00000035 [7, 0]
    (fun _ => rfl)

/-! ## C33: lookups in the constant table -/

theorem textLoadK_k_congr (fmt_4_3f : Nat → String) (k k' : List LuaValue) (w n : Nat)
    (v : LuaValue) (hd : LUAU_INSN_D w = (n : Int)) (h : k[n]? = some v)
    (h' : k'[n]? = some v) : textLoadK fmt_4_3f k w = textLoadK fmt_4_3f k' w := by
  unfold textLoadK
  dsimp only
  rw [hd, index_ofNat k n v h, index_ofNat k' n v h']

theorem textArithK_k_congr (fmt_4_3f : Nat → String) (name : String) (k k' : List LuaValue)
    (w : Nat) (v : LuaValue) (h : k[LUAU_INSN_C w]? = some v)
    (h' : k'[LUAU_INSN_C w]? = some v) :
    textArithK fmt_4_3f name k w = textArithK fmt_4_3f name k' w := by
  unfold textArithK
  dsimp only
  rw [index_ofNat k _ v h, index_ofNat k' _ v h']

theorem textLogicK_k_congr (fmt_4_3f : Nat → String) (name : String) (k k' : List LuaValue)
    (w : Nat) (v : LuaValue) (h : k[LUAU_INSN_C w]? = some v)
    (h' : k'[LUAU_INSN_C w]? = some v) :
    textLogicK fmt_4_3f name k w = textLogicK fmt_4_3f name k' w := by
  unfold textLogicK
  dsimp only
  rw [index_ofNat k _ v h, index_ofNat k' _ v h']

theorem textGlobal_k_congr (name : String) (code : List Nat) (k k' : List LuaValue)
    (w pc aux : Nat) (v : LuaValue) (hc : code[pc + 1]? = some aux) (h : k[aux]? = some v)
    (h' : k'[aux]? = some v) : textGlobal name code k w pc = textGlobal name code k' w pc := by
  unfold textGlobal
  dsimp only
  rw [index_ofNat code (pc + 1) aux hc]
  simp only [bind, Except.bind]
  rw [index_ofNat k aux v h, index_ofNat k' aux v h']

theorem textKS_k_congr (name : String) (code : List Nat) (k k' : List LuaValue)
    (w pc aux : Nat) (v : LuaValue) (hc : code[pc + 1]? = some aux) (h : k[aux]? = some v)
    (h' : k'[aux]? = some v) : textKS name code k w pc = textKS name code k' w pc := by
  unfold textKS
  dsimp only
  rw [index_ofNat code (pc + 1) aux hc]
  simp only [bind, Except.bind]
  rw [index_ofNat k aux v h, index_ofNat k' aux v h']

theorem textJumpK_k_congr (fmt_4_3f : Nat → String) (name : String) (code : List Nat)
    (k k' : List LuaValue) (w pc aux : Nat) (v : LuaValue) (hc : code[pc + 1]? = some aux)
    (h : k[aux]? = some v) (h' : k'[aux]? = some v) :
    textJumpK fmt_4_3f name code k w pc = textJumpK fmt_4_3f name code k' w pc := by
  unfold textJumpK
  dsimp only
  rw [index_ofNat code (pc + 1) aux hc]
  simp only [bind, Except.bind]
  rw [index_ofNat k aux v h, index_ofNat k' aux v h']

theorem textFastcall2K_k_congr (fmt_4_3f : Nat → String) (code : List Nat)
    (k k' : List LuaValue) (w pc aux : Nat) (v : LuaValue) (hc : code[pc + 1]? = some aux)
    (h : k[aux]? = some v) (h' : k'[aux]? = some v) :
    textFastcall2K fmt_4_3f code k w pc = textFastcall2K fmt_4_3f code k' w pc := by
  unfold textFastcall2K
  dsimp only
  rw [index_ofNat code (pc + 1) aux hc]
  simp only [bind, Except.bind]
  rw [index_ofNat k aux v h, index_ofNat k' aux v h']

theorem dissect_import_congr (w : Nat) (k k' : List LuaValue) (hw : w < 4294967296)
    (hc : 1 ≤ w >>> 30)
    (h : ∀ i, i < w >>> 30 →
      ∃ v, k[importSegmentIndex w i]? = some v ∧ k'[importSegmentIndex w i]? = some v) :
    dissect_import w k = dissect_import w k' := by
  have h3 : w >>> 30 ≤ 3 := by
    rw [Nat.shiftRight_eq_div_pow]; omega
  have hmod : (w >>> 30) % 256 = w >>> 30 := by omega
  generalize hcdef : w >>> 30 = c at *
  have hcases : c = 1 ∨ c = 2 ∨ c = 3 := by omega
  rcases hcases with rfl | rfl | rfl
  · obtain ⟨v0, h0, h0'⟩ := h 0 (by decide)
    simp only [importSegmentIndex] at h0 h0'
    simp [dissect_import, hcdef, index_ofNat _ _ _ h0, index_ofNat _ _ _ h0',
      bind, Except.bind, pure, Except.pure]
  · obtain ⟨v0, h0, h0'⟩ := h 0 (by decide)
    obtain ⟨v1, h1, h1'⟩ := h 1 (by decide)
    simp only [importSegmentIndex] at h0 h0' h1 h1'
    simp [dissect_import, hcdef, index_ofNat _ _ _ h0, index_ofNat _ _ _ h0',
      index_ofNat _ _ _ h1, index_ofNat _ _ _ h1', bind, Except.bind, pure, Except.pure]
  · obtain ⟨v0, h0, h0'⟩ := h 0 (by decide)
    obtain ⟨v1, h1, h1'⟩ := h 1 (by decide)
    obtain ⟨v2, h2, h2'⟩ := h 2 (by decide)
    simp only [importSegmentIndex] at h0 h0' h1 h1' h2 h2'
    simp at h2 h2'
    simp [dissect_import, hcdef, index_ofNat _ _ _ h0, index_ofNat _ _ _ h0',
      index_ofNat _ _ _ h1, index_ofNat _ _ _ h1', index_ofNat _ _ _ h2,
      index_ofNat _ _ _ h2', bind, Except.bind, pure, Except.pure]

theorem textImport_k_congr (code : List Nat) (k k' : List LuaValue) (w pc aux : Nat)
    (hc : code[pc + 1]? = some aux) (hw : aux < 4294967296) (h1 : 1 ≤ aux >>> 30)
    (h : ∀ i, i < aux >>> 30 →
      ∃ v, k[importSegmentIndex aux i]? = some v ∧ k'[importSegmentIndex aux i]? = some v) :
    textImport code k w pc = textImport code k' w pc := by
  unfold textImport
  dsimp only
  rw [index_ofNat code (pc + 1) aux hc]
  simp only [bind, Except.bind]
  rw [dissect_import_congr aux k k' hw h1 h]

/-- **C33 (counterexample).** The module with one prototype, the single word
`LOADK 0 0` and no constant decodes, and rendering looks up `k[0]` in the
empty constant table; with the word `LOADK 0 -1` and one constant the index
is negative.  Both lookups are outside the table, which is undefined
behaviour. -/
theorem decoded_loadk_can_index_outside_the_constants :
    deserialize_bytecode
        (memoryOf [2, 0, 1, 0, 0, 0, 0, 1, 0x6F, 0, 0, 0, 0, 0, 0, 0, 0, 0, 0] (fun _ => 0))
      = .ok [{ code := [0x0000006F] }] ∧
    LUAU_INSN_OP 0x0000006F = LOP_LOADK ∧ LUAU_INSN_D 0x0000006F = 0 ∧
    ({ code := [0x0000006F] } : Proto).k.length = 0 ∧
    disassemble (fun _ => "")
        (memoryOf [2, 0, 1, 0, 0, 0, 0, 1, 0x6F, 0, 0, 0, 0, 0, 0, 0, 0, 0, 0] (fun _ => 0))
        19 false
      = .error Fault.undefinedBehaviour ∧
    deserialize_bytecode
        (memoryOf [2, 0, 1, 0, 0, 0, 0, 1, 0x6F, 0, 0xFF, 0xFF, 1, 0, 0, 0, 0, 0, 0, 0]
          (fun _ => 0))
      = .ok [{ code := [0xFFFF006F], k := [{}] }] ∧
    LUAU_INSN_D 0xFFFF006F = -1 ∧
    disassemble (fun _ => "")
        (memoryOf [2, 0, 1, 0, 0, 0, 0, 1, 0x6F, 0, 0xFF, 0xFF, 1, 0, 0, 0, 0, 0, 0, 0]
          (fun _ => 0)) 20 false
      = .error Fault.undefinedBehaviour :=
  ⟨by rfl, by rfl, by rfl, by rfl, by rfl, by rfl, by rfl, by rfl⟩

/-- **C33 (amended).** The instructions that resolve a constant look it up
without a check at the index that the instruction encodes: the signed field D
for `LOADK`, the auxiliary word for `GETGLOBAL`, `SETGLOBAL`, `GETTABLEKS`,
`SETTABLEKS`, `NAMECALL`, `JUMPIFEQK`, `JUMPIFNOTEQK` and `FASTCALL2K`, the
field C for `ADDK` .. `POWK`, `ANDK` and `ORK`, the segment indices of the
auxiliary word for `GETIMPORT`.  A lookup at an index below the constant
count returns that constant, and the text depends on the constant table only
through the entries at those indices: two tables with the same entries there
give the same result, and the entry at index 1 of a two-entry table is the one
shown for an instruction of each kind that encodes the index 1.  Decoding
does not relate the instruction words to the constant count. -/
theorem constant_lookups_use_the_encoded_index :
    (∀ (k : List LuaValue) (i : Nat) (v : LuaValue),
      k[i]? = some v → index k (i : Int) = .ok v) ∧
    (∀ (fmt_4_3f : Nat → String) (proto : Proto) (pc w n : Nat) (k' : List LuaValue)
        (v : LuaValue),
      LUAU_INSN_OP w = LOP_LOADK → LUAU_INSN_D w = (n : Int) →
      proto.k[n]? = some v → k'[n]? = some v →
      instructionText fmt_4_3f proto pc w
        = instructionText fmt_4_3f { proto with k := k' } pc w) ∧
    (∀ (fmt_4_3f : Nat → String) (proto : Proto) (pc w aux : Nat) (k' : List LuaValue)
        (v : LuaValue),
      LUAU_INSN_OP w ∈ auxConstantOpcodes → proto.code[pc + 1]? = some aux →
      proto.k[aux]? = some v → k'[aux]? = some v →
      instructionText fmt_4_3f proto pc w
        = instructionText fmt_4_3f { proto with k := k' } pc w) ∧
    (∀ (fmt_4_3f : Nat → String) (proto : Proto) (pc w : Nat) (k' : List LuaValue)
        (v : LuaValue),
      LUAU_INSN_OP w ∈ fieldConstantOpcodes →
      proto.k[LUAU_INSN_C w]? = some v → k'[LUAU_INSN_C w]? = some v →
      instructionText fmt_4_3f proto pc w
        = instructionText fmt_4_3f { proto with k := k' } pc w) ∧
    (∀ (fmt_4_3f : Nat → String) (proto : Proto) (pc w aux : Nat) (k' : List LuaValue),
      LUAU_INSN_OP w = LOP_GETIMPORT → proto.code[pc + 1]? = some aux →
      aux < 4294967296 → 1 ≤ aux >>> 30 →
      (∀ i, i < aux >>> 30 →
        ∃ v, proto.k[importSegmentIndex aux i]? = some v ∧
          k'[importSegmentIndex aux i]? = some v) →
      instructionText fmt_4_3f proto pc w
        = instructionText fmt_4_3f { proto with k := k' } pc w) ∧
    getStringForInstruction (fun _ => "")
        { code := [0x0001006F],
          k := [{}, { value := LuaValueUnion.boolean true, type := LUA_TBOOLEAN }] } 0 false
      = .ok ("[000] LOADK 0 1 ; K(1) = true", 0) ∧
    getStringForInstruction (fun _ => "")
        { code := [0x00000035, 1],
          k := [{ value := LuaValueUnion.str "a", type := LUA_TSTRING },
                { value := LuaValueUnion.str "print", type := LUA_TSTRING }] } 0 false
      = .ok ("[000] GETGLOBAL 0 1 ; K(1) = 'print'", 1) ∧
    getStringForInstruction (fun _ => "")
        { code := [0x0000004D, 1],
          k := [{ value := LuaValueUnion.str "a", type := LUA_TSTRING },
                { value := LuaValueUnion.str "print", type := LUA_TSTRING }] } 0 false
      = .ok ("[000] GETTABLEKS 0 0 1 ; K(1) = 'print'", 1) ∧
    getStringForInstruction (fun _ => "")
        { code := [0x000500F5, 1],
          k := [{}, { value := LuaValueUnion.boolean true, type := LUA_TBOOLEAN }] } 0 false
      = .ok ("[000] JUMPIFEQK 0 1 5 ; K(1) = true, to 5", 1) ∧
    getStringForInstruction (fun _ => "")
        { code := [0x00000081, 1],
          k := [{}, { value := LuaValueUnion.boolean true, type := LUA_TBOOLEAN }] } 0 false
      = .ok ("[000] FASTCALL2K 0 0 1 0 ; K(1) = true, jump to 1", 1) ∧
    getStringForInstruction (fun _ => "7.000")
        { code := [0x01000095],
          k := [{}, { value := LuaValueUnion.number 7, type := LUA_TNUMBER }] } 0 false
      = .ok ("[000] ADDK 0 0 1 ; K(1) = 7.000", 0) ∧
    getStringForInstruction (fun _ => "")
        { code := [0x010000AD],
          k := [{}, { value := LuaValueUnion.boolean true, type := LUA_TBOOLEAN }] } 0 false
      = .ok ("[000] ANDK 0 0 1 ; K(1) = true", 0) ∧
    getStringForInstruction (fun _ => "")
        { code := [0x000000A4, 0x40100000],
          k := [{ value := LuaValueUnion.str "a", type := LUA_TSTRING },
                { value := LuaValueUnion.str "game", type := LUA_TSTRING }] } 0 false
      = .ok ("[000] GETIMPORT 0 0 ; count = 1, 'game'", 1) := by
  refine ⟨index_ofNat, ?_, ?_, ?_, ?_, by rfl, by rfl, by rfl, by rfl, by rfl, by rfl, by rfl,
    by rfl⟩
  · intro fmt_4_3f proto pc w n k' v hop hd h h'
    rw [instructionText_LOADK _ _ _ _ hop, instructionText_LOADK _ _ _ _ hop]
    dsimp only
    rw [textLoadK_k_congr fmt_4_3f proto.k k' w n v hd h h']
  · intro fmt_4_3f proto pc w aux k' v hop hc h h'
    simp only [auxConstantOpcodes, List.mem_cons, List.mem_singleton, List.not_mem_nil,
      or_false] at hop
    rcases hop with ho | ho | ho | ho | ho | ho | ho | ho
    · rw [instructionText_GETGLOBAL _ _ _ _ ho, instructionText_GETGLOBAL _ _ _ _ ho]
      exact textGlobal_k_congr _ _ _ _ _ _ _ v hc h h'
    · rw [instructionText_SETGLOBAL _ _ _ _ ho, instructionText_SETGLOBAL _ _ _ _ ho]
      exact textGlobal_k_congr _ _ _ _ _ _ _ v hc h h'
    · rw [instructionText_GETTABLEKS _ _ _ _ ho, instructionText_GETTABLEKS _ _ _ _ ho]
      exact textKS_k_congr _ _ _ _ _ _ _ v hc h h'
    · rw [instructionText_SETTABLEKS _ _ _ _ ho, instructionText_SETTABLEKS _ _ _ _ ho]
      exact textKS_k_congr _ _ _ _ _ _ _ v hc h h'
    · rw [instructionText_NAMECALL _ _ _ _ ho, instructionText_NAMECALL _ _ _ _ ho]
      exact textKS_k_congr _ _ _ _ _ _ _ v hc h h'
    · rw [instructionText_JUMPIFEQK _ _ _ _ ho, instructionText_JUMPIFEQK _ _ _ _ ho]
      exact textJumpK_k_congr _ _ _ _ _ _ _ _ v hc h h'
    · rw [instructionText_JUMPIFNOTEQK _ _ _ _ ho, instructionText_JUMPIFNOTEQK _ _ _ _ ho]
      exact textJumpK_k_congr _ _ _ _ _ _ _ _ v hc h h'
    · rw [instructionText_FASTCALL2K _ _ _ _ ho, instructionText_FASTCALL2K _ _ _ _ ho]
      exact textFastcall2K_k_congr _ _ _ _ _ _ _ v hc h h'
  · intro fmt_4_3f proto pc w k' v hop h h'
    simp only [fieldConstantOpcodes, List.mem_cons, List.mem_singleton, List.not_mem_nil,
      or_false] at hop
    rcases hop with ho | ho | ho | ho | ho | ho | ho | ho
    · rw [instructionText_ADDK _ _ _ _ ho, instructionText_ADDK _ _ _ _ ho]
      dsimp only
      rw [textArithK_k_congr fmt_4_3f _ proto.k k' w v h h']
    · rw [instructionText_SUBK _ _ _ _ ho, instructionText_SUBK _ _ _ _ ho]
      dsimp only
      rw [textArithK_k_congr fmt_4_3f _ proto.k k' w v h h']
    · rw [instructionText_MULK _ _ _ _ ho, instructionText_MULK _ _ _ _ ho]
      dsimp only
      rw [textArithK_k_congr fmt_4_3f _ proto.k k' w v h h']
    · rw [instructionText_DIVK _ _ _ _ ho, instructionText_DIVK _ _ _ _ ho]
      dsimp only
      rw [textArithK_k_congr fmt_4_3f _ proto.k k' w v h h']
    · rw [instructionText_MODK _ _ _ _ ho, instructionText_MODK _ _ _ _ ho]
      dsimp only
      rw [textArithK_k_congr fmt_4_3f _ proto.k k' w v h h']
    · rw [instructionText_POWK _ _ _ _ ho, instructionText_POWK _ _ _ _ ho]
      dsimp only
      rw [textArithK_k_congr fmt_4_3f _ proto.k k' w v h h']
    · rw [instructionText_ANDK _ _ _ _ ho, instructionText_ANDK _ _ _ _ ho]
      dsimp only
      rw [textLogicK_k_congr fmt_4_3f _ proto.k k' w v h h']
    · rw [instructionText_ORK _ _ _ _ ho, instructionText_ORK _ _ _ _ ho]
      dsimp only
      rw [textLogicK_k_congr fmt_4_3f _ proto.k k' w v h h']
  · intro fmt_4_3f proto pc w aux k' hop hc hw h1 h
    rw [instructionText_GETIMPORT _ _ _ _ hop, instructionText_GETIMPORT _ _ _ _ hop]
    exact textImport_k_congr _ _ _ _ _ _ hc hw h1 h

/-- Witness for C33: `ADDK 0 0 1` over two tables that hold the same Number at
index 1 and different entries at index 0. -/
theorem constant_lookups_use_the_encoded_index_witness :
    instructionText (fun _ => "x")
        { k := [{}, { value := LuaValueUnion.number 7, type := LUA_TNUMBER }] } 0 0x01000095
      = instructionText (fun _ => "x")
          { ({ k := [{}, { value := LuaValueUnion.number 7, type := LUA_TNUMBER }] } : Proto)
            with k := [{ value := LuaValueUnion.boolean true, type := LUA_TBOOLEAN },
                       { value := LuaValueUnion.number 7, type := LUA_TNUMBER }] }
          0 0x01000095 :=
  constant_lookups_use_the_encoded_index.2.2.2.1 (fun _ => "x")
    { k := [{}, { value := LuaValueUnion.number 7, type := LUA_TNUMBER }] } 0 0x01000095
    [{ value := LuaValueUnion.boolean true, type := LUA_TBOOLEAN },
     { value := LuaValueUnion.number 7, type := LUA_TNUMBER }]
    { value := LuaValueUnion.number 7, type := LUA_TNUMBER }
    (by decide) (by rfl) (by rfl)

/-! ## C34: the import stored at parse time and the import rendered -/

end LuauDisassembler
